import Mathlib

/-!
# Simulation_v5: the per-combination trading state machine

A shallow embedding of `simulation/simulation.go`, `strategy/strategy.go` and the sweep of
`main.go`.  The engine is embedded twice.

## The engine in exact arithmetic (namespace `Simulation_v5`)

* `float64` values are exact rationals (`ℚ`): no rounding, no overflow, no signed zero.
  Statements about this embedding are statements in exact arithmetic.
* A quotient that the source only *compares* (`currentReturn`, the lot return, and
  `capital/reserves`) is an `XRat`: the rational quotient when the divisor is non-zero and
  the IEEE-754 result (`+Inf`, `-Inf`, `NaN`) when the divisor is zero, compared the way
  Go compares it.
* The quotient `capital / price` that `buyAsset` stores is the rational quotient; it is what
  the program stores only when the price is not zero.

## The engine on binary64 (namespace `Simulation_v5.B64`)

* `float64` values are `F64`: signed zeros, finite binary64 values, signed infinities and
  NaN.  Every `+`, `-`, `*`, `/` is rounded to nearest, ties to even, one operation at a
  time (no fused multiply-add), and decimal literals and parsed fields are the nearest
  binary64 value.

## Both

* `sort.Sort` is a parameter `srt`; in exact arithmetic it is constrained by `SortSpec`: the
  library promises a permutation ordered by `Less`, and nothing about ties.
* The row under the cursor is read once per loop iteration and handed to the functions
  that, in the source, each read it again from `s.dFrame` (the cursor does not move inside
  an iteration).  A read outside the frame makes the run fail (`none`).
* The diagnostic file written by `logEvent` is the field `log`, one entry per call.
-/

namespace Simulation_v5

/-! ## Quotients that are only compared -/

/-- Result of a `float64` division: a finite value, or what IEEE-754 gives on a zero divisor. -/
inductive XRat where
  | fin (q : ℚ)
  | pinf
  | ninf
  | nan
  deriving DecidableEq

/-- Go's `a / b` on `float64`, exact when `b ≠ 0`. -/
def fdiv (a b : ℚ) : XRat :=
  if b = 0 then
    if 0 < a then XRat.pinf else if a < 0 then XRat.ninf else XRat.nan
  else XRat.fin (a / b)

/-- Go's `x > c` for a finite `c`. -/
def XRat.gt (x : XRat) (c : ℚ) : Bool :=
  match x with
  | XRat.fin q => decide (c < q)
  | XRat.pinf => true
  | XRat.ninf => false
  | XRat.nan => false

/-- Go's `x < c` for a finite `c`. -/
def XRat.lt (x : XRat) (c : ℚ) : Bool :=
  match x with
  | XRat.fin q => decide (q < c)
  | XRat.pinf => false
  | XRat.ninf => true
  | XRat.nan => false

/-! ## Data model -/

/-- One row of the price frame: the columns the program reads.  `EMAn k` is the column
`EMA_<k>`; `EMA` is the column named `EMA` that the strategy reads. -/
structure Row where
  Date : Int
  Close : ℚ
  EMA : ℚ
  MACD : ℚ
  SIGNAL : ℚ
  SAR : ℚ
  CHAI : ℚ
  dP : ℚ
  EMAn : Int → ℚ

/-- The `purchase` struct: one open lot. -/
structure purchase where
  price : ℚ
  amount : ℚ
  index : Nat
  deriving DecidableEq

/-- The `df` struct: cursor, rows, row count. -/
structure df where
  index : Nat
  data : List Row
  nRows : Nat

/-- What `getSnapshot` prints. -/
structure Snapshot where
  timestamp : Int
  index : Nat
  price : ℚ
  capital : ℚ
  asset : ℚ
  reserves : ℚ
  revenue : ℚ
  tax : ℚ
  fees : ℚ
  purchaseHist : List purchase
  strat : List (String × ℚ)

/-- One line of the diagnostic file. -/
inductive Event where
  | BUY (snap : Snapshot)
  | SELL (amount : ℚ) (snap : Snapshot)
  | BAL (snap : Snapshot)
  | OR (snap : Snapshot)

/-- The `Simulation` struct, with the diagnostic file as the field `log`. -/
structure Simulation where
  initialInvestment : ℚ
  assetName : String
  dataFile : String
  logFile : String
  feePercentage : ℚ
  taxRate : ℚ
  capital : ℚ
  reserves : ℚ
  lastBuyPrice : ℚ
  revenue : ℚ
  tax : ℚ
  fees : ℚ
  asset : ℚ
  numTransactions : Nat
  strat : String
  sellCondition : Int
  stratEMA : Int
  reinvestPercentage : ℚ
  minReturn : ℚ
  percentDrop : ℚ
  balanceTrip : ℚ
  minReserves : ℚ
  buys : List Nat
  sells : List Nat
  balances : List Nat
  openReserves : List Nat
  purchaseHistory : List purchase
  dFrame : df
  log : List Event

/-- Source `purchaseHistory.Less`: order by entry price. -/
def Less (a b : purchase) : Bool := decide (a.price < b.price)

/-- Contract of `sort.Sort(purchaseHistory(..))`: a permutation in which no element is
`Less` than an earlier one. -/
def SortSpec (srt : List purchase → List purchase) : Prop :=
  ∀ l, List.Perm (srt l) l ∧ List.Pairwise (fun a b => Less b a = false) (srt l)

/-! ## strategy.go -/

/-- Source `isBuyPSAR`. -/
def isBuyPSAR (row : Row) : Bool :=
  decide (row.SAR < row.Close) && decide (row.Close > row.EMA)

/-- Source `isBuyMACD`. -/
def isBuyMACD (row : Row) : Bool :=
  decide (row.MACD > row.SIGNAL) && decide (row.Close > row.EMA)

/-- Source `isBuyAltMACD`. -/
def isBuyAltMACD (row : Row) : Bool :=
  decide (row.MACD > row.SIGNAL) && decide (row.Close > row.EMA) && decide (row.MACD < 0)

/-- Source `isBuyMACDCHAI`. -/
def isBuyMACDCHAI (row : Row) : Bool :=
  decide (row.MACD > row.SIGNAL) && decide (row.Close > row.EMA) && decide (row.CHAI > 0)

/-- Source `strategy.IsBuy`. -/
def IsBuy (strat : String) (row : Row) : Bool :=
  if strat = "MACD-CHAI" then isBuyMACDCHAI row
  else if strat = "MACD-PSAR" then isBuyMACD row && isBuyPSAR row
  else if strat = "PSAR" then isBuyPSAR row
  else if strat = "MACD" then isBuyMACD row
  else if strat = "alt-MACD" then isBuyAltMACD row
  else false

/-- Source `sellCondition1`. -/
def sellCondition1 (minReturn : ℚ) (currentReturn : XRat) : Bool :=
  currentReturn.gt minReturn

/-- Source `sellCondition2`. -/
def sellCondition2 (price ema minReturn : ℚ) (currentReturn : XRat) : Bool :=
  (decide (ema > price) && currentReturn.gt minReturn) || currentReturn.gt (2 * minReturn)

/-- Source `sellCondition3`. -/
def sellCondition3 (price ema minReturn : ℚ) (currentReturn : XRat) : Bool :=
  decide (ema < price) && currentReturn.gt minReturn

/-- Source `sellCondition4`. -/
def sellCondition4 (price ema macd signal minReturn : ℚ) (currentReturn : XRat) : Bool :=
  decide (ema > price) && decide (macd < signal) && currentReturn.gt minReturn

/-- Source `sellCondition5`. -/
def sellCondition5 (price ema minReturn : ℚ) (currentReturn : XRat) : Bool :=
  decide (ema > price) && currentReturn.gt minReturn

/-- Source `sellCondition6`. -/
def sellCondition6 (dP minReturn : ℚ) (currentReturn : XRat) : Bool :=
  decide (dP < 0) && currentReturn.gt minReturn

/-- Source `strategy.IsSell`. -/
def IsSell (minReturn : ℚ) (currentReturn : XRat) (row : Row) (sellCondition : Int) : Bool :=
  if sellCondition = 1 then sellCondition1 minReturn currentReturn
  else if sellCondition = 2 then sellCondition2 row.Close row.EMA minReturn currentReturn
  else if sellCondition = 3 then sellCondition3 row.Close row.EMA minReturn currentReturn
  else if sellCondition = 4 then
    sellCondition4 row.Close row.EMA row.MACD row.SIGNAL minReturn currentReturn
  else if sellCondition = 5 then sellCondition5 row.Close row.EMA minReturn currentReturn
  else if sellCondition = 6 then sellCondition6 row.dP minReturn currentReturn
  else false

/-- The package variable `strategies`. -/
def strategies : List String := ["MACD-CHAI", "MACD", "PSAR", "MACD-PSAR", "alt-MACD"]

/-- Source `strategy.IsValidStrategy`. -/
def IsValidStrategy (strategy : String) : Bool :=
  strategies.any (fun strat => decide (strat = strategy))

/-- Source `strategy.GetStratString`: the labelled indicator values it prints. -/
def GetStratString (strat : String) (row : Row) : List (String × ℚ) :=
  if strat = "MACD-CHAI" then
    [("EMA", row.EMA), ("MACD", row.MACD), ("SIG", row.SIGNAL), ("CHAI", row.CHAI)]
  else if strat = "MACD-PSAR" then
    [("EMA", row.EMA), ("MACD", row.MACD), ("SIG", row.SIGNAL), ("PSAR", row.SAR)]
  else if strat = "PSAR" then [("EMA", row.EMA), ("PSAR", row.SAR)]
  else if strat = "MACD" then [("EMA", row.EMA), ("MACD", row.MACD), ("SIG", row.SIGNAL)]
  else if strat = "alt-MACD" then [("EMA", row.EMA), ("MACD", row.MACD), ("SIG", row.SIGNAL)]
  else []

/-! ## simulation.go -/

/-- Go's `math.Round`: nearest integer, halves away from zero. -/
def goRound (v : ℚ) : Int :=
  if 0 ≤ v then Int.floor (v + 1 / 2) else -Int.floor (-v + 1 / 2)

/-- Source `roundFloat`. -/
def roundFloat (v : ℚ) (precision : Nat) : ℚ :=
  let ratio : ℚ := 10 ^ precision
  (goRound (v * ratio) : ℚ) / ratio

/-- Source `logEvent`: append one entry to the diagnostic file. -/
def logEvent (event : Event) (s : Simulation) : Simulation :=
  { s with log := s.log ++ [event] }

/-- Source `getSnapshot`, on the row under the cursor. -/
def getSnapshot (row : Row) (s : Simulation) : Snapshot :=
  { timestamp := row.Date
    index := s.dFrame.index
    price := roundFloat row.Close 2
    capital := roundFloat s.capital 2
    asset := s.asset
    reserves := roundFloat s.reserves 2
    revenue := roundFloat s.revenue 2
    tax := roundFloat s.tax 2
    fees := roundFloat s.fees 2
    purchaseHist := s.purchaseHistory
    strat := GetStratString s.strat row }

/-- Source `isBuy`. -/
def isBuy (strat : String) (row : Row) : Bool := IsBuy strat row

/-- Source `isSell`. -/
def isSell (minReturn : ℚ) (currentReturn : XRat) (row : Row) (sellCondition : Int) : Bool :=
  IsSell minReturn currentReturn row sellCondition

/-- Source `calcPositions`, on the row under the cursor: `(buy, sell, openRes)`. -/
def calcPositions (row : Row) (s : Simulation) : Bool × Bool × Bool :=
  let price := row.Close
  let currentReturn := fdiv (price - s.lastBuyPrice) s.lastBuyPrice
  let buySell : Bool × Bool :=
    if s.capital > 0 then (isBuy s.strat row, false)
    else if s.asset > 0 then (false, isSell s.minReturn currentReturn row s.sellCondition)
    else (false, false)
  let openRes :=
    decide (s.capital < 1) && currentReturn.lt s.percentDrop && decide (s.reserves > s.minReserves)
  (buySell.1, buySell.2, openRes)

/-- The `if` branch of the loop of `sellAsset`: liquidate the lot `p` at the row's price. -/
def sellLot (row : Row) (p : purchase) (s : Simulation) : Simulation :=
  let price := row.Close
  let usdValueSold := p.amount * price
  let fee := usdValueSold * s.feePercentage
  let gain := usdValueSold - p.amount * p.price
  let tax := if gain > 0 then gain * s.taxRate else 0
  let reward := gain - fee - tax
  let toCapital := reward * s.reinvestPercentage
  let revenue := reward - toCapital
  let s1 : Simulation :=
    { s with
      asset := s.asset - p.amount
      capital := s.capital + (usdValueSold - gain + toCapital)
      revenue := s.revenue + revenue
      tax := s.tax + tax
      fees := s.fees + fee
      purchaseHistory := s.purchaseHistory.drop 1 }
  logEvent (Event.SELL p.amount (getSnapshot row s1)) s1

/-- The loop of `sellAsset` over the copy `ph`, with its `break`. -/
def sellLoop (row : Row) : List purchase → Simulation → Simulation
  | [], s => s
  | p :: ph, s =>
    if (fdiv (row.Close - p.price) p.price).gt s.minReturn then sellLoop row ph (sellLot row p s)
    else s

/-- Source `sellAsset`. -/
def sellAsset (srt : List purchase → List purchase) (row : Row) (s : Simulation) : Simulation :=
  let s0 : Simulation := { s with purchaseHistory := srt s.purchaseHistory }
  let ph := s0.purchaseHistory
  let s1 := sellLoop row ph s0
  { s1 with
    numTransactions := s1.numTransactions + 1
    sells := s1.sells ++ [s1.dFrame.index] }

/-- Source `balanceFunds`. -/
def balanceFunds (row : Row) (s : Simulation) : Simulation :=
  let total := s.capital + s.reserves
  let s1 : Simulation :=
    { s with
      capital := total / 2
      reserves := total / 2
      balances := s.balances ++ [s.dFrame.index] }
  logEvent (Event.BAL (getSnapshot row s1)) s1

/-- Source `openReserves`. -/
def openReserves (row : Row) (s : Simulation) : Simulation :=
  let s1 : Simulation :=
    { s with
      capital := s.reserves / 2
      reserves := s.reserves / 2
      openReserves := s.openReserves ++ [s.dFrame.index] }
  logEvent (Event.OR (getSnapshot row s1)) s1

/-- Source `buyAsset`. -/
def buyAsset (row : Row) (s : Simulation) : Simulation :=
  let fee := s.capital * s.feePercentage
  let capital := s.capital - fee
  let price := row.Close
  let amount := capital / price
  let p : purchase := { price := price, amount := amount, index := s.dFrame.index }
  let s1 : Simulation :=
    { s with
      fees := s.fees + fee
      capital := 0
      asset := s.asset + amount
      purchaseHistory := [p] ++ s.purchaseHistory
      lastBuyPrice := price
      numTransactions := s.numTransactions + 1
      buys := s.buys ++ [s.dFrame.index] }
  logEvent (Event.BUY (getSnapshot row s1)) s1

/-- The decision chain of one iteration of the loop of `RunSimulation` (lines 94-104). -/
def loopBody (srt : List purchase → List purchase) (row : Row) (s : Simulation) : Simulation :=
  let pos := calcPositions row s
  if pos.2.1 then
    let s1 := sellAsset srt row s
    if (fdiv s1.capital s1.reserves).gt s1.balanceTrip then balanceFunds row s1 else s1
  else if pos.1 then buyAsset row s
  else if pos.2.2 then openReserves row s
  else s

/-- The statement `s.dFrame.index += 1`. -/
def advance (s : Simulation) : Simulation :=
  { s with dFrame := { s.dFrame with index := s.dFrame.index + 1 } }

/-- The statement `s.dFrame.index -= 1`. -/
def retreat (s : Simulation) : Simulation :=
  { s with dFrame := { s.dFrame with index := s.dFrame.index - 1 } }

/-- The row under the cursor, `none` when the cursor is outside the frame. -/
def curRow (s : Simulation) : Option Row := s.dFrame.data[s.dFrame.index]?

/-- The loop of `RunSimulation`, bounded by `fuel` iterations. -/
def runLoop (srt : List purchase → List purchase) : Nat → Simulation → Option Simulation
  | 0, _ => none
  | fuel + 1, s =>
    match curRow s with
    | none => none
    | some row =>
      let s1 := advance (loopBody srt row s)
      if s1.dFrame.index ≥ s1.dFrame.nRows then some (retreat s1) else runLoop srt fuel s1

/-- Source `getBuyHold`. -/
def getBuyHold (s : Simulation) : Option ℚ :=
  match s.dFrame.data[0]?, s.dFrame.data[s.dFrame.nRows - 1]? with
  | some first, some last =>
    let initialPrice := first.Close
    let finalPrice := last.Close
    let feeBuy := s.initialInvestment * s.feePercentage
    let capital := s.initialInvestment - feeBuy
    let amount := capital / initialPrice
    let usdValueSold := amount * finalPrice
    let feeSell := usdValueSold * s.feePercentage
    let gain := usdValueSold - s.initialInvestment
    if gain > 0 then
      let tax := gain * s.taxRate
      some (roundFloat (gain - tax - feeSell) 2)
    else some (roundFloat (gain - feeSell) 2)
  | _, _ => none

/-- Source `getAssetValue`, on the row under the cursor. -/
def getAssetValue (row : Row) (s : Simulation) : ℚ := s.asset * row.Close

/-- Source `getSimTotalValue`, on the row under the cursor. -/
def getSimTotalValue (row : Row) (s : Simulation) : ℚ :=
  roundFloat (getAssetValue row s + s.capital + s.reserves) 2

/-- The comma separated fields that `getResultString` prints, in order. -/
structure ResultRecord where
  startDate : Int
  endDate : Int
  strat : String
  stratEMA : Int
  reinvestPercentage : ℚ
  minReturn : ℚ
  percentDrop : ℚ
  balanceTrip : ℚ
  buyHold : ℚ
  finalValue : ℚ
  revenue : ℚ
  tax : ℚ
  fees : ℚ
  numTransactions : Nat
  buys : List Nat
  sells : List Nat
  balances : List Nat
  openReserves : List Nat
  dataFile : String

/-- Source `getResultString`. -/
def getResultString (s : Simulation) (price : ℚ) : Option ResultRecord :=
  match s.dFrame.data[0]?, s.dFrame.data[s.dFrame.nRows - 1]?, getBuyHold s with
  | some first, some last, some bh =>
    some
      { startDate := first.Date
        endDate := last.Date
        strat := s.strat
        stratEMA := s.stratEMA
        reinvestPercentage := s.reinvestPercentage
        minReturn := s.minReturn
        percentDrop := s.percentDrop
        balanceTrip := s.balanceTrip
        buyHold := bh
        finalValue := roundFloat (s.capital + s.reserves + s.asset * price) 2
        revenue := roundFloat s.revenue 2
        tax := roundFloat s.tax 2
        fees := roundFloat s.fees 2
        numTransactions := s.numTransactions
        buys := s.buys
        sells := s.sells
        balances := s.balances
        openReserves := s.openReserves
        dataFile := s.dataFile }
  | _, _, _ => none

/-- The `Result` struct (`Err` is always `nil`). -/
structure Result where
  AssetName : String
  ResultString : ResultRecord

/-- Source `RunSimulation`: the final state and the result, `none` when a read leaves the frame. -/
def RunSimulation (srt : List purchase → List purchase) (s : Simulation) :
    Option (Simulation × Result) :=
  match runLoop srt (s.dFrame.nRows + 1) s with
  | none => none
  | some sf =>
    match curRow sf with
    | none => none
    | some row =>
      match getResultString sf row.Close with
      | none => none
      | some str => some (sf, { AssetName := sf.assetName, ResultString := str })

/-- Source `newDF`. -/
def newDF (dFrame : List Row) : df := { index := 0, data := dFrame, nRows := dFrame.length }

/-- Source `NewSimulation` (its error result is always `nil`). -/
def NewSimulation (asset : String) (investAMT taxRate feePercentage : ℚ) (dataFile : String)
    (data : List Row) (logFile : String) : Simulation :=
  { initialInvestment := investAMT
    assetName := asset
    dataFile := dataFile
    logFile := logFile
    feePercentage := feePercentage
    taxRate := taxRate
    capital := investAMT / 2
    reserves := investAMT / 2
    lastBuyPrice := 0
    revenue := 0
    tax := 0
    fees := 0
    asset := 0
    numTransactions := 0
    strat := ""
    sellCondition := 0
    stratEMA := 0
    reinvestPercentage := 0
    minReturn := 0
    percentDrop := 0
    balanceTrip := 0
    minReserves := investAMT * (125 / 1000)
    buys := []
    sells := []
    balances := []
    openReserves := []
    purchaseHistory := []
    dFrame := newDF data
    log := [] }

/-- Source `DataFrame.Rename("EMA", "EMA_<ema>")`: the period column becomes the column `EMA`. -/
def renameEMA (ema : Int) (data : List Row) : List Row :=
  data.map (fun row => { row with EMA := row.EMAn ema })

/-- Source `SetStratParams`: the state that `s` points to after the call, and the error
returned (`none` for `nil`).  On an invalid strategy the function returns before its first
assignment. -/
def SetStratParams (s : Simulation) (strat : String) (sellCondition : Int) (ema : Int)
    (reinvestPercentage minReturn percentDrop balanceTrip : ℚ) : Simulation × Option String :=
  if IsValidStrategy strat then
    ({ s with
        strat := strat
        stratEMA := ema
        sellCondition := sellCondition
        dFrame := { s.dFrame with data := renameEMA ema s.dFrame.data, index := 0 }
        reinvestPercentage := reinvestPercentage
        minReturn := minReturn
        percentDrop := -1 * percentDrop
        balanceTrip := balanceTrip }, none)
  else (s, some "Invalid strategy")

/-! ## Observations used by the statements -/

/-- The return of a lot at market price `P`, as `sellAsset` computes it. -/
def lotReturn (P : ℚ) (p : purchase) : XRat := fdiv (P - p.price) p.price

/-- The test of the loop of `sellAsset`: `lotReturn > minReturn`. -/
def qualifies (P minReturn : ℚ) (p : purchase) : Bool := (lotReturn P p).gt minReturn

/-- The lots that `sellAsset` liquidates: the leading run of qualifying lots of the sorted
history. -/
def liquidated (srt : List purchase → List purchase) (row : Row) (s : Simulation) :
    List purchase :=
  (srt s.purchaseHistory).takeWhile (qualifies row.Close s.minReturn)

/-- Sum of the amounts of a list of lots. -/
def sumAmount (l : List purchase) : ℚ := (l.map (fun p => p.amount)).sum

/-- Whether a diagnostic entry is a SELL entry. -/
def Event.isSELL : Event → Bool
  | Event.SELL _ _ => true
  | _ => false

/-- Number of SELL entries in a diagnostic file. -/
def countSELL (l : List Event) : Nat := l.countP Event.isSELL

/-- Insertion sort by entry price, an instance of the contract of `sort.Sort`. -/
def isort (l : List purchase) : List purchase :=
  l.insertionSort (fun a b => a.price ≤ b.price)

/-- The fold that the loop of `sellAsset` performs over the lots it liquidates. -/
def sellAll (row : Row) (l : List purchase) (s : Simulation) : Simulation :=
  l.foldl (fun t p => sellLot row p t) s

/-- The fields that no action of the engine writes. -/
def sameConfig (s t : Simulation) : Prop :=
  t.initialInvestment = s.initialInvestment ∧ t.feePercentage = s.feePercentage ∧
  t.taxRate = s.taxRate ∧ t.strat = s.strat ∧ t.sellCondition = s.sellCondition ∧
  t.reinvestPercentage = s.reinvestPercentage ∧ t.minReturn = s.minReturn ∧
  t.percentDrop = s.percentDrop ∧ t.balanceTrip = s.balanceTrip ∧
  t.minReserves = s.minReserves ∧ t.dFrame.data = s.dFrame.data ∧
  t.dFrame.nRows = s.dFrame.nRows

/-- The fields that the loop of `sellAsset` leaves alone. -/
def sellFrame (s t : Simulation) : Prop :=
  t.reserves = s.reserves ∧ t.lastBuyPrice = s.lastBuyPrice ∧
  t.numTransactions = s.numTransactions ∧ t.buys = s.buys ∧ t.sells = s.sells ∧
  t.balances = s.balances ∧ t.openReserves = s.openReserves ∧ t.dFrame = s.dFrame

/-- Proceeds of liquidating a lot at market price `P`: `amount * P`. -/
def lotProceeds (P : ℚ) (p : purchase) : ℚ := p.amount * P

/-- Fee on the proceeds of a lot. -/
def lotFee (feeRate P : ℚ) (p : purchase) : ℚ := lotProceeds P p * feeRate

/-- Gain of a lot: proceeds minus cost basis. -/
def lotGain (P : ℚ) (p : purchase) : ℚ := lotProceeds P p - p.amount * p.price

/-- Tax of a lot: `gain * taxRate` when the gain is positive, else nothing. -/
def lotTax (taxRate P : ℚ) (p : purchase) : ℚ :=
  if lotGain P p > 0 then lotGain P p * taxRate else 0

/-- Net reward of a lot: gain minus fee minus tax. -/
def lotNetReward (feeRate taxRate P : ℚ) (p : purchase) : ℚ :=
  lotGain P p - lotFee feeRate P p - lotTax taxRate P p

/-- Reinvested share of the net reward of a lot. -/
def lotReinvested (feeRate taxRate reinvest P : ℚ) (p : purchase) : ℚ :=
  lotNetReward feeRate taxRate P p * reinvest

/-- States at the top of the loop of `RunSimulation`, in the run that starts in `s0`. -/
inductive AtHead (srt : List purchase → List purchase) (s0 : Simulation) : Simulation → Prop
  | start : AtHead srt s0 s0
  | next (s : Simulation) (row : Row) :
      AtHead srt s0 s → curRow s = some row →
      ¬ ((advance (loopBody srt row s)).dFrame.index ≥
          (advance (loopBody srt row s)).dFrame.nRows) →
      AtHead srt s0 (advance (loopBody srt row s))

/-- Every state the run from `s0` passes through: the top of the loop, after `sellAsset`,
after the decision chain (that is after `buyAsset`, `balanceFunds`, `openReserves`, or none),
after the cursor moved, and after the cursor was put back on the last row. -/
inductive Visited (srt : List purchase → List purchase) (s0 : Simulation) : Simulation → Prop
  | head (s : Simulation) : AtHead srt s0 s → Visited srt s0 s
  | sold (s : Simulation) (row : Row) :
      AtHead srt s0 s → curRow s = some row → (calcPositions row s).2.1 = true →
      Visited srt s0 (sellAsset srt row s)
  | acted (s : Simulation) (row : Row) :
      AtHead srt s0 s → curRow s = some row → Visited srt s0 (loopBody srt row s)
  | moved (s : Simulation) (row : Row) :
      AtHead srt s0 s → curRow s = some row → Visited srt s0 (advance (loopBody srt row s))
  | done (s : Simulation) (row : Row) :
      AtHead srt s0 s → curRow s = some row →
      (advance (loopBody srt row s)).dFrame.index ≥ (advance (loopBody srt row s)).dFrame.nRows →
      Visited srt s0 (retreat (advance (loopBody srt row s)))

/-- The set-up of `simulate` in `main.go`: `NewSimulation` followed by `SetStratParams`; an
error of `SetStratParams` is fatal. -/
def setup (asset : String) (investAMT taxRate feePercentage : ℚ) (dataFile : String)
    (data : List Row) (logFile : String) (strat : String) (sellCondition : Int) (ema : Int)
    (reinvestPercentage minReturn percentDrop balanceTrip : ℚ) : Except String Simulation :=
  let r := SetStratParams
    (NewSimulation asset investAMT taxRate feePercentage dataFile data logFile)
    strat sellCondition ema reinvestPercentage minReturn percentDrop balanceTrip
  match r.2 with
  | none => Except.ok r.1
  | some err => Except.error err

/-- A sample row with close price `P` on which `MACD` gives a buy signal. -/
def rowUp (P : ℚ) : Row :=
  { Date := 0, Close := P, EMA := 0, MACD := 1, SIGNAL := 0, SAR := 0, CHAI := 0, dP := 0,
    EMAn := fun _ => 0 }

/-- A sample row with close price `P` on which `MACD` gives no buy signal. -/
def rowFlat (P : ℚ) : Row :=
  { Date := 0, Close := P, EMA := 0, MACD := 0, SIGNAL := 1, SAR := 0, CHAI := 0, dP := 0,
    EMAn := fun _ => 0 }

/-- A sample start state: strategy `MACD`, sell condition 1, given rates and rows. -/
def sampleStart (investAMT taxRate feePercentage reinvest minReturn percentDrop balanceTrip : ℚ)
    (data : List Row) : Simulation :=
  { NewSimulation "A" investAMT taxRate feePercentage "d" data "l" with
    strat := "MACD"
    stratEMA := 0
    sellCondition := 1
    dFrame := { (NewSimulation "A" investAMT taxRate feePercentage "d" data "l").dFrame with
      data := renameEMA 0 data, index := 0 }
    reinvestPercentage := reinvest
    minReturn := minReturn
    percentDrop := -1 * percentDrop
    balanceTrip := balanceTrip }

/-- Sample run A: a buy at 10, the price falls to 5 (reserves are opened), then rises to 20. -/
def rowsA : List Row := [rowUp 10, rowFlat 5, rowFlat 20]

/-- Start state of sample run A: investment 40, no fee, no tax, everything reinvested,
minReturn 0, percentDrop 1/10, balanceTrip 100. -/
def startA : Simulation := sampleStart 40 0 0 1 0 (1 / 10) 100 rowsA

/-- Sample run A at the top of the loop on row 1. -/
def headA1 : Simulation := advance (buyAsset (rowUp 10) startA)

/-- Sample run A at the top of the loop on row 2. -/
def headA2 : Simulation := advance (openReserves (rowFlat 5) headA1)

/-- Sample run B: a buy at 10, the price falls to 5 (reserves are opened), a second buy at
`x`, then the price rises to 20. -/
def rowsB (x : ℚ) : List Row := [rowUp 10, rowFlat 5, rowUp x, rowFlat 20]

/-- Start state of sample run B: investment 40, no fee, no tax, everything reinvested,
minReturn 0, percentDrop 1/10, balanceTrip 100. -/
def startB (x : ℚ) : Simulation := sampleStart 40 0 0 1 0 (1 / 10) 100 (rowsB x)

/-- Sample run B at the top of the loop on row 1. -/
def headB1 (x : ℚ) : Simulation := advance (buyAsset (rowUp 10) (startB x))

/-- Sample run B at the top of the loop on row 2. -/
def headB2 (x : ℚ) : Simulation := advance (openReserves (rowFlat 5) (headB1 x))

/-- Sample run B at the top of the loop on row 3. -/
def headB3 (x : ℚ) : Simulation := advance (buyAsset (rowUp x) (headB2 x))

/-- The non-negativity invariant of the engine, with the side conditions it rests on: rates
in range with `feePercentage + taxRate <= 1`, positive close prices, lots with non-negative
amount and positive price, and asset equal to the sum of the lot amounts. -/
def NonNeg (s : Simulation) : Prop :=
  (0 ≤ s.feePercentage ∧ s.feePercentage ≤ 1 ∧ 0 ≤ s.taxRate ∧
    s.feePercentage + s.taxRate ≤ 1 ∧ 0 ≤ s.reinvestPercentage ∧ s.reinvestPercentage ≤ 1 ∧
    ∀ row ∈ s.dFrame.data, 0 < row.Close) ∧
  0 ≤ s.capital ∧ 0 ≤ s.reserves ∧ 0 ≤ s.asset ∧
  (∀ p ∈ s.purchaseHistory, 0 ≤ p.amount ∧ 0 < p.price) ∧
  sumAmount s.purchaseHistory = s.asset

/-- Sample run C: fee 9/10, tax rate 1, everything reinvested; a buy at 1, a sell at 2. -/
def rowsC : List Row := [rowUp 1, rowFlat 2]

/-- Start state of sample run C: investment 20. -/
def startC : Simulation := sampleStart 20 1 (9 / 10) 1 0 0 100 rowsC

/-- Sample run C at the top of the loop on row 1. -/
def headC1 : Simulation := advance (buyAsset (rowUp 1) startC)

/-- The buy-and-hold benchmark as the specification words it: with `a = (I - I*fee)/first`,
`s = a*last*fee`, `g = a*last - I` and `t = g*taxRate` if `g > 0`, else 0, the value
`g - t - s` rounded to 2 decimals. -/
def buyHoldValue (first last fee taxRate I : ℚ) : ℚ :=
  let a := (I - I * fee) / first
  let s := a * last * fee
  let g := a * last - I
  let t := if g > 0 then g * taxRate else 0
  roundFloat (g - t - s) 2

/-- Sample run D: two rows, a buy at 10 and a sell at 20. -/
def rowsD : List Row := [rowUp 10, rowFlat 20]

/-- Start state of sample run D: investment 40, no fee, no tax, reinvest percentage `r`,
minReturn 0, percentDrop 1/10, balanceTrip `bt`. -/
def startD (r bt : ℚ) : Simulation := sampleStart 40 0 0 r 0 (1 / 10) bt rowsD

/-- Sample run D at the top of the loop on row 1. -/
def headD1 (r bt : ℚ) : Simulation := advance (buyAsset (rowUp 10) (startD r bt))

/-- One decision step on each row of `rows` in turn: the decision chain, then the cursor
moves. -/
def runFrom (srt : List purchase → List purchase) (rows : List Row) (s : Simulation) :
    Simulation :=
  rows.foldl (fun t row => advance (loopBody srt row t)) s

/-- The loop of `RunSimulation` with its result replaced by the list of cursor positions at
which the decision chain ran, in the order in which it ran. -/
def runTrace (srt : List purchase → List purchase) : Nat → Simulation → List Nat
  | 0, _ => []
  | fuel + 1, s =>
    match curRow s with
    | none => []
    | some row =>
      let s1 := advance (loopBody srt row s)
      if s1.dFrame.index ≥ s1.dFrame.nRows then [s.dFrame.index]
      else s.dFrame.index :: runTrace srt fuel s1

/-- Whether a diagnostic entry is a BUY entry. -/
def Event.isBUY : Event → Bool
  | Event.BUY _ => true
  | _ => false

/-- Number of BUY entries in a diagnostic file. -/
def countBUY (l : List Event) : Nat := l.countP Event.isBUY

/-- The shape of the four index lists claimed of a run on `n` rows: each list strictly
increasing with entries below `n`; buys, sells and openReserves pairwise disjoint; every entry
of balances also in sells; numTransactions equal to the number of buys plus sells. -/
def IndexLists (n : Nat) (s : Simulation) : Prop :=
  (s.buys.Pairwise (fun a b => a < b) ∧ s.sells.Pairwise (fun a b => a < b) ∧
    s.balances.Pairwise (fun a b => a < b) ∧ s.openReserves.Pairwise (fun a b => a < b)) ∧
  ((∀ i ∈ s.buys, i < n) ∧ (∀ i ∈ s.sells, i < n) ∧ (∀ i ∈ s.balances, i < n) ∧
    (∀ i ∈ s.openReserves, i < n)) ∧
  ((∀ i ∈ s.buys, i ∉ s.sells) ∧ (∀ i ∈ s.buys, i ∉ s.openReserves) ∧
    (∀ i ∈ s.sells, i ∉ s.openReserves)) ∧
  (∀ i ∈ s.balances, i ∈ s.sells) ∧
  s.numTransactions = s.buys.length + s.sells.length

/-- Every entry of the four index lists is below `k`. -/
def Below (k : Nat) (s : Simulation) : Prop :=
  (∀ i ∈ s.buys, i < k) ∧ (∀ i ∈ s.sells, i < k) ∧ (∀ i ∈ s.balances, i < k) ∧
  (∀ i ∈ s.openReserves, i < k)

/-- Cost basis of a list of open lots: the sum of `amount * price`. -/
def lotsValue (l : List purchase) : ℚ := (l.map (fun p => p.amount * p.price)).sum

/-- The accounting total `W`: capital + reserves + revenue + tax + fees + the cost basis of
the open lots. -/
def W (s : Simulation) : ℚ :=
  s.capital + s.reserves + s.revenue + s.tax + s.fees + lotsValue s.purchaseHistory

/-- The invariant behind "a Sell liquidates at least one lot": rates in range with
`feePercentage < 1` and `feePercentage + taxRate <= 1`, minReturn `>= 0`, positive close
prices, capital `>= 0`, reserves `> 0`, lots of positive amount and price whose amounts sum to
asset, and, whenever capital is 0 and a lot is open, a lot bought at lastBuyPrice is open. -/
def Holding (s : Simulation) : Prop :=
  (0 ≤ s.feePercentage ∧ s.feePercentage < 1 ∧ 0 ≤ s.taxRate ∧
    s.feePercentage + s.taxRate ≤ 1 ∧ 0 ≤ s.reinvestPercentage ∧ s.reinvestPercentage ≤ 1 ∧
    0 ≤ s.minReturn ∧ ∀ row ∈ s.dFrame.data, 0 < row.Close) ∧
  0 ≤ s.capital ∧ 0 < s.reserves ∧
  (∀ p ∈ s.purchaseHistory, 0 < p.amount ∧ 0 < p.price) ∧
  sumAmount s.purchaseHistory = s.asset ∧
  (s.capital = 0 → s.purchaseHistory ≠ [] →
    ∃ p ∈ s.purchaseHistory, p.price = s.lastBuyPrice)

/-- Sample run E: sell condition 2 with minReturn -1/10; a buy at 100, then the price 85. -/
def rowsE : List Row := [rowUp 100, rowFlat 85]

/-- Start state of sample run E: investment 40, no fee, no tax, everything reinvested,
percentDrop 1/10, balanceTrip 100. -/
def startE : Simulation :=
  { sampleStart 40 0 0 1 (-(1 / 10)) (1 / 10) 100 rowsE with sellCondition := 2 }

/-- Sample run E at the top of the loop on row 1. -/
def headE1 : Simulation := advance (buyAsset (rowUp 100) startE)

/-! ## main.go -/

/-- Go's `int` of `w` bits: the two's complement value a result wraps to. -/
def wrapInt (w : Nat) (n : Int) : Int := (n + 2 ^ (w - 1)) % 2 ^ w - 2 ^ (w - 1)

/-- Go's `*` on `int` of `w` bits. -/
def mulInt (w : Nat) (a b : Int) : Int := wrapInt w (a * b)

/-- The package variables of `main.go` that describe a sweep. -/
structure SweepConfig where
  EMAValues : List Int
  ReinvestPercentageValues : List ℚ
  MinReturnValues : List ℚ
  PercentDrop : List ℚ
  BalanceTripwires : List ℚ
  Strategies : List String
  investmentAMT : ℚ
  sellCondition : Int
  taxRate : ℚ
  fees : ℚ

/-- Source `getNumSims`, on an `int` of `w` bits. -/
def getNumSims (w : Nat) (cfg : SweepConfig) (assets : List String) : Int :=
  mulInt w
    (mulInt w
      (mulInt w
        (mulInt w
          (mulInt w (mulInt w (assets.length : Int) (cfg.EMAValues.length : Int))
            (cfg.ReinvestPercentageValues.length : Int))
          (cfg.MinReturnValues.length : Int))
        (cfg.PercentDrop.length : Int))
      (cfg.BalanceTripwires.length : Int))
    (cfg.Strategies.length : Int)

/-- The arguments of one `go simulate(...)` call that vary over the sweep. -/
structure Combination where
  asset : String
  strat : String
  ema : Int
  reinvestPerc : ℚ
  minReturn : ℚ
  percentDrop : ℚ
  balanceTrip : ℚ

/-- The nested loops of `main` (lines 89-112): the `go simulate(...)` calls in the order in
which they are issued, the creation of the log directories being taken to succeed. -/
def combinations (cfg : SweepConfig) (assets : List String) : List Combination :=
  assets.flatMap fun asset =>
    cfg.Strategies.flatMap fun strat =>
      cfg.EMAValues.flatMap fun ema =>
        cfg.ReinvestPercentageValues.flatMap fun reinvestPerc =>
          cfg.MinReturnValues.flatMap fun minReturn =>
            cfg.PercentDrop.flatMap fun percentDrop =>
              cfg.BalanceTripwires.map fun balanceTrip =>
                { asset := asset, strat := strat, ema := ema, reinvestPerc := reinvestPerc,
                  minReturn := minReturn, percentDrop := percentDrop,
                  balanceTrip := balanceTrip }

/-- The three outcomes of `getData`: a frame and its file name, an `InvalidDataError`, or any
other error. -/
inductive DataResult where
  | ok (data : List Row) (dataFile : String)
  | invalidData
  | otherError

/-- What one task that returns has done to the shared counters and the result file: calls of
`WG.Done`, calls of `bar.Increment`, lines appended by `logResult`. -/
structure TaskEffect where
  wgDone : Nat
  barIncrement : Nat
  resultLines : Nat

/-- Source `simulate`, as the effect of one task: `none` when the task ends the process
(`log.Fatal`, or a read outside the frame in `RunSimulation`).  `writeOk` says whether the
writes of `logResult` succeed. -/
def simulate (srt : List purchase → List purchase) (cfg : SweepConfig) (c : Combination)
    (logFile : String) (d : DataResult) (writeOk : Bool) : Option TaskEffect :=
  match d with
  | DataResult.invalidData => some { wgDone := 1, barIncrement := 1, resultLines := 0 }
  | DataResult.otherError => none
  | DataResult.ok data dataFile =>
    let sim := NewSimulation c.asset cfg.investmentAMT cfg.taxRate cfg.fees dataFile data logFile
    let r := SetStratParams sim c.strat cfg.sellCondition c.ema c.reinvestPerc c.minReturn
      c.percentDrop c.balanceTrip
    match r.2 with
    | some _ => none
    | none =>
      match RunSimulation srt r.1 with
      | none => none
      | some _ =>
        if writeOk then some { wgDone := 1, barIncrement := 1, resultLines := 1 } else none

/-- The effects of all the tasks of a sweep, one entry per `go simulate(...)` call. -/
def sweepEffects (srt : List purchase → List purchase) (cfg : SweepConfig)
    (assets : List String) (logFile : Combination → String) (d : Combination → DataResult)
    (writeOk : Combination → Bool) : List (Option TaskEffect) :=
  (combinations cfg assets).map fun c => simulate srt cfg c (logFile c) (d c) (writeOk c)

/-- Number of tasks that completed with a result line. -/
def completed (l : List (Option TaskEffect)) : Nat :=
  l.countP fun o => match o with
    | some e => decide (e.resultLines = 1)
    | none => false

/-- Number of tasks that were skipped: they returned without a result line. -/
def skipped (l : List (Option TaskEffect)) : Nat :=
  l.countP fun o => match o with
    | some e => decide (e.resultLines = 0)
    | none => false

/-- Total number of `WG.Done` calls of the tasks that returned. -/
def totalDone (l : List (Option TaskEffect)) : Nat :=
  (l.map fun o => match o with
    | some e => e.wgDone
    | none => 0).sum

/-- A sweep configuration with 512 values in every domain. -/
def bigConfig : SweepConfig :=
  { EMAValues := List.replicate 512 1
    ReinvestPercentageValues := List.replicate 512 1
    MinReturnValues := List.replicate 512 0
    PercentDrop := List.replicate 512 0
    BalanceTripwires := List.replicate 512 1
    Strategies := List.replicate 512 "MACD"
    investmentAMT := 40
    sellCondition := 1
    taxRate := 0
    fees := 0 }

/-- An asset list with 512 entries. -/
def bigAssets : List String := List.replicate 512 "A"

/-- The product of all domain sizes of a sweep. -/
def domainProduct (cfg : SweepConfig) (assets : List String) : Nat :=
  assets.length * cfg.Strategies.length * cfg.EMAValues.length *
    cfg.ReinvestPercentageValues.length * cfg.MinReturnValues.length * cfg.PercentDrop.length *
    cfg.BalanceTripwires.length

/-- A sweep configuration with one value in every domain. -/
def smallConfig : SweepConfig :=
  { EMAValues := [0]
    ReinvestPercentageValues := [1]
    MinReturnValues := [0]
    PercentDrop := [1 / 10]
    BalanceTripwires := [1]
    Strategies := ["MACD"]
    investmentAMT := 40
    sellCondition := 1
    taxRate := 0
    fees := 0 }

/-- Data for the sweep over the assets `A` and `B`: the rows of sample run D for `A`, an
`InvalidDataError` for `B`. -/
def smallData (c : Combination) : DataResult :=
  if c.asset = "A" then DataResult.ok rowsD "d" else DataResult.invalidData

/-! ## binary64 -/

/-- A `float64` value: a signed zero, a finite non-zero value `(-1)^neg * m * 2^e`, a signed
infinity, or a NaN.  The operations below return the finite values in the IEEE-754 form:
`2^52 <= m < 2^53` and `-1074 <= e <= 971`, or `0 < m < 2^52` and `e = -1074`. -/
inductive F64 where
  | zero (neg : Bool)
  | fin (neg : Bool) (m : Nat) (e : Int)
  | inf (neg : Bool)
  | nan
  deriving DecidableEq

namespace F64

/-- Number of binary digits of `n`, by halving at most `fuel` times. -/
def bitlenAux : Nat → Nat → Nat
  | 0, _ => 0
  | fuel + 1, n => if n = 0 then 0 else bitlenAux fuel (n / 2) + 1

/-- Number of binary digits of `n`. -/
def bitlen (n : Nat) : Nat := bitlenAux n n

/-- Whether `2^t <= n/d`, for `d > 0`. -/
def geTwoPow (n d : Nat) (t : Int) : Bool :=
  if 0 ≤ t then decide (d * 2 ^ t.toNat ≤ n) else decide (d ≤ n * 2 ^ (-t).toNat)

/-- Round to nearest, ties to even: the `float64` nearest to `(-1)^neg * (n/d) * 2^e`, for
`d > 0`.  Values too large for a finite `float64` give an infinity, values too small give a
zero, both with the sign `neg`. -/
def round (neg : Bool) (n d : Nat) (e : Int) : F64 :=
  if n = 0 then zero neg
  else
    let t : Int := (bitlen n : Int) - (bitlen d : Int)
    let l : Int := if geTwoPow n d t then t else t - 1
    let k : Int := max (l + e - 52) (-1074)
    let s : Int := e - k
    let num : Nat := if 0 ≤ s then n * 2 ^ s.toNat else n
    let den : Nat := if 0 ≤ s then d else d * 2 ^ (-s).toNat
    let q : Nat := num / den
    let r : Nat := num % den
    let q1 : Nat :=
      if 2 * r < den then q
      else if den < 2 * r then q + 1
      else if q % 2 = 0 then q else q + 1
    if q1 = 0 then zero neg
    else if q1 = 2 ^ 53 then (if 971 < k + 1 then inf neg else fin neg (2 ^ 52) (k + 1))
    else if 971 < k then inf neg
    else fin neg q1 k

/-- The `float64` nearest to the fraction `n/d` (a decimal literal or a parsed field), with
the sign `neg`. -/
def ofRatio (neg : Bool) (n d : Nat) : F64 := round neg n d 0

/-- The `float64` of a natural number. -/
def ofNat (n : Nat) : F64 := round false n 1 0

/-- Go's unary `-`. -/
def neg : F64 → F64
  | zero s => zero (!s)
  | fin s m e => fin (!s) m e
  | inf s => inf (!s)
  | nan => nan

/-- The signed integer `(-1)^s * m * 2^(e - e0)`, for `e0 <= e`. -/
def scaled (s : Bool) (m : Nat) (e e0 : Int) : Int :=
  if s then -((m * 2 ^ (e - e0).toNat : Nat) : Int) else ((m * 2 ^ (e - e0).toNat : Nat) : Int)

/-- Go's `+` on `float64`. -/
def add : F64 → F64 → F64
  | nan, _ => nan
  | _, nan => nan
  | inf s, inf t => if s = t then inf s else nan
  | inf s, _ => inf s
  | _, inf t => inf t
  | zero s, zero t => zero (s && t)
  | zero _, fin t m e => fin t m e
  | fin s m e, zero _ => fin s m e
  | fin s m e, fin t n f =>
    let e0 := min e f
    let sum : Int := scaled s m e e0 + scaled t n f e0
    if sum = 0 then zero false else round (decide (sum < 0)) sum.natAbs 1 e0

/-- Go's binary `-` on `float64`. -/
def sub (x y : F64) : F64 := add x (neg y)

/-- Go's `*` on `float64`. -/
def mul : F64 → F64 → F64
  | nan, _ => nan
  | _, nan => nan
  | inf _, zero _ => nan
  | zero _, inf _ => nan
  | inf s, inf t => inf (s != t)
  | inf s, fin t _ _ => inf (s != t)
  | fin s _ _, inf t => inf (s != t)
  | zero s, zero t => zero (s != t)
  | zero s, fin t _ _ => zero (s != t)
  | fin s _ _, zero t => zero (s != t)
  | fin s m e, fin t n f => round (s != t) (m * n) 1 (e + f)

/-- Go's `/` on `float64`. -/
def div : F64 → F64 → F64
  | nan, _ => nan
  | _, nan => nan
  | inf _, inf _ => nan
  | zero _, zero _ => nan
  | inf s, zero t => inf (s != t)
  | inf s, fin t _ _ => inf (s != t)
  | zero s, inf t => zero (s != t)
  | fin s _ _, inf t => zero (s != t)
  | zero s, fin t _ _ => zero (s != t)
  | fin s _ _, zero t => inf (s != t)
  | fin s m e, fin t n f => round (s != t) m n (e - f)

/-- Go's `<` on `float64`: false when either side is a NaN, and `-0 < +0` is false. -/
def lt : F64 → F64 → Bool
  | nan, _ => false
  | _, nan => false
  | inf s, inf t => s && !t
  | inf s, _ => s
  | _, inf t => !t
  | zero _, zero _ => false
  | zero _, fin t _ _ => !t
  | fin s _ _, zero _ => s
  | fin s m e, fin t n f => decide (scaled s m e (min e f) < scaled t n f (min e f))

/-- Go's `math.Round`: the nearest integer, halves away from zero. -/
def goRound : F64 → F64
  | fin s m e =>
    if 0 ≤ e then fin s m e
    else
      let den : Nat := 2 ^ (-e).toNat
      let q : Nat := m / den
      let r : Nat := m % den
      let q1 : Nat := if den ≤ 2 * r then q + 1 else q
      round s q1 1 0
  | x => x

instance : Add F64 := ⟨add⟩
instance : Sub F64 := ⟨sub⟩
instance : Mul F64 := ⟨mul⟩
instance : Div F64 := ⟨div⟩
instance : Neg F64 := ⟨neg⟩
instance : LT F64 := ⟨fun x y => lt x y = true⟩
instance (x y : F64) : Decidable (x < y) := inferInstanceAs (Decidable (lt x y = true))
instance (n : Nat) : OfNat F64 n := ⟨ofNat n⟩

end F64

/-! ## The engine on binary64

The same functions again, with every `float64` operation performed in binary64: each
`+`, `-`, `*`, `/` rounds to nearest (ties to even), a zero divisor gives an infinity or a
NaN, and comparisons with a NaN are false.  Operations are performed one by one, as the
compiler does without fused multiply-add. -/

namespace B64

/-! ### Data model -/

/-- One row of the price frame: the columns the program reads.  `EMAn k` is the column
`EMA_<k>`; `EMA` is the column named `EMA` that the strategy reads. -/
structure Row where
  Date : Int
  Close : F64
  EMA : F64
  MACD : F64
  SIGNAL : F64
  SAR : F64
  CHAI : F64
  dP : F64
  EMAn : Int → F64

/-- The `purchase` struct: one open lot. -/
structure purchase where
  price : F64
  amount : F64
  index : Nat
  deriving DecidableEq

/-- The `df` struct: cursor, rows, row count. -/
structure df where
  index : Nat
  data : List Row
  nRows : Nat

/-- What `getSnapshot` prints. -/
structure Snapshot where
  timestamp : Int
  index : Nat
  price : F64
  capital : F64
  asset : F64
  reserves : F64
  revenue : F64
  tax : F64
  fees : F64
  purchaseHist : List purchase
  strat : List (String × F64)

/-- One line of the diagnostic file. -/
inductive Event where
  | BUY (snap : Snapshot)
  | SELL (amount : F64) (snap : Snapshot)
  | BAL (snap : Snapshot)
  | OR (snap : Snapshot)

/-- The `Simulation` struct, with the diagnostic file as the field `log`. -/
structure Simulation where
  initialInvestment : F64
  assetName : String
  dataFile : String
  logFile : String
  feePercentage : F64
  taxRate : F64
  capital : F64
  reserves : F64
  lastBuyPrice : F64
  revenue : F64
  tax : F64
  fees : F64
  asset : F64
  numTransactions : Nat
  strat : String
  sellCondition : Int
  stratEMA : Int
  reinvestPercentage : F64
  minReturn : F64
  percentDrop : F64
  balanceTrip : F64
  minReserves : F64
  buys : List Nat
  sells : List Nat
  balances : List Nat
  openReserves : List Nat
  purchaseHistory : List purchase
  dFrame : df
  log : List Event

/-- Source `purchaseHistory.Less`: order by entry price. -/
def Less (a b : purchase) : Bool := decide (a.price < b.price)


/-! ### strategy.go -/

/-- Source `isBuyPSAR`. -/
def isBuyPSAR (row : Row) : Bool :=
  decide (row.SAR < row.Close) && decide (row.Close > row.EMA)

/-- Source `isBuyMACD`. -/
def isBuyMACD (row : Row) : Bool :=
  decide (row.MACD > row.SIGNAL) && decide (row.Close > row.EMA)

/-- Source `isBuyAltMACD`. -/
def isBuyAltMACD (row : Row) : Bool :=
  decide (row.MACD > row.SIGNAL) && decide (row.Close > row.EMA) && decide (row.MACD < 0)

/-- Source `isBuyMACDCHAI`. -/
def isBuyMACDCHAI (row : Row) : Bool :=
  decide (row.MACD > row.SIGNAL) && decide (row.Close > row.EMA) && decide (row.CHAI > 0)

/-- Source `strategy.IsBuy`. -/
def IsBuy (strat : String) (row : Row) : Bool :=
  if strat = "MACD-CHAI" then isBuyMACDCHAI row
  else if strat = "MACD-PSAR" then isBuyMACD row && isBuyPSAR row
  else if strat = "PSAR" then isBuyPSAR row
  else if strat = "MACD" then isBuyMACD row
  else if strat = "alt-MACD" then isBuyAltMACD row
  else false

/-- Source `sellCondition1`. -/
def sellCondition1 (minReturn : F64) (currentReturn : F64) : Bool :=
  decide (currentReturn > minReturn)

/-- Source `sellCondition2`. -/
def sellCondition2 (price ema minReturn : F64) (currentReturn : F64) : Bool :=
  (decide (ema > price) && decide (currentReturn > minReturn)) || decide (currentReturn > 2 * minReturn)

/-- Source `sellCondition3`. -/
def sellCondition3 (price ema minReturn : F64) (currentReturn : F64) : Bool :=
  decide (ema < price) && decide (currentReturn > minReturn)

/-- Source `sellCondition4`. -/
def sellCondition4 (price ema macd signal minReturn : F64) (currentReturn : F64) : Bool :=
  decide (ema > price) && decide (macd < signal) && decide (currentReturn > minReturn)

/-- Source `sellCondition5`. -/
def sellCondition5 (price ema minReturn : F64) (currentReturn : F64) : Bool :=
  decide (ema > price) && decide (currentReturn > minReturn)

/-- Source `sellCondition6`. -/
def sellCondition6 (dP minReturn : F64) (currentReturn : F64) : Bool :=
  decide (dP < 0) && decide (currentReturn > minReturn)

/-- Source `strategy.IsSell`. -/
def IsSell (minReturn : F64) (currentReturn : F64) (row : Row) (sellCondition : Int) : Bool :=
  if sellCondition = 1 then sellCondition1 minReturn currentReturn
  else if sellCondition = 2 then sellCondition2 row.Close row.EMA minReturn currentReturn
  else if sellCondition = 3 then sellCondition3 row.Close row.EMA minReturn currentReturn
  else if sellCondition = 4 then
    sellCondition4 row.Close row.EMA row.MACD row.SIGNAL minReturn currentReturn
  else if sellCondition = 5 then sellCondition5 row.Close row.EMA minReturn currentReturn
  else if sellCondition = 6 then sellCondition6 row.dP minReturn currentReturn
  else false

/-- Source `strategy.GetStratString`: the labelled indicator values it prints. -/
def GetStratString (strat : String) (row : Row) : List (String × F64) :=
  if strat = "MACD-CHAI" then
    [("EMA", row.EMA), ("MACD", row.MACD), ("SIG", row.SIGNAL), ("CHAI", row.CHAI)]
  else if strat = "MACD-PSAR" then
    [("EMA", row.EMA), ("MACD", row.MACD), ("SIG", row.SIGNAL), ("PSAR", row.SAR)]
  else if strat = "PSAR" then [("EMA", row.EMA), ("PSAR", row.SAR)]
  else if strat = "MACD" then [("EMA", row.EMA), ("MACD", row.MACD), ("SIG", row.SIGNAL)]
  else if strat = "alt-MACD" then [("EMA", row.EMA), ("MACD", row.MACD), ("SIG", row.SIGNAL)]
  else []

/-! ### simulation.go -/

/-- Source `roundFloat`: `math.Round(v*ratio) / ratio` with `ratio = math.Pow(10, precision)`,
the `float64` of `10^precision` (the program calls it with precision 2, ratio 100). -/
def roundFloat (v : F64) (precision : Nat) : F64 :=
  let ratio : F64 := F64.ofNat (10 ^ precision)
  F64.goRound (v * ratio) / ratio

/-- Source `logEvent`: append one entry to the diagnostic file. -/
def logEvent (event : Event) (s : Simulation) : Simulation :=
  { s with log := s.log ++ [event] }

/-- Source `getSnapshot`, on the row under the cursor. -/
def getSnapshot (row : Row) (s : Simulation) : Snapshot :=
  { timestamp := row.Date
    index := s.dFrame.index
    price := roundFloat row.Close 2
    capital := roundFloat s.capital 2
    asset := s.asset
    reserves := roundFloat s.reserves 2
    revenue := roundFloat s.revenue 2
    tax := roundFloat s.tax 2
    fees := roundFloat s.fees 2
    purchaseHist := s.purchaseHistory
    strat := GetStratString s.strat row }

/-- Source `isBuy`. -/
def isBuy (strat : String) (row : Row) : Bool := IsBuy strat row

/-- Source `isSell`. -/
def isSell (minReturn : F64) (currentReturn : F64) (row : Row) (sellCondition : Int) : Bool :=
  IsSell minReturn currentReturn row sellCondition

/-- Source `calcPositions`, on the row under the cursor: `(buy, sell, openRes)`. -/
def calcPositions (row : Row) (s : Simulation) : Bool × Bool × Bool :=
  let price := row.Close
  let currentReturn := (price - s.lastBuyPrice) / s.lastBuyPrice
  let buySell : Bool × Bool :=
    if s.capital > 0 then (isBuy s.strat row, false)
    else if s.asset > 0 then (false, isSell s.minReturn currentReturn row s.sellCondition)
    else (false, false)
  let openRes :=
    decide (s.capital < 1) && decide (currentReturn < s.percentDrop) && decide (s.reserves > s.minReserves)
  (buySell.1, buySell.2, openRes)

/-- The `if` branch of the loop of `sellAsset`: liquidate the lot `p` at the row's price. -/
def sellLot (row : Row) (p : purchase) (s : Simulation) : Simulation :=
  let price := row.Close
  let usdValueSold := p.amount * price
  let fee := usdValueSold * s.feePercentage
  let gain := usdValueSold - p.amount * p.price
  let tax := if gain > 0 then gain * s.taxRate else 0
  let reward := gain - fee - tax
  let toCapital := reward * s.reinvestPercentage
  let revenue := reward - toCapital
  let s1 : Simulation :=
    { s with
      asset := s.asset - p.amount
      capital := s.capital + (usdValueSold - gain + toCapital)
      revenue := s.revenue + revenue
      tax := s.tax + tax
      fees := s.fees + fee
      purchaseHistory := s.purchaseHistory.drop 1 }
  logEvent (Event.SELL p.amount (getSnapshot row s1)) s1

/-- The loop of `sellAsset` over the copy `ph`, with its `break`. -/
def sellLoop (row : Row) : List purchase → Simulation → Simulation
  | [], s => s
  | p :: ph, s =>
    if (row.Close - p.price) / p.price > s.minReturn then sellLoop row ph (sellLot row p s)
    else s

/-- Source `sellAsset`. -/
def sellAsset (srt : List purchase → List purchase) (row : Row) (s : Simulation) : Simulation :=
  let s0 : Simulation := { s with purchaseHistory := srt s.purchaseHistory }
  let ph := s0.purchaseHistory
  let s1 := sellLoop row ph s0
  { s1 with
    numTransactions := s1.numTransactions + 1
    sells := s1.sells ++ [s1.dFrame.index] }

/-- Source `balanceFunds`. -/
def balanceFunds (row : Row) (s : Simulation) : Simulation :=
  let total := s.capital + s.reserves
  let s1 : Simulation :=
    { s with
      capital := total / 2
      reserves := total / 2
      balances := s.balances ++ [s.dFrame.index] }
  logEvent (Event.BAL (getSnapshot row s1)) s1

/-- Source `openReserves`. -/
def openReserves (row : Row) (s : Simulation) : Simulation :=
  let s1 : Simulation :=
    { s with
      capital := s.reserves / 2
      reserves := s.reserves / 2
      openReserves := s.openReserves ++ [s.dFrame.index] }
  logEvent (Event.OR (getSnapshot row s1)) s1

/-- Source `buyAsset`. -/
def buyAsset (row : Row) (s : Simulation) : Simulation :=
  let fee := s.capital * s.feePercentage
  let capital := s.capital - fee
  let price := row.Close
  let amount := capital / price
  let p : purchase := { price := price, amount := amount, index := s.dFrame.index }
  let s1 : Simulation :=
    { s with
      fees := s.fees + fee
      capital := 0
      asset := s.asset + amount
      purchaseHistory := [p] ++ s.purchaseHistory
      lastBuyPrice := price
      numTransactions := s.numTransactions + 1
      buys := s.buys ++ [s.dFrame.index] }
  logEvent (Event.BUY (getSnapshot row s1)) s1

/-- The decision chain of one iteration of the loop of `RunSimulation` (lines 94-104). -/
def loopBody (srt : List purchase → List purchase) (row : Row) (s : Simulation) : Simulation :=
  let pos := calcPositions row s
  if pos.2.1 then
    let s1 := sellAsset srt row s
    if s1.capital / s1.reserves > s1.balanceTrip then balanceFunds row s1 else s1
  else if pos.1 then buyAsset row s
  else if pos.2.2 then openReserves row s
  else s

/-- The statement `s.dFrame.index += 1`. -/
def advance (s : Simulation) : Simulation :=
  { s with dFrame := { s.dFrame with index := s.dFrame.index + 1 } }

/-- The statement `s.dFrame.index -= 1`. -/
def retreat (s : Simulation) : Simulation :=
  { s with dFrame := { s.dFrame with index := s.dFrame.index - 1 } }

/-- The row under the cursor, `none` when the cursor is outside the frame. -/
def curRow (s : Simulation) : Option Row := s.dFrame.data[s.dFrame.index]?

/-- The loop of `RunSimulation`, bounded by `fuel` iterations. -/
def runLoop (srt : List purchase → List purchase) : Nat → Simulation → Option Simulation
  | 0, _ => none
  | fuel + 1, s =>
    match curRow s with
    | none => none
    | some row =>
      let s1 := advance (loopBody srt row s)
      if s1.dFrame.index ≥ s1.dFrame.nRows then some (retreat s1) else runLoop srt fuel s1

/-- Source `getBuyHold`. -/
def getBuyHold (s : Simulation) : Option F64 :=
  match s.dFrame.data[0]?, s.dFrame.data[s.dFrame.nRows - 1]? with
  | some first, some last =>
    let initialPrice := first.Close
    let finalPrice := last.Close
    let feeBuy := s.initialInvestment * s.feePercentage
    let capital := s.initialInvestment - feeBuy
    let amount := capital / initialPrice
    let usdValueSold := amount * finalPrice
    let feeSell := usdValueSold * s.feePercentage
    let gain := usdValueSold - s.initialInvestment
    if gain > 0 then
      let tax := gain * s.taxRate
      some (roundFloat (gain - tax - feeSell) 2)
    else some (roundFloat (gain - feeSell) 2)
  | _, _ => none

/-- Source `getAssetValue`, on the row under the cursor. -/
def getAssetValue (row : Row) (s : Simulation) : F64 := s.asset * row.Close

/-- Source `getSimTotalValue`, on the row under the cursor. -/
def getSimTotalValue (row : Row) (s : Simulation) : F64 :=
  roundFloat (getAssetValue row s + s.capital + s.reserves) 2

/-- The comma separated fields that `getResultString` prints, in order. -/
structure ResultRecord where
  startDate : Int
  endDate : Int
  strat : String
  stratEMA : Int
  reinvestPercentage : F64
  minReturn : F64
  percentDrop : F64
  balanceTrip : F64
  buyHold : F64
  finalValue : F64
  revenue : F64
  tax : F64
  fees : F64
  numTransactions : Nat
  buys : List Nat
  sells : List Nat
  balances : List Nat
  openReserves : List Nat
  dataFile : String

/-- Source `getResultString`. -/
def getResultString (s : Simulation) (price : F64) : Option ResultRecord :=
  match s.dFrame.data[0]?, s.dFrame.data[s.dFrame.nRows - 1]?, getBuyHold s with
  | some first, some last, some bh =>
    some
      { startDate := first.Date
        endDate := last.Date
        strat := s.strat
        stratEMA := s.stratEMA
        reinvestPercentage := s.reinvestPercentage
        minReturn := s.minReturn
        percentDrop := s.percentDrop
        balanceTrip := s.balanceTrip
        buyHold := bh
        finalValue := roundFloat (s.capital + s.reserves + s.asset * price) 2
        revenue := roundFloat s.revenue 2
        tax := roundFloat s.tax 2
        fees := roundFloat s.fees 2
        numTransactions := s.numTransactions
        buys := s.buys
        sells := s.sells
        balances := s.balances
        openReserves := s.openReserves
        dataFile := s.dataFile }
  | _, _, _ => none

/-- The `Result` struct (`Err` is always `nil`). -/
structure Result where
  AssetName : String
  ResultString : ResultRecord

/-- Source `RunSimulation`: the final state and the result, `none` when a read leaves the frame. -/
def RunSimulation (srt : List purchase → List purchase) (s : Simulation) :
    Option (Simulation × Result) :=
  match runLoop srt (s.dFrame.nRows + 1) s with
  | none => none
  | some sf =>
    match curRow sf with
    | none => none
    | some row =>
      match getResultString sf row.Close with
      | none => none
      | some str => some (sf, { AssetName := sf.assetName, ResultString := str })

/-- Source `newDF`. -/
def newDF (dFrame : List Row) : df := { index := 0, data := dFrame, nRows := dFrame.length }

/-- Source `NewSimulation` (its error result is always `nil`). -/
def NewSimulation (asset : String) (investAMT taxRate feePercentage : F64) (dataFile : String)
    (data : List Row) (logFile : String) : Simulation :=
  { initialInvestment := investAMT
    assetName := asset
    dataFile := dataFile
    logFile := logFile
    feePercentage := feePercentage
    taxRate := taxRate
    capital := investAMT / 2
    reserves := investAMT / 2
    lastBuyPrice := 0
    revenue := 0
    tax := 0
    fees := 0
    asset := 0
    numTransactions := 0
    strat := ""
    sellCondition := 0
    stratEMA := 0
    reinvestPercentage := 0
    minReturn := 0
    percentDrop := 0
    balanceTrip := 0
    minReserves := investAMT * F64.ofRatio false 125 1000
    buys := []
    sells := []
    balances := []
    openReserves := []
    purchaseHistory := []
    dFrame := newDF data
    log := [] }

/-- Source `DataFrame.Rename("EMA", "EMA_<ema>")`: the period column becomes the column `EMA`. -/
def renameEMA (ema : Int) (data : List Row) : List Row :=
  data.map (fun row => { row with EMA := row.EMAn ema })

/-- Source `SetStratParams`: the state that `s` points to after the call, and the error
returned (`none` for `nil`).  On an invalid strategy the function returns before its first
assignment. -/
def SetStratParams (s : Simulation) (strat : String) (sellCondition : Int) (ema : Int)
    (reinvestPercentage minReturn percentDrop balanceTrip : F64) : Simulation × Option String :=
  if IsValidStrategy strat then
    ({ s with
        strat := strat
        stratEMA := ema
        sellCondition := sellCondition
        dFrame := { s.dFrame with data := renameEMA ema s.dFrame.data, index := 0 }
        reinvestPercentage := reinvestPercentage
        minReturn := minReturn
        percentDrop := -1 * percentDrop
        balanceTrip := balanceTrip }, none)
  else (s, some "Invalid strategy")


/-- The set-up of `simulate` in `main.go`: `NewSimulation` followed by `SetStratParams`; an
error of `SetStratParams` is fatal. -/
def setup (asset : String) (investAMT taxRate feePercentage : F64) (dataFile : String)
    (data : List Row) (logFile : String) (strat : String) (sellCondition : Int) (ema : Int)
    (reinvestPercentage minReturn percentDrop balanceTrip : F64) : Except String Simulation :=
  let r := SetStratParams
    (NewSimulation asset investAMT taxRate feePercentage dataFile data logFile)
    strat sellCondition ema reinvestPercentage minReturn percentDrop balanceTrip
  match r.2 with
  | none => Except.ok r.1
  | some err => Except.error err

/-- Insertion sort by `Less`, an instance of `sort.Sort`: on lots with distinct prices it is
the order every sort gives. -/
def isort (l : List purchase) : List purchase :=
  l.insertionSort (fun a b => Less b a = false)

/-- One decision step on each row of `rows` in turn: the decision chain, then the cursor
moves. -/
def runFrom (srt : List purchase → List purchase) (rows : List Row) (s : Simulation) :
    Simulation :=
  rows.foldl (fun t row => advance (loopBody srt row t)) s

/-- The loop of `RunSimulation` with its result replaced by the list of cursor positions at
which the decision chain ran, in the order in which it ran. -/
def runTrace (srt : List purchase → List purchase) : Nat → Simulation → List Nat
  | 0, _ => []
  | fuel + 1, s =>
    match curRow s with
    | none => []
    | some row =>
      let s1 := advance (loopBody srt row s)
      if s1.dFrame.index ≥ s1.dFrame.nRows then [s.dFrame.index]
      else s.dFrame.index :: runTrace srt fuel s1

/-- A sample row with close price `P` on which `MACD` gives a buy signal: `MACD 1`,
`SIGNAL 0`, and the EMA `ema` below the price. -/
def rowUp (P ema : F64) : Row :=
  { Date := 0, Close := P, EMA := ema, MACD := 1, SIGNAL := 0, SAR := 0, CHAI := 0, dP := 0,
    EMAn := fun _ => ema }

/-- A sample row with close price `P` and price change `dP` on which `MACD` gives no buy
signal. -/
def rowFlat (P dP : F64) : Row :=
  { Date := 0, Close := P, EMA := 0, MACD := 0, SIGNAL := 1, SAR := 0, CHAI := 0, dP := dP,
    EMAn := fun _ => 0 }


/-- The run of one task after its data is read: set-up, then `RunSimulation`; `none` when the
set-up fails or a read leaves the frame. -/
def runTask (srt : List purchase → List purchase) (e : Except String Simulation) :
    Option (Simulation × Result) :=
  match e with
  | Except.ok s => RunSimulation srt s
  | Except.error _ => none

/-- The return of a lot at market price `P`, as `sellAsset` computes it. -/
def lotReturn (P : F64) (p : purchase) : F64 := (P - p.price) / p.price

/-- Sum of the amounts of a list of lots, added from the left starting at 0. -/
def sumAmount (l : List purchase) : F64 := l.foldl (fun acc p => acc + p.amount) 0

/-- Cost basis of a list of open lots: the sum of `amount * price`, added from the left
starting at 0. -/
def lotsValue (l : List purchase) : F64 := l.foldl (fun acc p => acc + p.amount * p.price) 0

/-- The accounting total `W`: capital + reserves + revenue + tax + fees + the cost basis of
the open lots. -/
def W (s : Simulation) : F64 :=
  s.capital + s.reserves + s.revenue + s.tax + s.fees + lotsValue s.purchaseHistory

/-- The buy-and-hold benchmark as the specification words it, each operation in binary64:
with `a = (I - I*fee)/first`, `s = a*last*fee`, `g = a*last - I` and `t = g*taxRate` if
`g > 0`, else 0, the value `g - t - s` rounded to 2 decimals. -/
def buyHoldValue (first last fee taxRate I : F64) : F64 :=
  let a := (I - I * fee) / first
  let s := a * last * fee
  let g := a * last - I
  let t := if g > 0 then g * taxRate else 0
  roundFloat (g - t - s) 2

/-- A sample start state: strategy `MACD`, EMA period 0, given sell condition, rates and
rows, as `NewSimulation` and `SetStratParams` build it. -/
def sampleStart (investAMT taxRate feePercentage : F64) (sellCondition : Int)
    (reinvest minReturn percentDrop balanceTrip : F64) (data : List Row) : Simulation :=
  (SetStratParams (NewSimulation "A" investAMT taxRate feePercentage "d" data "l") "MACD"
    sellCondition 0 reinvest minReturn percentDrop balanceTrip).1

/-- Sample run R: the rows of sample run B with a second buy at 7.5: close prices 10, 5, 7.5
and 20. -/
def rowsR : List Row :=
  [rowUp 10 0, rowFlat 5 0, rowUp (F64.ofRatio false 75 10) 0, rowFlat 20 0]

/-- Start state of sample run R: investment 40, no fee, no tax, everything reinvested,
sell condition 1, minReturn 0, percentDrop 0.1, balanceTrip 100. -/
def startR : Simulation := sampleStart 40 0 0 1 1 0 (F64.ofRatio false 1 10) 100 rowsR

/-- Sample run Z: a buy signal at close price 0 (the EMA is -1), then the price 20. -/
def rowsZ : List Row := [rowUp 0 (-1), rowFlat 20 0]

/-- Start state of sample run Z: investment 40, no fee, no tax, everything reinvested,
sell condition 1, minReturn 0, percentDrop 0.1, balanceTrip 100. -/
def startZ : Simulation := sampleStart 40 0 0 1 1 0 (F64.ofRatio false 1 10) 100 rowsZ

/-- Sample run M: a buy at 178.33, the price falls to 100 (reserves are opened), a second
buy at 178.33000000000004, then the price 43.92 with a negative price change. -/
def rowsM : List Row :=
  [rowUp (F64.ofRatio false 17833 100) 0, rowFlat 100 0,
    rowUp (F64.ofRatio false 17833000000000004 100000000000000) 0,
    rowFlat (F64.ofRatio false 4392 100) (-1)]

/-- Start state of sample run M: investment 40, no fee, no tax, everything reinvested,
sell condition 6, minReturn -0.753715022710705, percentDrop 0.1, balanceTrip 100. -/
def startM : Simulation :=
  sampleStart 40 0 0 6 1 (F64.ofRatio true 753715022710705 1000000000000000)
    (F64.ofRatio false 1 10) 100 rowsM

/-- Sample run S: a buy at 0.5, the price falls to 0.25 (reserves are opened), then the
price 1. -/
def rowsS : List Row :=
  [rowUp (F64.ofRatio false 1 2) 0, rowFlat (F64.ofRatio false 1 4) 0, rowFlat 1 0]

/-- Start state of sample run S: investment `2 * 2^-1074` (the literal `1e-323`), no fee, no
tax, everything reinvested, sell condition 1, minReturn 0, percentDrop 0.1, balanceTrip
100. -/
def startS : Simulation :=
  sampleStart (F64.fin false 2 (-1074)) 0 0 1 1 0 (F64.ofRatio false 1 10) 100 rowsS

/-- Sample run S at the top of the loop on row 2. -/
def headS2 : Simulation := runFrom isort (rowsS.take 2) startS

/-- Sample run F: a buy at 3.125 and a sell at 3.25. -/
def rowsF : List Row :=
  [rowUp (F64.ofRatio false 3125 1000) 0, rowFlat (F64.ofRatio false 325 100) 0]

/-- Start state of sample run F: investment 40, fee 0.125, no tax, everything reinvested,
sell condition 1, minReturn 0, percentDrop 0.1, balanceTrip 100. -/
def startF : Simulation :=
  sampleStart 40 0 (F64.ofRatio false 125 1000) 1 1 0 (F64.ofRatio false 1 10) 100 rowsF

/-- Sample run H: close prices 2.125 and 6.375. -/
def rowsH : List Row :=
  [rowUp (F64.ofRatio false 2125 1000) 0, rowFlat (F64.ofRatio false 6375 1000) 0]

/-- Start state of sample run H: investment 40, fee 0.125, no tax. -/
def startH : Simulation :=
  sampleStart 40 0 (F64.ofRatio false 125 1000) 1 1 0 (F64.ofRatio false 1 10) 100 rowsH

end B64



/-! ## The engine on binary64: the loop -/

namespace B64

theorem b64_sellLoop_frame (row : Row) (ph : List purchase) (s : Simulation) :
    (sellLoop row ph s).reserves = s.reserves ∧
    (sellLoop row ph s).balanceTrip = s.balanceTrip ∧
    (sellLoop row ph s).numTransactions = s.numTransactions ∧
    (sellLoop row ph s).sells = s.sells ∧
    (sellLoop row ph s).balances = s.balances ∧
    (sellLoop row ph s).dFrame = s.dFrame := by
  induction ph generalizing s with
  | nil => exact ⟨rfl, rfl, rfl, rfl, rfl, rfl⟩
  | cons p ph ih =>
    unfold sellLoop
    split
    · obtain ⟨a1, a2, a3, a4, a5, a6⟩ := ih (sellLot row p s)
      exact ⟨a1, a2, a3, a4, a5, a6⟩
    · exact ⟨rfl, rfl, rfl, rfl, rfl, rfl⟩

theorem b64_sellAsset_frame (srt : List purchase → List purchase) (row : Row)
    (s : Simulation) :
    (sellAsset srt row s).reserves = s.reserves ∧
    (sellAsset srt row s).balanceTrip = s.balanceTrip ∧
    (sellAsset srt row s).numTransactions = s.numTransactions + 1 ∧
    (sellAsset srt row s).sells = s.sells ++ [s.dFrame.index] ∧
    (sellAsset srt row s).balances = s.balances ∧
    (sellAsset srt row s).dFrame = s.dFrame := by
  obtain ⟨a1, a2, a3, a4, a5, a6⟩ := b64_sellLoop_frame row (srt s.purchaseHistory)
    { s with purchaseHistory := srt s.purchaseHistory }
  unfold sellAsset
  refine ⟨a1, a2, ?_, ?_, a5, a6⟩
  · show (sellLoop row _ _).numTransactions + 1 = _
    rw [a3]
  · show (sellLoop row _ _).sells ++ [(sellLoop row _ _).dFrame.index] = _
    rw [a4, a6]

theorem b64_loopBody_of_sell (srt : List purchase → List purchase) (row : Row)
    (s : Simulation) (h : (calcPositions row s).2.1 = true) :
    loopBody srt row s =
      if (sellAsset srt row s).capital / (sellAsset srt row s).reserves >
          (sellAsset srt row s).balanceTrip then balanceFunds row (sellAsset srt row s)
      else sellAsset srt row s := by
  unfold loopBody
  simp [h]

theorem b64_loopBody_dFrame (srt : List purchase → List purchase) (row : Row)
    (s : Simulation) : (loopBody srt row s).dFrame = s.dFrame := by
  have hs := (b64_sellAsset_frame srt row s).2.2.2.2.2
  unfold loopBody
  simp only
  split
  · split
    · exact hs
    · exact hs
  · split
    · rfl
    · split
      · rfl
      · rfl

theorem b64_step_dFrame (srt : List purchase → List purchase) (row : Row) (s : Simulation) :
    (advance (loopBody srt row s)).dFrame =
      df.mk (s.dFrame.index + 1) s.dFrame.data s.dFrame.nRows := by
  show df.mk ((loopBody srt row s).dFrame.index + 1) (loopBody srt row s).dFrame.data
    (loopBody srt row s).dFrame.nRows = _
  rw [b64_loopBody_dFrame]

theorem b64_runFrom_cons (srt : List purchase → List purchase) (row : Row)
    (rows : List Row) (s : Simulation) :
    runFrom srt (row :: rows) s = runFrom srt rows (advance (loopBody srt row s)) := rfl

theorem b64_runFrom_dFrame (srt : List purchase → List purchase) (rows : List Row)
    (s : Simulation) :
    (runFrom srt rows s).dFrame =
      df.mk (s.dFrame.index + rows.length) s.dFrame.data s.dFrame.nRows := by
  induction rows generalizing s with
  | nil => rfl
  | cons row rows ih =>
    rw [b64_runFrom_cons, ih, b64_step_dFrame]
    simp only [List.length_cons]
    congr 1
    omega

theorem b64_runLoop_continue (srt : List purchase → List purchase) (fuel : Nat)
    (s : Simulation) (row : Row) (hrow : curRow s = some row)
    (h : s.dFrame.index + 1 < s.dFrame.nRows) :
    runLoop srt (fuel + 1) s = runLoop srt fuel (advance (loopBody srt row s)) ∧
    runTrace srt (fuel + 1) s =
      s.dFrame.index :: runTrace srt fuel (advance (loopBody srt row s)) := by
  have hlt : ¬ (advance (loopBody srt row s)).dFrame.index ≥
      (advance (loopBody srt row s)).dFrame.nRows := by
    rw [b64_step_dFrame]
    exact Nat.not_le.mpr h
  constructor
  · simp only [runLoop, hrow]
    rw [if_neg hlt]
  · simp only [runTrace, hrow]
    rw [if_neg hlt]

theorem b64_runLoop_last (srt : List purchase → List purchase) (fuel : Nat)
    (s : Simulation) (row : Row) (hrow : curRow s = some row)
    (h : s.dFrame.nRows ≤ s.dFrame.index + 1) :
    runLoop srt (fuel + 1) s = some (retreat (advance (loopBody srt row s))) ∧
    runTrace srt (fuel + 1) s = [s.dFrame.index] := by
  have hge : (advance (loopBody srt row s)).dFrame.index ≥
      (advance (loopBody srt row s)).dFrame.nRows := by
    rw [b64_step_dFrame]
    exact h
  constructor
  · simp only [runLoop, hrow]
    rw [if_pos hge]
  · simp only [runTrace, hrow]
    rw [if_pos hge]

theorem b64_runLoop_steps (srt : List purchase → List purchase) (k : Nat) :
    ∀ (s : Simulation) (fuel : Nat), s.dFrame.nRows = s.dFrame.data.length →
      s.dFrame.index + k + 1 = s.dFrame.nRows → k + 1 ≤ fuel →
      runLoop srt fuel s =
        some (retreat (runFrom srt (s.dFrame.data.drop s.dFrame.index) s)) ∧
      runTrace srt fuel s = List.range' s.dFrame.index (k + 1) := by
  induction k with
  | zero =>
    intro s fuel hn hk hfuel
    obtain ⟨f, rfl⟩ : ∃ f, fuel = f + 1 := ⟨fuel - 1, by omega⟩
    have hlt : s.dFrame.index < s.dFrame.data.length := by omega
    have hrow : curRow s = some s.dFrame.data[s.dFrame.index] := by
      unfold curRow
      exact List.getElem?_eq_getElem hlt
    have hdrop : s.dFrame.data.drop s.dFrame.index = [s.dFrame.data[s.dFrame.index]] := by
      rw [List.drop_eq_getElem_cons hlt, List.drop_eq_nil_of_le (by omega)]
    obtain ⟨h1, h2⟩ := b64_runLoop_last srt f s _ hrow (by omega)
    refine ⟨?_, ?_⟩
    · rw [h1, hdrop]
      rfl
    · rw [h2]
      rfl
  | succ k ih =>
    intro s fuel hn hk hfuel
    obtain ⟨f, rfl⟩ : ∃ f, fuel = f + 1 := ⟨fuel - 1, by omega⟩
    have hlt : s.dFrame.index < s.dFrame.data.length := by omega
    have hrow : curRow s = some s.dFrame.data[s.dFrame.index] := by
      unfold curRow
      exact List.getElem?_eq_getElem hlt
    have hd := b64_step_dFrame srt s.dFrame.data[s.dFrame.index] s
    have hih := ih (advance (loopBody srt s.dFrame.data[s.dFrame.index] s)) f
      (by rw [hd]; exact hn) (by rw [hd]; simp only; omega) (by omega)
    rw [hd] at hih
    simp only at hih
    obtain ⟨h1, h2⟩ := b64_runLoop_continue srt f s _ hrow (by omega)
    refine ⟨?_, ?_⟩
    · rw [h1, hih.1, List.drop_eq_getElem_cons hlt, b64_runFrom_cons]
    · rw [h2, hih.2]
      exact (List.range'_succ s.dFrame.index (k + 1) 1).symm

theorem b64_sub_zero (x : F64) : x - (0 : F64) = x := by
  cases x with
  | zero n => cases n <;> rfl
  | fin n m e => rfl
  | inf n => rfl
  | nan => rfl

theorem b64_getBuyHold_eq (s : Simulation) (first last : Row)
    (h0 : s.dFrame.data[0]? = some first)
    (hl : s.dFrame.data[s.dFrame.nRows - 1]? = some last) :
    getBuyHold s =
      some (buyHoldValue first.Close last.Close s.feePercentage s.taxRate
        s.initialInvestment) := by
  unfold getBuyHold buyHoldValue
  simp only [h0, hl]
  split
  · rfl
  · rw [b64_sub_zero]

theorem b64_getResultString_some (s : Simulation) (price : F64) (first last : Row)
    (h0 : s.dFrame.data[0]? = some first)
    (hl : s.dFrame.data[s.dFrame.nRows - 1]? = some last) :
    ∃ str, getResultString s price = some str ∧
      str.finalValue = roundFloat (s.capital + s.reserves + s.asset * price) 2 ∧
      str.buyHold = buyHoldValue first.Close last.Close s.feePercentage s.taxRate
        s.initialInvestment := by
  unfold getResultString
  simp only [h0, hl, b64_getBuyHold_eq s first last h0 hl]
  exact ⟨_, rfl, rfl, rfl⟩

theorem b64_RunSimulation_eq (srt : List purchase → List purchase) (s0 : Simulation)
    (hn : s0.dFrame.nRows = s0.dFrame.data.length) (hi : s0.dFrame.index = 0)
    (hpos : 1 ≤ s0.dFrame.data.length) :
    ∃ res last,
      RunSimulation srt s0 = some (retreat (runFrom srt s0.dFrame.data s0), res) ∧
      (∀ fuel, s0.dFrame.data.length ≤ fuel →
        runLoop srt fuel s0 = some (retreat (runFrom srt s0.dFrame.data s0))) ∧
      runTrace srt (s0.dFrame.nRows + 1) s0 = List.range s0.dFrame.data.length ∧
      (retreat (runFrom srt s0.dFrame.data s0)).dFrame.index = s0.dFrame.data.length - 1 ∧
      s0.dFrame.data[s0.dFrame.data.length - 1]? = some last ∧
      res.ResultString.finalValue =
        roundFloat ((retreat (runFrom srt s0.dFrame.data s0)).capital +
          (retreat (runFrom srt s0.dFrame.data s0)).reserves +
          (retreat (runFrom srt s0.dFrame.data s0)).asset * last.Close) 2 := by
  have hsteps : ∀ fuel, s0.dFrame.data.length ≤ fuel →
      runLoop srt fuel s0 = some (retreat (runFrom srt s0.dFrame.data s0)) ∧
      runTrace srt fuel s0 = List.range s0.dFrame.data.length := by
    intro fuel hfuel
    have h := b64_runLoop_steps srt (s0.dFrame.data.length - 1) s0 fuel hn (by omega)
      (by omega)
    rw [hi, List.drop_zero] at h
    have e : s0.dFrame.data.length - 1 + 1 = s0.dFrame.data.length := by omega
    rw [e] at h
    exact ⟨h.1, by rw [h.2, List.range_eq_range']⟩
  have hd : (retreat (runFrom srt s0.dFrame.data s0)).dFrame =
      df.mk (s0.dFrame.data.length - 1) s0.dFrame.data s0.dFrame.nRows := by
    show df.mk ((runFrom srt s0.dFrame.data s0).dFrame.index - 1)
      (runFrom srt s0.dFrame.data s0).dFrame.data (runFrom srt s0.dFrame.data s0).dFrame.nRows = _
    rw [b64_runFrom_dFrame, hi]
    simp
  have hlt : s0.dFrame.data.length - 1 < s0.dFrame.data.length := by omega
  have hlast : s0.dFrame.data[s0.dFrame.data.length - 1]? =
      some s0.dFrame.data[s0.dFrame.data.length - 1] := List.getElem?_eq_getElem hlt
  have hfirst : s0.dFrame.data[0]? = some s0.dFrame.data[0] :=
    List.getElem?_eq_getElem (by omega)
  have hcur : curRow (retreat (runFrom srt s0.dFrame.data s0)) =
      some s0.dFrame.data[s0.dFrame.data.length - 1] := by
    unfold curRow
    rw [hd]
    exact hlast
  obtain ⟨str, hstr, hfv, -⟩ := b64_getResultString_some
    (retreat (runFrom srt s0.dFrame.data s0)) s0.dFrame.data[s0.dFrame.data.length - 1].Close
    s0.dFrame.data[0] s0.dFrame.data[s0.dFrame.data.length - 1]
    (by rw [hd]; exact hfirst) (by rw [hd]; simp only; rw [hn]; exact hlast)
  refine ⟨{ AssetName := (retreat (runFrom srt s0.dFrame.data s0)).assetName,
            ResultString := str }, s0.dFrame.data[s0.dFrame.data.length - 1], ?_,
    fun fuel hfuel => (hsteps fuel hfuel).1, ?_, ?_, hlast, hfv⟩
  · unfold RunSimulation
    simp only [(hsteps (s0.dFrame.nRows + 1) (by omega)).1, hcur, hstr]
  · exact (hsteps (s0.dFrame.nRows + 1) (by omega)).2
  · rw [hd]

theorem b64_setup_ok_fields (asset : String) (investAMT taxRate feePercentage : F64)
    (dataFile : String) (data : List Row) (logFile : String) (strat : String)
    (sellCondition : Int) (ema : Int) (reinvestPercentage minReturn percentDrop balanceTrip : F64)
    (s0 : Simulation)
    (hset : setup asset investAMT taxRate feePercentage dataFile data logFile strat
      sellCondition ema reinvestPercentage minReturn percentDrop balanceTrip = Except.ok s0) :
    s0.dFrame.data = renameEMA ema data ∧ s0.dFrame.index = 0 ∧
    s0.dFrame.nRows = data.length ∧ s0.initialInvestment = investAMT ∧
    s0.feePercentage = feePercentage ∧ s0.taxRate = taxRate := by
  unfold setup SetStratParams at hset
  by_cases hv : IsValidStrategy strat = true
  · simp only [if_pos hv] at hset
    injection hset with hset
    subst hset
    simp [NewSimulation, newDF]
  · simp only [if_neg hv] at hset
    cases hset

end B64

theorem b64_zero_eq : (0 : F64) = F64.zero false := rfl

theorem b64_div_zero_gt (c bt : F64) (neg : Bool) :
    (c / F64.zero neg > bt) ↔
      ((if neg then c < 0 else 0 < c) ∧ bt < F64.inf false) := by
  rw [b64_zero_eq]
  cases c <;> cases bt <;> cases neg <;>
    simp [HDiv.hDiv, Div.div, F64.div, GT.gt, LT.lt, F64.lt] <;> tauto

theorem b64_sampleStart_setup (investAMT taxRate feePercentage : F64) (sellCondition : Int)
    (reinvest minReturn percentDrop balanceTrip : F64) (data : List B64.Row) :
    B64.setup "A" investAMT taxRate feePercentage "d" data "l" "MACD" sellCondition 0 reinvest
      minReturn percentDrop balanceTrip =
      Except.ok (B64.sampleStart investAMT taxRate feePercentage sellCondition reinvest
        minReturn percentDrop balanceTrip data) := by
  simp [B64.setup, B64.SetStratParams, B64.sampleStart, IsValidStrategy, strategies]

/-! ## Rounding to 2 decimals in exact arithmetic -/

theorem goRound_near (x : ℚ) : |((goRound x : Int) : ℚ) - x| ≤ 1 / 2 := by
  unfold goRound
  split
  · have h1 := Int.floor_le (x + 1 / 2)
    have h2 := Int.lt_floor_add_one (x + 1 / 2)
    rw [abs_le]
    constructor <;> linarith
  · have h1 := Int.floor_le (-x + 1 / 2)
    have h2 := Int.lt_floor_add_one (-x + 1 / 2)
    rw [abs_le]
    push_cast
    constructor <;> linarith

theorem roundFloat_two_spec (v : ℚ) :
    |roundFloat v 2 - v| ≤ 1 / 200 ∧ ∃ k : ℤ, roundFloat v 2 = (k : ℚ) / 100 := by
  have h := goRound_near (v * 100)
  have e : roundFloat v 2 = ((goRound (v * 100) : Int) : ℚ) / 100 := by
    unfold roundFloat
    norm_num
  refine ⟨?_, goRound (v * 100), e⟩
  rw [e]
  rw [abs_le] at h ⊢
  constructor <;> linarith [h.1, h.2]

theorem roundFloat_half : roundFloat (35925 / 1000) 2 = 3593 / 100 ∧
    roundFloat (51875 / 1000) 2 = 5188 / 100 := by
  constructor
  · simp [roundFloat, goRound]
    norm_num [Int.floor_eq_iff]
  · simp [roundFloat, goRound]
    norm_num [Int.floor_eq_iff]

/-! ## Field by field effect of the actions -/

@[simp] theorem advance_fields (s : Simulation) :
    (advance s).initialInvestment = s.initialInvestment ∧
    (advance s).assetName = s.assetName ∧
    (advance s).dataFile = s.dataFile ∧
    (advance s).logFile = s.logFile ∧
    (advance s).feePercentage = s.feePercentage ∧
    (advance s).taxRate = s.taxRate ∧
    (advance s).capital = s.capital ∧
    (advance s).reserves = s.reserves ∧
    (advance s).lastBuyPrice = s.lastBuyPrice ∧
    (advance s).revenue = s.revenue ∧
    (advance s).tax = s.tax ∧
    (advance s).fees = s.fees ∧
    (advance s).asset = s.asset ∧
    (advance s).numTransactions = s.numTransactions ∧
    (advance s).strat = s.strat ∧
    (advance s).sellCondition = s.sellCondition ∧
    (advance s).stratEMA = s.stratEMA ∧
    (advance s).reinvestPercentage = s.reinvestPercentage ∧
    (advance s).minReturn = s.minReturn ∧
    (advance s).percentDrop = s.percentDrop ∧
    (advance s).balanceTrip = s.balanceTrip ∧
    (advance s).minReserves = s.minReserves ∧
    (advance s).buys = s.buys ∧
    (advance s).sells = s.sells ∧
    (advance s).balances = s.balances ∧
    (advance s).openReserves = s.openReserves ∧
    (advance s).purchaseHistory = s.purchaseHistory ∧
    (advance s).dFrame = df.mk (s.dFrame.index + 1) s.dFrame.data s.dFrame.nRows ∧
    (advance s).log = s.log :=
  ⟨rfl, rfl, rfl, rfl, rfl, rfl, rfl, rfl, rfl, rfl, rfl, rfl, rfl, rfl, rfl, rfl, rfl, rfl, rfl, rfl, rfl, rfl, rfl, rfl, rfl, rfl, rfl, rfl, rfl⟩

@[simp] theorem retreat_fields (s : Simulation) :
    (retreat s).initialInvestment = s.initialInvestment ∧
    (retreat s).assetName = s.assetName ∧
    (retreat s).dataFile = s.dataFile ∧
    (retreat s).logFile = s.logFile ∧
    (retreat s).feePercentage = s.feePercentage ∧
    (retreat s).taxRate = s.taxRate ∧
    (retreat s).capital = s.capital ∧
    (retreat s).reserves = s.reserves ∧
    (retreat s).lastBuyPrice = s.lastBuyPrice ∧
    (retreat s).revenue = s.revenue ∧
    (retreat s).tax = s.tax ∧
    (retreat s).fees = s.fees ∧
    (retreat s).asset = s.asset ∧
    (retreat s).numTransactions = s.numTransactions ∧
    (retreat s).strat = s.strat ∧
    (retreat s).sellCondition = s.sellCondition ∧
    (retreat s).stratEMA = s.stratEMA ∧
    (retreat s).reinvestPercentage = s.reinvestPercentage ∧
    (retreat s).minReturn = s.minReturn ∧
    (retreat s).percentDrop = s.percentDrop ∧
    (retreat s).balanceTrip = s.balanceTrip ∧
    (retreat s).minReserves = s.minReserves ∧
    (retreat s).buys = s.buys ∧
    (retreat s).sells = s.sells ∧
    (retreat s).balances = s.balances ∧
    (retreat s).openReserves = s.openReserves ∧
    (retreat s).purchaseHistory = s.purchaseHistory ∧
    (retreat s).dFrame = df.mk (s.dFrame.index - 1) s.dFrame.data s.dFrame.nRows ∧
    (retreat s).log = s.log :=
  ⟨rfl, rfl, rfl, rfl, rfl, rfl, rfl, rfl, rfl, rfl, rfl, rfl, rfl, rfl, rfl, rfl, rfl, rfl, rfl, rfl, rfl, rfl, rfl, rfl, rfl, rfl, rfl, rfl, rfl⟩

@[simp] theorem logEvent_fields (e : Event) (s : Simulation) :
    (logEvent e s).initialInvestment = s.initialInvestment ∧
    (logEvent e s).assetName = s.assetName ∧
    (logEvent e s).dataFile = s.dataFile ∧
    (logEvent e s).logFile = s.logFile ∧
    (logEvent e s).feePercentage = s.feePercentage ∧
    (logEvent e s).taxRate = s.taxRate ∧
    (logEvent e s).capital = s.capital ∧
    (logEvent e s).reserves = s.reserves ∧
    (logEvent e s).lastBuyPrice = s.lastBuyPrice ∧
    (logEvent e s).revenue = s.revenue ∧
    (logEvent e s).tax = s.tax ∧
    (logEvent e s).fees = s.fees ∧
    (logEvent e s).asset = s.asset ∧
    (logEvent e s).numTransactions = s.numTransactions ∧
    (logEvent e s).strat = s.strat ∧
    (logEvent e s).sellCondition = s.sellCondition ∧
    (logEvent e s).stratEMA = s.stratEMA ∧
    (logEvent e s).reinvestPercentage = s.reinvestPercentage ∧
    (logEvent e s).minReturn = s.minReturn ∧
    (logEvent e s).percentDrop = s.percentDrop ∧
    (logEvent e s).balanceTrip = s.balanceTrip ∧
    (logEvent e s).minReserves = s.minReserves ∧
    (logEvent e s).buys = s.buys ∧
    (logEvent e s).sells = s.sells ∧
    (logEvent e s).balances = s.balances ∧
    (logEvent e s).openReserves = s.openReserves ∧
    (logEvent e s).purchaseHistory = s.purchaseHistory ∧
    (logEvent e s).dFrame = s.dFrame ∧
    (logEvent e s).log = s.log ++ [e] :=
  ⟨rfl, rfl, rfl, rfl, rfl, rfl, rfl, rfl, rfl, rfl, rfl, rfl, rfl, rfl, rfl, rfl, rfl, rfl, rfl, rfl, rfl, rfl, rfl, rfl, rfl, rfl, rfl, rfl, rfl⟩

@[simp] theorem buyAsset_fields (row : Row) (s : Simulation) :
    (buyAsset row s).initialInvestment = s.initialInvestment ∧
    (buyAsset row s).assetName = s.assetName ∧
    (buyAsset row s).dataFile = s.dataFile ∧
    (buyAsset row s).logFile = s.logFile ∧
    (buyAsset row s).feePercentage = s.feePercentage ∧
    (buyAsset row s).taxRate = s.taxRate ∧
    (buyAsset row s).capital = 0 ∧
    (buyAsset row s).reserves = s.reserves ∧
    (buyAsset row s).lastBuyPrice = row.Close ∧
    (buyAsset row s).revenue = s.revenue ∧
    (buyAsset row s).tax = s.tax ∧
    (buyAsset row s).fees = s.fees + s.capital * s.feePercentage ∧
    (buyAsset row s).asset = s.asset + (s.capital - s.capital * s.feePercentage) / row.Close ∧
    (buyAsset row s).numTransactions = s.numTransactions + 1 ∧
    (buyAsset row s).strat = s.strat ∧
    (buyAsset row s).sellCondition = s.sellCondition ∧
    (buyAsset row s).stratEMA = s.stratEMA ∧
    (buyAsset row s).reinvestPercentage = s.reinvestPercentage ∧
    (buyAsset row s).minReturn = s.minReturn ∧
    (buyAsset row s).percentDrop = s.percentDrop ∧
    (buyAsset row s).balanceTrip = s.balanceTrip ∧
    (buyAsset row s).minReserves = s.minReserves ∧
    (buyAsset row s).buys = s.buys ++ [s.dFrame.index] ∧
    (buyAsset row s).sells = s.sells ∧
    (buyAsset row s).balances = s.balances ∧
    (buyAsset row s).openReserves = s.openReserves ∧
    (buyAsset row s).purchaseHistory = purchase.mk row.Close ((s.capital - s.capital * s.feePercentage) / row.Close)
        s.dFrame.index :: s.purchaseHistory ∧
    (buyAsset row s).dFrame = s.dFrame ∧
    (buyAsset row s).log = s.log ++ [Event.BUY (getSnapshot row (buyAsset row s))] :=
  ⟨rfl, rfl, rfl, rfl, rfl, rfl, rfl, rfl, rfl, rfl, rfl, rfl, rfl, rfl, rfl, rfl, rfl, rfl, rfl, rfl, rfl, rfl, rfl, rfl, rfl, rfl, rfl, rfl, rfl⟩

@[simp] theorem openReserves_fields (row : Row) (s : Simulation) :
    (openReserves row s).initialInvestment = s.initialInvestment ∧
    (openReserves row s).assetName = s.assetName ∧
    (openReserves row s).dataFile = s.dataFile ∧
    (openReserves row s).logFile = s.logFile ∧
    (openReserves row s).feePercentage = s.feePercentage ∧
    (openReserves row s).taxRate = s.taxRate ∧
    (openReserves row s).capital = s.reserves / 2 ∧
    (openReserves row s).reserves = s.reserves / 2 ∧
    (openReserves row s).lastBuyPrice = s.lastBuyPrice ∧
    (openReserves row s).revenue = s.revenue ∧
    (openReserves row s).tax = s.tax ∧
    (openReserves row s).fees = s.fees ∧
    (openReserves row s).asset = s.asset ∧
    (openReserves row s).numTransactions = s.numTransactions ∧
    (openReserves row s).strat = s.strat ∧
    (openReserves row s).sellCondition = s.sellCondition ∧
    (openReserves row s).stratEMA = s.stratEMA ∧
    (openReserves row s).reinvestPercentage = s.reinvestPercentage ∧
    (openReserves row s).minReturn = s.minReturn ∧
    (openReserves row s).percentDrop = s.percentDrop ∧
    (openReserves row s).balanceTrip = s.balanceTrip ∧
    (openReserves row s).minReserves = s.minReserves ∧
    (openReserves row s).buys = s.buys ∧
    (openReserves row s).sells = s.sells ∧
    (openReserves row s).balances = s.balances ∧
    (openReserves row s).openReserves = s.openReserves ++ [s.dFrame.index] ∧
    (openReserves row s).purchaseHistory = s.purchaseHistory ∧
    (openReserves row s).dFrame = s.dFrame ∧
    (openReserves row s).log = s.log ++ [Event.OR (getSnapshot row (openReserves row s))] :=
  ⟨rfl, rfl, rfl, rfl, rfl, rfl, rfl, rfl, rfl, rfl, rfl, rfl, rfl, rfl, rfl, rfl, rfl, rfl, rfl, rfl, rfl, rfl, rfl, rfl, rfl, rfl, rfl, rfl, rfl⟩

@[simp] theorem balanceFunds_fields (row : Row) (s : Simulation) :
    (balanceFunds row s).initialInvestment = s.initialInvestment ∧
    (balanceFunds row s).assetName = s.assetName ∧
    (balanceFunds row s).dataFile = s.dataFile ∧
    (balanceFunds row s).logFile = s.logFile ∧
    (balanceFunds row s).feePercentage = s.feePercentage ∧
    (balanceFunds row s).taxRate = s.taxRate ∧
    (balanceFunds row s).capital = (s.capital + s.reserves) / 2 ∧
    (balanceFunds row s).reserves = (s.capital + s.reserves) / 2 ∧
    (balanceFunds row s).lastBuyPrice = s.lastBuyPrice ∧
    (balanceFunds row s).revenue = s.revenue ∧
    (balanceFunds row s).tax = s.tax ∧
    (balanceFunds row s).fees = s.fees ∧
    (balanceFunds row s).asset = s.asset ∧
    (balanceFunds row s).numTransactions = s.numTransactions ∧
    (balanceFunds row s).strat = s.strat ∧
    (balanceFunds row s).sellCondition = s.sellCondition ∧
    (balanceFunds row s).stratEMA = s.stratEMA ∧
    (balanceFunds row s).reinvestPercentage = s.reinvestPercentage ∧
    (balanceFunds row s).minReturn = s.minReturn ∧
    (balanceFunds row s).percentDrop = s.percentDrop ∧
    (balanceFunds row s).balanceTrip = s.balanceTrip ∧
    (balanceFunds row s).minReserves = s.minReserves ∧
    (balanceFunds row s).buys = s.buys ∧
    (balanceFunds row s).sells = s.sells ∧
    (balanceFunds row s).balances = s.balances ++ [s.dFrame.index] ∧
    (balanceFunds row s).openReserves = s.openReserves ∧
    (balanceFunds row s).purchaseHistory = s.purchaseHistory ∧
    (balanceFunds row s).dFrame = s.dFrame ∧
    (balanceFunds row s).log = s.log ++ [Event.BAL (getSnapshot row (balanceFunds row s))] :=
  ⟨rfl, rfl, rfl, rfl, rfl, rfl, rfl, rfl, rfl, rfl, rfl, rfl, rfl, rfl, rfl, rfl, rfl, rfl, rfl, rfl, rfl, rfl, rfl, rfl, rfl, rfl, rfl, rfl, rfl⟩

@[simp] theorem sellLot_fields (row : Row) (p : purchase) (s : Simulation) :
    (sellLot row p s).initialInvestment = s.initialInvestment ∧
    (sellLot row p s).assetName = s.assetName ∧
    (sellLot row p s).dataFile = s.dataFile ∧
    (sellLot row p s).logFile = s.logFile ∧
    (sellLot row p s).feePercentage = s.feePercentage ∧
    (sellLot row p s).taxRate = s.taxRate ∧
    (sellLot row p s).capital = s.capital + (p.amount * p.price +
        lotReinvested s.feePercentage s.taxRate s.reinvestPercentage row.Close p) ∧
    (sellLot row p s).reserves = s.reserves ∧
    (sellLot row p s).lastBuyPrice = s.lastBuyPrice ∧
    (sellLot row p s).revenue = s.revenue + (lotNetReward s.feePercentage s.taxRate row.Close p -
        lotReinvested s.feePercentage s.taxRate s.reinvestPercentage row.Close p) ∧
    (sellLot row p s).tax = s.tax + lotTax s.taxRate row.Close p ∧
    (sellLot row p s).fees = s.fees + lotFee s.feePercentage row.Close p ∧
    (sellLot row p s).asset = s.asset - p.amount ∧
    (sellLot row p s).numTransactions = s.numTransactions ∧
    (sellLot row p s).strat = s.strat ∧
    (sellLot row p s).sellCondition = s.sellCondition ∧
    (sellLot row p s).stratEMA = s.stratEMA ∧
    (sellLot row p s).reinvestPercentage = s.reinvestPercentage ∧
    (sellLot row p s).minReturn = s.minReturn ∧
    (sellLot row p s).percentDrop = s.percentDrop ∧
    (sellLot row p s).balanceTrip = s.balanceTrip ∧
    (sellLot row p s).minReserves = s.minReserves ∧
    (sellLot row p s).buys = s.buys ∧
    (sellLot row p s).sells = s.sells ∧
    (sellLot row p s).balances = s.balances ∧
    (sellLot row p s).openReserves = s.openReserves ∧
    (sellLot row p s).purchaseHistory = s.purchaseHistory.drop 1 ∧
    (sellLot row p s).dFrame = s.dFrame ∧
    (sellLot row p s).log = s.log ++ [Event.SELL p.amount (getSnapshot row (sellLot row p s))] := by
  refine ⟨?_, ?_, ?_, ?_, ?_, ?_, ?_, ?_, ?_, ?_, ?_, ?_, ?_, ?_, ?_, ?_, ?_, ?_, ?_, ?_, ?_, ?_, ?_, ?_, ?_, ?_, ?_, ?_, ?_⟩ <;>
    first
    | rfl
    | (simp only [sellLot, logEvent, lotReinvested, lotNetReward, lotGain, lotFee, lotTax,
        lotProceeds]; ring)

/-! ## Basic facts about the sell loop -/

theorem isort_spec : SortSpec isort := by
  intro l
  haveI : IsTotal purchase (fun a b => a.price ≤ b.price) := ⟨fun a b => le_total a.price b.price⟩
  haveI : IsTrans purchase (fun a b => a.price ≤ b.price) :=
    ⟨fun a b c hab hbc => le_trans hab hbc⟩
  refine ⟨List.perm_insertionSort _ l, ?_⟩
  have h : List.Pairwise (fun a b => a.price ≤ b.price) (isort l) :=
    List.sorted_insertionSort _ l
  exact h.imp (fun hab => by simpa [Less] using hab)

theorem sortSpec_le (srt : List purchase → List purchase) (hsrt : SortSpec srt)
    (l : List purchase) :
    List.Perm (srt l) l ∧ List.Pairwise (fun a b => a.price ≤ b.price) (srt l) :=
  ⟨(hsrt l).1, (hsrt l).2.imp (fun hab => by simpa [Less] using hab)⟩

theorem sellLot_minReturn (row : Row) (p : purchase) (s : Simulation) :
    (sellLot row p s).minReturn = s.minReturn := rfl

theorem sellLoop_eq_foldl (row : Row) (ph : List purchase) (s : Simulation) :
    sellLoop row ph s =
      (ph.takeWhile (qualifies row.Close s.minReturn)).foldl (fun t p => sellLot row p t) s := by
  induction ph generalizing s with
  | nil => rfl
  | cons p ph ih =>
    unfold sellLoop
    by_cases h : (fdiv (row.Close - p.price) p.price).gt s.minReturn = true
    · have hq : qualifies row.Close s.minReturn p = true := h
      rw [if_pos h, List.takeWhile_cons, if_pos hq, List.foldl_cons, ih, sellLot_minReturn]
    · have hq : ¬ qualifies row.Close s.minReturn p = true := h
      rw [if_neg h, List.takeWhile_cons, if_neg hq, List.foldl_nil]

theorem sellAll_nil (row : Row) (s : Simulation) : sellAll row [] s = s := rfl

theorem sellAll_cons (row : Row) (p : purchase) (l : List purchase) (s : Simulation) :
    sellAll row (p :: l) s = sellAll row l (sellLot row p s) := rfl

theorem sellAsset_eq (srt : List purchase → List purchase) (row : Row) (s : Simulation) :
    sellAsset srt row s =
      { sellAll row (liquidated srt row s) { s with purchaseHistory := srt s.purchaseHistory } with
        numTransactions :=
          (sellAll row (liquidated srt row s)
            { s with purchaseHistory := srt s.purchaseHistory }).numTransactions + 1
        sells :=
          (sellAll row (liquidated srt row s)
            { s with purchaseHistory := srt s.purchaseHistory }).sells ++
          [(sellAll row (liquidated srt row s)
            { s with purchaseHistory := srt s.purchaseHistory }).dFrame.index] } := by
  unfold sellAsset
  simp only [sellLoop_eq_foldl]
  rfl

theorem sameConfig_refl (s : Simulation) : sameConfig s s := by
  simp [sameConfig]

theorem sameConfig_trans {s t u : Simulation} (h1 : sameConfig s t) (h2 : sameConfig t u) :
    sameConfig s u := by
  obtain ⟨a1, a2, a3, a4, a5, a6, a7, a8, a9, a10, a11, a12⟩ := h1
  obtain ⟨b1, b2, b3, b4, b5, b6, b7, b8, b9, b10, b11, b12⟩ := h2
  exact ⟨b1.trans a1, b2.trans a2, b3.trans a3, b4.trans a4, b5.trans a5, b6.trans a6,
    b7.trans a7, b8.trans a8, b9.trans a9, b10.trans a10, b11.trans a11, b12.trans a12⟩

theorem sellLot_sameConfig (row : Row) (p : purchase) (s : Simulation) :
    sameConfig s (sellLot row p s) := by
  simp [sameConfig, sellLot, logEvent]

theorem sellAll_sameConfig (row : Row) (l : List purchase) (s : Simulation) :
    sameConfig s (sellAll row l s) := by
  induction l generalizing s with
  | nil => exact sameConfig_refl s
  | cons p l ih => exact sameConfig_trans (sellLot_sameConfig row p s) (ih (sellLot row p s))

theorem sellAll_frame (row : Row) (l : List purchase) (s : Simulation) :
    sellFrame s (sellAll row l s) := by
  induction l generalizing s with
  | nil => simp [sellFrame, sellAll]
  | cons p l ih =>
    obtain ⟨a1, a2, a3, a4, a5, a6, a7, a8⟩ := ih (sellLot row p s)
    rw [sellAll_cons]
    exact ⟨a1, a2, a3, a4, a5, a6, a7, a8⟩

theorem sellAll_purchaseHistory (row : Row) (l : List purchase) (s : Simulation) :
    (sellAll row l s).purchaseHistory = s.purchaseHistory.drop l.length := by
  induction l generalizing s with
  | nil => simp [sellAll]
  | cons p l ih =>
    rw [sellAll_cons, ih]
    simp [sellLot, logEvent, List.drop_drop, Nat.add_comm]

theorem sellAll_asset (row : Row) (l : List purchase) (s : Simulation) :
    (sellAll row l s).asset = s.asset - sumAmount l := by
  induction l generalizing s with
  | nil => simp [sellAll, sumAmount]
  | cons p l ih =>
    rw [sellAll_cons, ih]
    simp [sellLot, logEvent, sumAmount]
    ring

theorem sellAll_countSELL (row : Row) (l : List purchase) (s : Simulation) :
    countSELL (sellAll row l s).log = countSELL s.log + l.length := by
  induction l generalizing s with
  | nil => simp [sellAll]
  | cons p l ih =>
    rw [sellAll_cons, ih]
    simp [sellLot, logEvent, countSELL, Event.isSELL, List.countP_append]
    omega

theorem liquidated_append_dropWhile (srt : List purchase → List purchase) (row : Row)
    (s : Simulation) :
    liquidated srt row s ++ (srt s.purchaseHistory).dropWhile (qualifies row.Close s.minReturn) =
      srt s.purchaseHistory := by
  unfold liquidated
  exact List.takeWhile_append_dropWhile _ _

theorem sellAsset_purchaseHistory (srt : List purchase → List purchase) (row : Row)
    (s : Simulation) :
    (sellAsset srt row s).purchaseHistory =
      (srt s.purchaseHistory).dropWhile (qualifies row.Close s.minReturn) := by
  rw [sellAsset_eq]
  show (sellAll row (liquidated srt row s) _).purchaseHistory = _
  rw [sellAll_purchaseHistory]
  show List.drop (liquidated srt row s).length (srt s.purchaseHistory) = _
  conv_lhs => rw [← liquidated_append_dropWhile srt row s]
  simp

theorem sellAsset_asset (srt : List purchase → List purchase) (row : Row) (s : Simulation) :
    (sellAsset srt row s).asset = s.asset - sumAmount (liquidated srt row s) := by
  rw [sellAsset_eq]
  show (sellAll row (liquidated srt row s) _).asset = _
  rw [sellAll_asset]

theorem sellAll_capital (row : Row) (l : List purchase) (s : Simulation) :
    (sellAll row l s).capital = s.capital +
      (l.map (fun p => p.amount * p.price +
        lotReinvested s.feePercentage s.taxRate s.reinvestPercentage row.Close p)).sum := by
  induction l generalizing s with
  | nil => simp [sellAll]
  | cons p l ih =>
    rw [sellAll_cons, ih]
    simp [sellLot, logEvent, lotReinvested, lotNetReward, lotGain, lotFee, lotTax, lotProceeds]
    ring

theorem sellAll_revenue (row : Row) (l : List purchase) (s : Simulation) :
    (sellAll row l s).revenue = s.revenue +
      (l.map (fun p => lotNetReward s.feePercentage s.taxRate row.Close p -
        lotReinvested s.feePercentage s.taxRate s.reinvestPercentage row.Close p)).sum := by
  induction l generalizing s with
  | nil => simp [sellAll]
  | cons p l ih =>
    rw [sellAll_cons, ih]
    simp [sellLot, logEvent, lotReinvested, lotNetReward, lotGain, lotFee, lotTax, lotProceeds]
    ring

theorem sellAll_tax (row : Row) (l : List purchase) (s : Simulation) :
    (sellAll row l s).tax = s.tax + (l.map (fun p => lotTax s.taxRate row.Close p)).sum := by
  induction l generalizing s with
  | nil => simp [sellAll]
  | cons p l ih =>
    rw [sellAll_cons, ih]
    simp [sellLot, logEvent, lotGain, lotTax, lotProceeds]
    ring

theorem sellAll_fees (row : Row) (l : List purchase) (s : Simulation) :
    (sellAll row l s).fees = s.fees + (l.map (fun p => lotFee s.feePercentage row.Close p)).sum := by
  induction l generalizing s with
  | nil => simp [sellAll]
  | cons p l ih =>
    rw [sellAll_cons, ih]
    simp [sellLot, logEvent, lotFee, lotProceeds]
    ring

theorem sampleStart_setup (investAMT taxRate feePercentage reinvest minReturn percentDrop
    balanceTrip : ℚ) (data : List Row) :
    setup "A" investAMT taxRate feePercentage "d" data "l" "MACD" 1 0 reinvest minReturn
      percentDrop balanceTrip =
      Except.ok (sampleStart investAMT taxRate feePercentage reinvest minReturn percentDrop
        balanceTrip data) := by
  simp [setup, SetStratParams, sampleStart, IsValidStrategy, strategies, NewSimulation, newDF]

theorem calcPositions_buy_capital (row : Row) (s : Simulation)
    (h : (calcPositions row s).1 = true) : 0 < s.capital := by
  by_contra hc
  simp only [calcPositions, gt_iff_lt, if_neg hc] at h
  split at h <;> simp at h

theorem calcPositions_buy_not_sell (row : Row) (s : Simulation)
    (h : (calcPositions row s).1 = true) : (calcPositions row s).2.1 = false := by
  have hc := calcPositions_buy_capital row s h
  simp [calcPositions, hc]

/-- C3. In a step that performs a Buy (the buy signal of `calcPositions` is true, which forces
the sell signal to be false) at the row `r = s.dFrame.index` with price `P = row.Close`, the
capital `c` before the action is positive, the step is `buyAsset`, and afterwards capital is 0,
lastBuyPrice is `P`, asset grew by `(c - c*feeRate)/P`, fees grew by `c*feeRate`,
numTransactions grew by 1, `r` is appended to buys, the lot `(P, (c - c*feeRate)/P, r)` is
the first element of purchaseHistory followed by the previous lots, and reserves, revenue and
tax are unchanged. -/
theorem C3_buy_effect (srt : List purchase → List purchase) (row : Row) (s : Simulation)
    (hbuy : (calcPositions row s).1 = true) :
    (calcPositions row s).2.1 = false ∧ 0 < s.capital ∧
    loopBody srt row s = buyAsset row s ∧
    (loopBody srt row s).capital = 0 ∧
    (loopBody srt row s).lastBuyPrice = row.Close ∧
    (loopBody srt row s).asset =
      s.asset + (s.capital - s.capital * s.feePercentage) / row.Close ∧
    (loopBody srt row s).fees = s.fees + s.capital * s.feePercentage ∧
    (loopBody srt row s).numTransactions = s.numTransactions + 1 ∧
    (loopBody srt row s).buys = s.buys ++ [s.dFrame.index] ∧
    (loopBody srt row s).purchaseHistory =
      { price := row.Close, amount := (s.capital - s.capital * s.feePercentage) / row.Close,
        index := s.dFrame.index } :: s.purchaseHistory ∧
    (loopBody srt row s).reserves = s.reserves ∧
    (loopBody srt row s).revenue = s.revenue ∧
    (loopBody srt row s).tax = s.tax := by
  have hsell := calcPositions_buy_not_sell row s hbuy
  have hc := calcPositions_buy_capital row s hbuy
  have hbody : loopBody srt row s = buyAsset row s := by
    unfold loopBody
    simp [hsell, hbuy]
  refine ⟨hsell, hc, hbody, ?_⟩
  rw [hbody]
  simp [buyAsset, logEvent]

/-- Witness for C3: the first row of a sample run, where 20 of capital buys 2 units at price 10. -/
theorem C3_buy_effect_witness :
    (calcPositions (rowUp 10) (sampleStart 40 0 0 1 0 0 100 [rowUp 10])).1 = true ∧
    (loopBody isort (rowUp 10) (sampleStart 40 0 0 1 0 0 100 [rowUp 10])).asset = 2 ∧
    (loopBody isort (rowUp 10) (sampleStart 40 0 0 1 0 0 100 [rowUp 10])).capital = 0 := by
  have h : (calcPositions (rowUp 10) (sampleStart 40 0 0 1 0 0 100 [rowUp 10])).1 = true := by
    simp [calcPositions, sampleStart, NewSimulation, isBuy, IsBuy, isBuyMACD, rowUp]
  have key := C3_buy_effect isort (rowUp 10) (sampleStart 40 0 0 1 0 0 100 [rowUp 10]) h
  refine ⟨h, ?_, key.2.2.2.1⟩
  rw [key.2.2.2.2.2.1]
  simp [sampleStart, NewSimulation, rowUp]
  norm_num

/-! ## The signals and the decision chain -/

theorem calcPositions_buy (row : Row) (s : Simulation) :
    (calcPositions row s).1 = (decide (0 < s.capital) && isBuy s.strat row) := by
  unfold calcPositions
  by_cases hc : 0 < s.capital
  · simp [hc]
  · by_cases ha : 0 < s.asset <;> simp [hc, ha]

theorem calcPositions_sell (row : Row) (s : Simulation) :
    (calcPositions row s).2.1 =
      (!decide (0 < s.capital) && decide (0 < s.asset) &&
        IsSell s.minReturn (fdiv (row.Close - s.lastBuyPrice) s.lastBuyPrice) row
          s.sellCondition) := by
  unfold calcPositions
  by_cases hc : 0 < s.capital
  · simp [hc]
  · by_cases ha : 0 < s.asset <;> simp [hc, ha, isSell]

theorem calcPositions_openRes (row : Row) (s : Simulation) :
    (calcPositions row s).2.2 =
      (decide (s.capital < 1) &&
        (fdiv (row.Close - s.lastBuyPrice) s.lastBuyPrice).lt s.percentDrop &&
        decide (s.reserves > s.minReserves)) := rfl

theorem loopBody_of_sell (srt : List purchase → List purchase) (row : Row) (s : Simulation)
    (h : (calcPositions row s).2.1 = true) :
    loopBody srt row s =
      if (fdiv (sellAsset srt row s).capital (sellAsset srt row s).reserves).gt
          (sellAsset srt row s).balanceTrip then balanceFunds row (sellAsset srt row s)
      else sellAsset srt row s := by
  unfold loopBody
  simp [h]

theorem loopBody_of_buy (srt : List purchase → List purchase) (row : Row) (s : Simulation)
    (h : (calcPositions row s).1 = true) : loopBody srt row s = buyAsset row s := by
  have hsell := calcPositions_buy_not_sell row s h
  unfold loopBody
  simp [hsell, h]

theorem loopBody_of_openRes (srt : List purchase → List purchase) (row : Row) (s : Simulation)
    (hs : (calcPositions row s).2.1 = false) (hb : (calcPositions row s).1 = false)
    (ho : (calcPositions row s).2.2 = true) : loopBody srt row s = openReserves row s := by
  unfold loopBody
  simp [hs, hb, ho]

theorem loopBody_of_none (srt : List purchase → List purchase) (row : Row) (s : Simulation)
    (hs : (calcPositions row s).2.1 = false) (hb : (calcPositions row s).1 = false)
    (ho : (calcPositions row s).2.2 = false) : loopBody srt row s = s := by
  unfold loopBody
  simp [hs, hb, ho]

theorem sellAsset_frame (srt : List purchase → List purchase) (row : Row) (s : Simulation) :
    (sellAsset srt row s).reserves = s.reserves ∧
    (sellAsset srt row s).lastBuyPrice = s.lastBuyPrice ∧
    (sellAsset srt row s).numTransactions = s.numTransactions + 1 ∧
    (sellAsset srt row s).buys = s.buys ∧
    (sellAsset srt row s).sells = s.sells ++ [s.dFrame.index] ∧
    (sellAsset srt row s).balances = s.balances ∧
    (sellAsset srt row s).openReserves = s.openReserves ∧
    (sellAsset srt row s).dFrame = s.dFrame := by
  obtain ⟨a1, a2, a3, a4, a5, a6, a7, a8⟩ :=
    sellAll_frame row (liquidated srt row s) { s with purchaseHistory := srt s.purchaseHistory }
  rw [sellAsset_eq]
  refine ⟨a1, a2, ?_, a4, ?_, a6, a7, a8⟩
  · show (sellAll row (liquidated srt row s) _).numTransactions + 1 = _
    rw [a3]
  · show (sellAll row (liquidated srt row s) _).sells ++
      [(sellAll row (liquidated srt row s) _).dFrame.index] = _
    rw [a5, a8]

theorem sellAsset_sameConfig (srt : List purchase → List purchase) (row : Row)
    (s : Simulation) : sameConfig s (sellAsset srt row s) := by
  have h := sellAll_sameConfig row (liquidated srt row s)
    { s with purchaseHistory := srt s.purchaseHistory }
  rw [sellAsset_eq]
  exact h

theorem sellAsset_money (srt : List purchase → List purchase) (row : Row) (s : Simulation) :
    (sellAsset srt row s).capital = s.capital +
      ((liquidated srt row s).map (fun p => p.amount * p.price +
        lotReinvested s.feePercentage s.taxRate s.reinvestPercentage row.Close p)).sum ∧
    (sellAsset srt row s).revenue = s.revenue +
      ((liquidated srt row s).map (fun p => lotNetReward s.feePercentage s.taxRate row.Close p -
        lotReinvested s.feePercentage s.taxRate s.reinvestPercentage row.Close p)).sum ∧
    (sellAsset srt row s).tax = s.tax +
      ((liquidated srt row s).map (fun p => lotTax s.taxRate row.Close p)).sum ∧
    (sellAsset srt row s).fees = s.fees +
      ((liquidated srt row s).map (fun p => lotFee s.feePercentage row.Close p)).sum := by
  rw [sellAsset_eq]
  exact ⟨sellAll_capital row _ _, sellAll_revenue row _ _, sellAll_tax row _ _,
    sellAll_fees row _ _⟩

theorem sellAsset_countSELL (srt : List purchase → List purchase) (row : Row)
    (s : Simulation) :
    countSELL (sellAsset srt row s).log = countSELL s.log + (liquidated srt row s).length := by
  rw [sellAsset_eq]
  exact sellAll_countSELL row _ _

theorem loopBody_dFrame (srt : List purchase → List purchase) (row : Row) (s : Simulation) :
    (loopBody srt row s).dFrame = s.dFrame := by
  have hs := (sellAsset_frame srt row s).2.2.2.2.2.2.2
  by_cases h1 : (calcPositions row s).2.1 = true
  · rw [loopBody_of_sell srt row s h1]
    split
    · simp [hs]
    · exact hs
  · have h1f : (calcPositions row s).2.1 = false := by simpa using h1
    by_cases h2 : (calcPositions row s).1 = true
    · rw [loopBody_of_buy srt row s h2]
      simp
    · have h2f : (calcPositions row s).1 = false := by simpa using h2
      by_cases h3 : (calcPositions row s).2.2 = true
      · rw [loopBody_of_openRes srt row s h1f h2f h3]
        simp
      · have h3f : (calcPositions row s).2.2 = false := by simpa using h3
        rw [loopBody_of_none srt row s h1f h2f h3f]

theorem runLoop_continue (srt : List purchase → List purchase) (fuel : Nat) (s : Simulation)
    (row : Row) (hrow : curRow s = some row) (h : s.dFrame.index + 1 < s.dFrame.nRows) :
    runLoop srt (fuel + 1) s = runLoop srt fuel (advance (loopBody srt row s)) := by
  have hlt : ¬ (advance (loopBody srt row s)).dFrame.index ≥
      (advance (loopBody srt row s)).dFrame.nRows := by
    simp [loopBody_dFrame]
    exact h
  simp only [runLoop, hrow]
  rw [if_neg hlt]

theorem runLoop_last (srt : List purchase → List purchase) (fuel : Nat) (s : Simulation)
    (row : Row) (hrow : curRow s = some row) (h : s.dFrame.nRows ≤ s.dFrame.index + 1) :
    runLoop srt (fuel + 1) s = some (retreat (advance (loopBody srt row s))) := by
  have hge : (advance (loopBody srt row s)).dFrame.index ≥
      (advance (loopBody srt row s)).dFrame.nRows := by
    simp [loopBody_dFrame]
    exact h
  simp only [runLoop, hrow]
  rw [if_pos hge]

/-! ## Sample run A -/

theorem startA_fields :
    startA.capital = 20 ∧ startA.reserves = 20 ∧ startA.asset = 0 ∧ startA.lastBuyPrice = 0 ∧
    startA.purchaseHistory = [] ∧ startA.dFrame = df.mk 0 rowsA 3 ∧
    startA.feePercentage = 0 ∧ startA.taxRate = 0 ∧ startA.reinvestPercentage = 1 ∧
    startA.minReturn = 0 ∧ startA.percentDrop = -(1 / 10) ∧ startA.balanceTrip = 100 ∧
    startA.minReserves = 5 ∧ startA.strat = "MACD" ∧ startA.sellCondition = 1 := by
  refine ⟨?_, ?_, rfl, rfl, rfl, ?_, rfl, rfl, rfl, rfl, ?_, rfl, ?_, rfl, rfl⟩ <;>
    simp [startA, sampleStart, NewSimulation, newDF, renameEMA, rowsA, rowUp, rowFlat] <;> norm_num

theorem headA1_fields :
    headA1.capital = 0 ∧ headA1.reserves = 20 ∧ headA1.asset = 2 ∧ headA1.lastBuyPrice = 10 ∧
    headA1.purchaseHistory = [purchase.mk 10 2 0] ∧ headA1.dFrame = df.mk 1 rowsA 3 ∧
    headA1.feePercentage = 0 ∧ headA1.taxRate = 0 ∧ headA1.reinvestPercentage = 1 ∧
    headA1.minReturn = 0 ∧ headA1.percentDrop = -(1 / 10) ∧ headA1.balanceTrip = 100 ∧
    headA1.minReserves = 5 ∧ headA1.strat = "MACD" ∧ headA1.sellCondition = 1 := by
  obtain ⟨a1, a2, a3, a4, a5, a6, a7, a8, a9, a10, a11, a12, a13, a14, a15⟩ := startA_fields
  simp [headA1, a1, a2, a3, a4, a5, a6, a7, a8, a9, a10, a11, a12, a13, a14, a15, rowUp]
  norm_num

theorem headA2_fields :
    headA2.capital = 10 ∧ headA2.reserves = 10 ∧ headA2.asset = 2 ∧ headA2.lastBuyPrice = 10 ∧
    headA2.purchaseHistory = [purchase.mk 10 2 0] ∧ headA2.dFrame = df.mk 2 rowsA 3 ∧
    headA2.feePercentage = 0 ∧ headA2.taxRate = 0 ∧ headA2.reinvestPercentage = 1 ∧
    headA2.minReturn = 0 ∧ headA2.percentDrop = -(1 / 10) ∧ headA2.balanceTrip = 100 ∧
    headA2.minReserves = 5 ∧ headA2.strat = "MACD" ∧ headA2.sellCondition = 1 := by
  obtain ⟨a1, a2, a3, a4, a5, a6, a7, a8, a9, a10, a11, a12, a13, a14, a15⟩ := headA1_fields
  simp [headA2, a1, a2, a3, a4, a5, a6, a7, a8, a9, a10, a11, a12, a13, a14, a15, rowFlat]
  norm_num

theorem startA_step : curRow startA = some (rowUp 10) ∧
    advance (loopBody isort (rowUp 10) startA) = headA1 := by
  obtain ⟨a1, a2, a3, a4, a5, a6, a7, a8, a9, a10, a11, a12, a13, a14, a15⟩ := startA_fields
  have hrow : curRow startA = some (rowUp 10) := by
    simp [curRow, a6, rowsA]
  have hbuy : (calcPositions (rowUp 10) startA).1 = true := by
    rw [calcPositions_buy]
    simp [a1, a14, isBuy, IsBuy, isBuyMACD, rowUp]
  exact ⟨hrow, by rw [loopBody_of_buy isort _ _ hbuy]; rfl⟩

theorem headA1_step : curRow headA1 = some (rowFlat 5) ∧
    advance (loopBody isort (rowFlat 5) headA1) = headA2 := by
  obtain ⟨a1, a2, a3, a4, a5, a6, a7, a8, a9, a10, a11, a12, a13, a14, a15⟩ := headA1_fields
  have hrow : curRow headA1 = some (rowFlat 5) := by
    simp [curRow, a6, rowsA]
  have hbuy : (calcPositions (rowFlat 5) headA1).1 = false := by
    rw [calcPositions_buy]
    simp [a1]
  have hsell : (calcPositions (rowFlat 5) headA1).2.1 = false := by
    rw [calcPositions_sell]
    simp [a1, a3, a4, a10, a15, IsSell, sellCondition1, fdiv, XRat.gt, rowFlat]
    norm_num
  have hopen : (calcPositions (rowFlat 5) headA1).2.2 = true := by
    rw [calcPositions_openRes]
    simp [a1, a2, a4, a11, a13, fdiv, XRat.lt, rowFlat]
    norm_num
  exact ⟨hrow, by rw [loopBody_of_openRes isort _ _ hsell hbuy hopen]; rfl⟩

theorem headA2_atHead : AtHead isort startA headA2 := by
  have h0 := startA_step
  have h1 := headA1_step
  have e1 : AtHead isort startA headA1 := by
    rw [← h0.2]
    refine AtHead.next startA (rowUp 10) AtHead.start h0.1 ?_
    rw [h0.2]
    simp [headA1_fields.2.2.2.2.2.1]
  rw [← h1.2]
  refine AtHead.next headA1 (rowFlat 5) e1 h1.1 ?_
  rw [h1.2]
  simp [headA2_fields.2.2.2.2.2.1]

/-! ## Sell signal and priority of the actions -/

/-- C9, as stated, fails: in sample run A, at the top of the loop on row 2, capital (10) and
asset (2) are both positive and `IsSell` holds of the current return, yet the sell signal of
`calcPositions` is false. -/
theorem C9_counterexample :
    AtHead isort startA headA2 ∧ curRow headA2 = some (rowFlat 20) ∧
    0 < headA2.capital ∧ 0 < headA2.asset ∧
    (calcPositions (rowFlat 20) headA2).2.1 = false ∧
    (decide (headA2.asset > 0) &&
      IsSell headA2.minReturn
        (fdiv ((rowFlat 20).Close - headA2.lastBuyPrice) headA2.lastBuyPrice) (rowFlat 20)
        headA2.sellCondition) = true := by
  obtain ⟨a1, a2, a3, a4, a5, a6, a7, a8, a9, a10, a11, a12, a13, a14, a15⟩ := headA2_fields
  refine ⟨headA2_atHead, ?_, ?_, ?_, ?_, ?_⟩
  · simp [curRow, a6, rowsA]
  · rw [a1]; norm_num
  · rw [a3]; norm_num
  · rw [calcPositions_sell]
    simp [a1]
  · simp [a3, a4, a10, a15, IsSell, sellCondition1, fdiv, XRat.gt, rowFlat]
    norm_num

/-- C9, amended. The sell signal of `calcPositions` equals
`not (capital > 0) AND asset > 0 AND strategy.IsSell(minReturn, currentReturn, row,
sellCondition)` with `currentReturn = (P - lastBuyPrice)/lastBuyPrice`: the sell test sits in
the `else` branch of `capital > 0`, so the signal is false whenever capital is positive. -/
theorem C9_sell_signal (row : Row) (s : Simulation) :
    (calcPositions row s).2.1 =
      (!decide (0 < s.capital) && decide (0 < s.asset) &&
        IsSell s.minReturn (fdiv (row.Close - s.lastBuyPrice) s.lastBuyPrice) row
          s.sellCondition) :=
  calcPositions_sell row s

/-- C10. In every step the decision chain does exactly one of: `sellAsset`, optionally
followed by `balanceFunds` (sell signal true); `buyAsset` (sell signal false, buy signal
true); `openReserves` (sell and buy signals false, open-reserve signal true); nothing.  So at
most one of `sellAsset`, `buyAsset`, `openReserves` runs per step, in the priority order
Sell > Buy > OpenReserve > none, and `balanceFunds` runs only on the state `sellAsset`
returned.  The index lists observe it: the lists sells, buys, openReserves together gain at
most one entry, and balances gains an entry only when sells does. -/
theorem C10_priority (srt : List purchase → List purchase) (row : Row) (s : Simulation) :
    (((calcPositions row s).2.1 = true ∧
        (loopBody srt row s = sellAsset srt row s ∨
          loopBody srt row s = balanceFunds row (sellAsset srt row s))) ∨
      ((calcPositions row s).2.1 = false ∧ (calcPositions row s).1 = true ∧
        loopBody srt row s = buyAsset row s) ∨
      ((calcPositions row s).2.1 = false ∧ (calcPositions row s).1 = false ∧
        (calcPositions row s).2.2 = true ∧ loopBody srt row s = openReserves row s) ∨
      ((calcPositions row s).2.1 = false ∧ (calcPositions row s).1 = false ∧
        (calcPositions row s).2.2 = false ∧ loopBody srt row s = s)) ∧
    ((loopBody srt row s).sells.length + (loopBody srt row s).buys.length +
        (loopBody srt row s).openReserves.length ≤
      s.sells.length + s.buys.length + s.openReserves.length + 1) ∧
    ((loopBody srt row s).balances ≠ s.balances →
      (loopBody srt row s).sells = s.sells ++ [s.dFrame.index]) := by
  obtain ⟨-, -, -, f4, f5, f6, f7, -⟩ := sellAsset_frame srt row s
  by_cases h1 : (calcPositions row s).2.1 = true
  · rw [loopBody_of_sell srt row s h1]
    split
    · refine ⟨Or.inl ⟨h1, Or.inr rfl⟩, ?_, ?_⟩
      · simp [f4, f5, f7]
        omega
      · intro _
        simp [f5]
    · refine ⟨Or.inl ⟨h1, Or.inl rfl⟩, ?_, ?_⟩
      · simp [f4, f5, f7]
        omega
      · intro _
        exact f5
  · have h1f : (calcPositions row s).2.1 = false := by simpa using h1
    by_cases h2 : (calcPositions row s).1 = true
    · rw [loopBody_of_buy srt row s h2]
      refine ⟨Or.inr (Or.inl ⟨h1f, h2, rfl⟩), ?_, ?_⟩
      · simp
        omega
      · intro h
        simp at h
    · have h2f : (calcPositions row s).1 = false := by simpa using h2
      by_cases h3 : (calcPositions row s).2.2 = true
      · rw [loopBody_of_openRes srt row s h1f h2f h3]
        refine ⟨Or.inr (Or.inr (Or.inl ⟨h1f, h2f, h3, rfl⟩)), ?_, ?_⟩
        · simp
          omega
        · intro h
          simp at h
      · have h3f : (calcPositions row s).2.2 = false := by simpa using h3
        rw [loopBody_of_none srt row s h1f h2f h3f]
        refine ⟨Or.inr (Or.inr (Or.inr ⟨h1f, h2f, h3f, rfl⟩)), ?_, ?_⟩
        · omega
        · intro h
          exact absurd rfl h

/-! ## Sample run B -/

theorem startB_fields (x : ℚ) :
    (startB x).capital = 20 ∧ (startB x).reserves = 20 ∧ (startB x).asset = 0 ∧
    (startB x).lastBuyPrice = 0 ∧ (startB x).purchaseHistory = [] ∧
    (startB x).dFrame = df.mk 0 (rowsB x) 4 ∧
    (startB x).feePercentage = 0 ∧ (startB x).taxRate = 0 ∧ (startB x).reinvestPercentage = 1 ∧
    (startB x).minReturn = 0 ∧ (startB x).percentDrop = -(1 / 10) ∧
    (startB x).balanceTrip = 100 ∧ (startB x).minReserves = 5 ∧ (startB x).strat = "MACD" ∧
    (startB x).sellCondition = 1 := by
  refine ⟨?_, ?_, rfl, rfl, rfl, ?_, rfl, rfl, rfl, rfl, ?_, rfl, ?_, rfl, rfl⟩ <;>
    simp [startB, sampleStart, NewSimulation, newDF, renameEMA, rowsB, rowUp, rowFlat] <;> norm_num

theorem headB1_fields (x : ℚ) :
    (headB1 x).capital = 0 ∧ (headB1 x).reserves = 20 ∧ (headB1 x).asset = 2 ∧
    (headB1 x).lastBuyPrice = 10 ∧ (headB1 x).purchaseHistory = [purchase.mk 10 2 0] ∧
    (headB1 x).dFrame = df.mk 1 (rowsB x) 4 ∧
    (headB1 x).feePercentage = 0 ∧ (headB1 x).taxRate = 0 ∧ (headB1 x).reinvestPercentage = 1 ∧
    (headB1 x).minReturn = 0 ∧ (headB1 x).percentDrop = -(1 / 10) ∧
    (headB1 x).balanceTrip = 100 ∧ (headB1 x).minReserves = 5 ∧ (headB1 x).strat = "MACD" ∧
    (headB1 x).sellCondition = 1 := by
  obtain ⟨a1, a2, a3, a4, a5, a6, a7, a8, a9, a10, a11, a12, a13, a14, a15⟩ := startB_fields x
  simp [headB1, a1, a2, a3, a4, a5, a6, a7, a8, a9, a10, a11, a12, a13, a14, a15, rowUp]
  norm_num

theorem headB2_fields (x : ℚ) :
    (headB2 x).capital = 10 ∧ (headB2 x).reserves = 10 ∧ (headB2 x).asset = 2 ∧
    (headB2 x).lastBuyPrice = 10 ∧ (headB2 x).purchaseHistory = [purchase.mk 10 2 0] ∧
    (headB2 x).dFrame = df.mk 2 (rowsB x) 4 ∧
    (headB2 x).feePercentage = 0 ∧ (headB2 x).taxRate = 0 ∧ (headB2 x).reinvestPercentage = 1 ∧
    (headB2 x).minReturn = 0 ∧ (headB2 x).percentDrop = -(1 / 10) ∧
    (headB2 x).balanceTrip = 100 ∧ (headB2 x).minReserves = 5 ∧ (headB2 x).strat = "MACD" ∧
    (headB2 x).sellCondition = 1 := by
  obtain ⟨a1, a2, a3, a4, a5, a6, a7, a8, a9, a10, a11, a12, a13, a14, a15⟩ := headB1_fields x
  simp [headB2, a1, a2, a3, a4, a5, a6, a7, a8, a9, a10, a11, a12, a13, a14, a15, rowFlat]
  norm_num

theorem headB3_fields (x : ℚ) :
    (headB3 x).capital = 0 ∧ (headB3 x).reserves = 10 ∧ (headB3 x).asset = 2 + 10 / x ∧
    (headB3 x).lastBuyPrice = x ∧
    (headB3 x).purchaseHistory = [purchase.mk x (10 / x) 2, purchase.mk 10 2 0] ∧
    (headB3 x).dFrame = df.mk 3 (rowsB x) 4 ∧
    (headB3 x).feePercentage = 0 ∧ (headB3 x).taxRate = 0 ∧ (headB3 x).reinvestPercentage = 1 ∧
    (headB3 x).minReturn = 0 ∧ (headB3 x).percentDrop = -(1 / 10) ∧
    (headB3 x).balanceTrip = 100 ∧ (headB3 x).minReserves = 5 ∧ (headB3 x).strat = "MACD" ∧
    (headB3 x).sellCondition = 1 := by
  obtain ⟨a1, a2, a3, a4, a5, a6, a7, a8, a9, a10, a11, a12, a13, a14, a15⟩ := headB2_fields x
  simp [headB3, a1, a2, a3, a4, a5, a6, a7, a8, a9, a10, a11, a12, a13, a14, a15, rowUp]

theorem startB_step (x : ℚ) : curRow (startB x) = some (rowUp 10) ∧
    advance (loopBody isort (rowUp 10) (startB x)) = headB1 x := by
  obtain ⟨a1, a2, a3, a4, a5, a6, a7, a8, a9, a10, a11, a12, a13, a14, a15⟩ := startB_fields x
  have hrow : curRow (startB x) = some (rowUp 10) := by
    simp [curRow, a6, rowsB]
  have hbuy : (calcPositions (rowUp 10) (startB x)).1 = true := by
    rw [calcPositions_buy]
    simp [a1, a14, isBuy, IsBuy, isBuyMACD, rowUp]
  exact ⟨hrow, by rw [loopBody_of_buy isort _ _ hbuy]; rfl⟩

theorem headB1_step (x : ℚ) : curRow (headB1 x) = some (rowFlat 5) ∧
    advance (loopBody isort (rowFlat 5) (headB1 x)) = headB2 x := by
  obtain ⟨a1, a2, a3, a4, a5, a6, a7, a8, a9, a10, a11, a12, a13, a14, a15⟩ := headB1_fields x
  have hrow : curRow (headB1 x) = some (rowFlat 5) := by
    simp [curRow, a6, rowsB]
  have hbuy : (calcPositions (rowFlat 5) (headB1 x)).1 = false := by
    rw [calcPositions_buy]
    simp [a1]
  have hsell : (calcPositions (rowFlat 5) (headB1 x)).2.1 = false := by
    rw [calcPositions_sell]
    simp [a1, a3, a4, a10, a15, IsSell, sellCondition1, fdiv, XRat.gt, rowFlat]
    norm_num
  have hopen : (calcPositions (rowFlat 5) (headB1 x)).2.2 = true := by
    rw [calcPositions_openRes]
    simp [a1, a2, a4, a11, a13, fdiv, XRat.lt, rowFlat]
    norm_num
  exact ⟨hrow, by rw [loopBody_of_openRes isort _ _ hsell hbuy hopen]; rfl⟩

theorem headB2_step (x : ℚ) (hx : 0 < x) : curRow (headB2 x) = some (rowUp x) ∧
    advance (loopBody isort (rowUp x) (headB2 x)) = headB3 x := by
  obtain ⟨a1, a2, a3, a4, a5, a6, a7, a8, a9, a10, a11, a12, a13, a14, a15⟩ := headB2_fields x
  have hrow : curRow (headB2 x) = some (rowUp x) := by
    simp [curRow, a6, rowsB]
  have hbuy : (calcPositions (rowUp x) (headB2 x)).1 = true := by
    rw [calcPositions_buy]
    simp [a1, a14, isBuy, IsBuy, isBuyMACD, rowUp, hx]
  exact ⟨hrow, by rw [loopBody_of_buy isort _ _ hbuy]; rfl⟩

theorem headB3_atHead (x : ℚ) (hx : 0 < x) : AtHead isort (startB x) (headB3 x) := by
  have h0 := startB_step x
  have h1 := headB1_step x
  have h2 := headB2_step x hx
  have e1 : AtHead isort (startB x) (headB1 x) := by
    rw [← h0.2]
    refine AtHead.next (startB x) (rowUp 10) AtHead.start h0.1 ?_
    rw [h0.2]
    simp [(headB1_fields x).2.2.2.2.2.1]
  have e2 : AtHead isort (startB x) (headB2 x) := by
    rw [← h1.2]
    refine AtHead.next (headB1 x) (rowFlat 5) e1 h1.1 ?_
    rw [h1.2]
    simp [(headB2_fields x).2.2.2.2.2.1]
  rw [← h2.2]
  refine AtHead.next (headB2 x) (rowUp x) e2 h2.1 ?_
  rw [h2.2]
  simp [(headB3_fields x).2.2.2.2.2.1]

theorem headB3_sell : curRow (headB3 5) = some (rowFlat 20) ∧
    (calcPositions (rowFlat 20) (headB3 5)).2.1 = true ∧
    liquidated isort (rowFlat 20) (headB3 5) = [purchase.mk 5 (10 / 5) 2, purchase.mk 10 2 0] := by
  obtain ⟨a1, a2, a3, a4, a5, a6, a7, a8, a9, a10, a11, a12, a13, a14, a15⟩ := headB3_fields 5
  refine ⟨?_, ?_, ?_⟩
  · simp [curRow, a6, rowsB]
  · rw [calcPositions_sell]
    simp [a1, a3, a4, a10, a15, IsSell, sellCondition1, fdiv, XRat.gt, rowFlat]
    norm_num
  · rw [liquidated, a5, a10]
    simp [isort, List.insertionSort, List.orderedInsert, qualifies, lotReturn, fdiv, XRat.gt,
      rowFlat, List.takeWhile]
    norm_num

theorem headB3_tied_sell : curRow (headB3 10) = some (rowFlat 20) ∧
    (calcPositions (rowFlat 20) (headB3 10)).2.1 = true ∧
    liquidated isort (rowFlat 20) (headB3 10) =
      [purchase.mk 10 (10 / 10) 2, purchase.mk 10 2 0] := by
  obtain ⟨a1, a2, a3, a4, a5, a6, a7, a8, a9, a10, a11, a12, a13, a14, a15⟩ := headB3_fields 10
  refine ⟨?_, ?_, ?_⟩
  · simp [curRow, a6, rowsB]
  · rw [calcPositions_sell]
    simp [a1, a3, a4, a10, a15, IsSell, sellCondition1, fdiv, XRat.gt, rowFlat]
    norm_num
  · rw [liquidated, a5, a10]
    simp [isort, List.insertionSort, List.orderedInsert, qualifies, lotReturn, fdiv, XRat.gt,
      rowFlat, List.takeWhile]
    norm_num

theorem loopBody_sell_countSELL (srt : List purchase → List purchase) (row : Row)
    (s : Simulation) (hsell : (calcPositions row s).2.1 = true) :
    countSELL (loopBody srt row s).log = countSELL s.log + (liquidated srt row s).length := by
  rw [loopBody_of_sell srt row s hsell]
  split
  · simp only [balanceFunds_fields, countSELL, List.countP_append]
    have h := sellAsset_countSELL srt row s
    simp only [countSELL] at h
    rw [h]
    simp [Event.isSELL]
  · exact sellAsset_countSELL srt row s

/-- C6. Each lot `(p, a)` that `sellAsset` liquidates at market price `P` goes through
`sellLot`, which, with proceeds `a*P`, fee `proceeds*feeRate`, gain `proceeds - a*p`, tax
`gain*taxRate` if the gain is positive and 0 otherwise, netReward `gain - fee - tax` and
reinvested `netReward*reinvestPercentage`, raises capital by `a*p + reinvested`, revenue by
`netReward - reinvested`, tax by the tax and fees by the fee, lowers asset by `a`, and leaves
reserves and lastBuyPrice alone.  Summed over the lots liquidated this is the effect of
`sellAsset`. -/
theorem C6_sell_accounting (srt : List purchase → List purchase) (row : Row) (s : Simulation) :
    (∀ (p : purchase) (t : Simulation),
      (sellLot row p t).capital = t.capital + (p.amount * p.price +
        (p.amount * row.Close - p.amount * p.price - p.amount * row.Close * t.feePercentage -
          (if p.amount * row.Close - p.amount * p.price > 0 then
            (p.amount * row.Close - p.amount * p.price) * t.taxRate else 0)) *
          t.reinvestPercentage) ∧
      (sellLot row p t).revenue = t.revenue +
        (lotNetReward t.feePercentage t.taxRate row.Close p -
          lotReinvested t.feePercentage t.taxRate t.reinvestPercentage row.Close p) ∧
      (sellLot row p t).tax = t.tax + lotTax t.taxRate row.Close p ∧
      (sellLot row p t).fees = t.fees + lotFee t.feePercentage row.Close p ∧
      (sellLot row p t).asset = t.asset - p.amount ∧
      (sellLot row p t).reserves = t.reserves ∧
      (sellLot row p t).lastBuyPrice = t.lastBuyPrice) ∧
    sellAsset srt row s =
      { sellAll row (liquidated srt row s) { s with purchaseHistory := srt s.purchaseHistory } with
        numTransactions := s.numTransactions + 1
        sells := s.sells ++ [s.dFrame.index] } ∧
    (sellAsset srt row s).capital = s.capital +
      ((liquidated srt row s).map (fun p => p.amount * p.price +
        lotReinvested s.feePercentage s.taxRate s.reinvestPercentage row.Close p)).sum ∧
    (sellAsset srt row s).revenue = s.revenue +
      ((liquidated srt row s).map (fun p => lotNetReward s.feePercentage s.taxRate row.Close p -
        lotReinvested s.feePercentage s.taxRate s.reinvestPercentage row.Close p)).sum ∧
    (sellAsset srt row s).tax = s.tax +
      ((liquidated srt row s).map (fun p => lotTax s.taxRate row.Close p)).sum ∧
    (sellAsset srt row s).fees = s.fees +
      ((liquidated srt row s).map (fun p => lotFee s.feePercentage row.Close p)).sum ∧
    (sellAsset srt row s).asset = s.asset - sumAmount (liquidated srt row s) ∧
    (sellAsset srt row s).reserves = s.reserves ∧
    (sellAsset srt row s).lastBuyPrice = s.lastBuyPrice := by
  obtain ⟨m1, m2, m3, m4⟩ := sellAsset_money srt row s
  obtain ⟨f1, f2, -, -, -, -, -, -⟩ := sellAsset_frame srt row s
  obtain ⟨-, -, g3, -, g5, -, -, g8⟩ :=
    sellAll_frame row (liquidated srt row s) { s with purchaseHistory := srt s.purchaseHistory }
  refine ⟨?_, ?_, m1, m2, m3, m4, sellAsset_asset srt row s, f1, f2⟩
  · intro p t
    refine ⟨?_, ?_, ?_, ?_, ?_, ?_, ?_⟩ <;>
      simp [lotReinvested, lotNetReward, lotGain, lotFee, lotTax, lotProceeds]
  · rw [sellAsset_eq, g3, g5, g8]

/-- C7. In a step that performs a Sell (the sell signal of `calcPositions` is true),
whatever the number of lots liquidated, and whether or not a Balance follows,
numTransactions grows by exactly 1 and the row index is appended exactly once to sells. -/
theorem C7_sell_counts_once (srt : List purchase → List purchase) (row : Row) (s : Simulation)
    (hsell : (calcPositions row s).2.1 = true) :
    (loopBody srt row s).numTransactions = s.numTransactions + 1 ∧
    (loopBody srt row s).sells = s.sells ++ [s.dFrame.index] ∧
    (sellAsset srt row s).numTransactions = s.numTransactions + 1 ∧
    (sellAsset srt row s).sells = s.sells ++ [s.dFrame.index] := by
  obtain ⟨-, -, f3, -, f5, -, -, -⟩ := sellAsset_frame srt row s
  rw [loopBody_of_sell srt row s hsell]
  split
  · exact ⟨by simp [f3], by simp [f5], f3, f5⟩
  · exact ⟨f3, f5, f3, f5⟩

/-- Witness for C7: the Sell of sample run B, which liquidates two lots and counts once. -/
theorem C7_sell_counts_once_witness :
    (calcPositions (rowFlat 20) (headB3 5)).2.1 = true ∧
    (liquidated isort (rowFlat 20) (headB3 5)).length = 2 ∧
    (loopBody isort (rowFlat 20) (headB3 5)).numTransactions = (headB3 5).numTransactions + 1 ∧
    (loopBody isort (rowFlat 20) (headB3 5)).sells = (headB3 5).sells ++ [(headB3 5).dFrame.index] := by
  have h := C7_sell_counts_once isort (rowFlat 20) (headB3 5) headB3_sell.2.1
  refine ⟨headB3_sell.2.1, ?_, h.1, h.2.1⟩
  rw [headB3_sell.2.2]
  rfl

/-- C8, as stated, fails: in sample run B the step on row 3 performs a Sell that liquidates
two lots, and it appends two SELL entries to the diagnostic file, not one. -/
theorem C8_counterexample :
    AtHead isort (startB 5) (headB3 5) ∧ curRow (headB3 5) = some (rowFlat 20) ∧
    (calcPositions (rowFlat 20) (headB3 5)).2.1 = true ∧
    countSELL (loopBody isort (rowFlat 20) (headB3 5)).log = countSELL (headB3 5).log + 2 := by
  refine ⟨(headB3_atHead 5 (by norm_num)), headB3_sell.1, headB3_sell.2.1, ?_⟩
  rw [loopBody_sell_countSELL isort _ _ headB3_sell.2.1, headB3_sell.2.2]
  rfl

/-- C8, amended. In a step that performs a Sell, the number of SELL entries appended to the
diagnostic file equals the number of lots liquidated in that step: one entry per lot, written
inside the loop of `sellAsset`, and none when no lot is liquidated. -/
theorem C8_sell_events (srt : List purchase → List purchase) (row : Row) (s : Simulation)
    (hsell : (calcPositions row s).2.1 = true) :
    countSELL (loopBody srt row s).log = countSELL s.log + (liquidated srt row s).length ∧
    countSELL (sellAsset srt row s).log = countSELL s.log + (liquidated srt row s).length :=
  ⟨loopBody_sell_countSELL srt row s hsell, sellAsset_countSELL srt row s⟩

/-- Witness for C8 as amended: the Sell of sample run B. -/
theorem C8_sell_events_witness :
    (calcPositions (rowFlat 20) (headB3 5)).2.1 = true ∧
    countSELL (loopBody isort (rowFlat 20) (headB3 5)).log =
      countSELL (headB3 5).log + (liquidated isort (rowFlat 20) (headB3 5)).length :=
  ⟨headB3_sell.2.1, (C8_sell_events isort (rowFlat 20) (headB3 5) headB3_sell.2.1).1⟩

/-! ## Order of liquidation -/

theorem return_antitone (P p1 p2 : ℚ) (hP : 0 < P) (h1 : 0 < p1) (h12 : p1 ≤ p2) :
    (P - p2) / p2 ≤ (P - p1) / p1 := by
  have h2 : 0 < p2 := lt_of_lt_of_le h1 h12
  rw [div_le_div_iff₀ h2 h1]
  nlinarith [mul_le_mul_of_nonneg_left h12 hP.le]

theorem qualifies_of_pos (P m : ℚ) (p : purchase) (hp : 0 < p.price) :
    qualifies P m p = decide (m < (P - p.price) / p.price) := by
  simp [qualifies, lotReturn, fdiv, XRat.gt, ne_of_gt hp]

theorem qualifies_mono (P m : ℚ) (a b : purchase) (hP : 0 < P) (ha : 0 < a.price)
    (hab : a.price ≤ b.price) (hb : qualifies P m b = true) : qualifies P m a = true := by
  have hbpos : 0 < b.price := lt_of_lt_of_le ha hab
  rw [qualifies_of_pos P m b hbpos] at hb
  rw [qualifies_of_pos P m a ha]
  have h := return_antitone P a.price b.price hP ha hab
  simp only [decide_eq_true_eq] at hb ⊢
  exact lt_of_lt_of_le hb h

theorem dropWhile_head_fails (q : purchase → Bool) (l : List purchase) (p : purchase)
    (h : (l.dropWhile q).head? = some p) : q p = false := by
  induction l with
  | nil => simp at h
  | cons a l ih =>
    by_cases ha : q a = true
    · rw [List.dropWhile_cons_of_pos ha] at h
      exact ih h
    · rw [List.dropWhile_cons_of_neg ha] at h
      simp only [List.head?_cons, Option.some.injEq] at h
      subst h
      simpa using ha

theorem dropWhile_none_qualifies (P m : ℚ) (hP : 0 < P) (l : List purchase)
    (hpos : ∀ p ∈ l, 0 < p.price) (hsorted : l.Pairwise (fun a b => a.price ≤ b.price)) :
    ∀ p ∈ l.dropWhile (qualifies P m), qualifies P m p = false := by
  induction l with
  | nil => simp
  | cons a l ih =>
    have hl : l.Pairwise (fun a b => a.price ≤ b.price) := (List.pairwise_cons.mp hsorted).2
    have hal : ∀ b ∈ l, a.price ≤ b.price := (List.pairwise_cons.mp hsorted).1
    by_cases ha : qualifies P m a = true
    · rw [List.dropWhile_cons_of_pos ha]
      exact ih (fun p hp => hpos p (List.mem_cons_of_mem a hp)) hl
    · rw [List.dropWhile_cons_of_neg ha]
      intro p hp
      rcases List.mem_cons.mp hp with rfl | hpl
      · simpa using ha
      · by_contra hq
        have hq2 : qualifies P m p = true := by simpa using hq
        exact ha (qualifies_mono P m a p hP (hpos a (List.mem_cons_self a l)) (hal p hpl) hq2)

theorem takeWhile_eq_filter_of_rest (q : purchase → Bool) (l : List purchase)
    (h : ∀ p ∈ l.dropWhile q, q p = false) : l.takeWhile q = l.filter q := by
  have hsplit := List.takeWhile_append_dropWhile q l
  have h1 : (l.takeWhile q).filter q = l.takeWhile q :=
    List.filter_eq_self.mpr (fun a ha => List.mem_takeWhile_imp ha)
  have h2 : (l.dropWhile q).filter q = [] := by
    rw [List.filter_eq_nil_iff]
    intro a ha
    simp [h a ha]
  calc l.takeWhile q = (l.takeWhile q).filter q ++ (l.dropWhile q).filter q := by
        rw [h1, h2, List.append_nil]
    _ = (l.takeWhile q ++ l.dropWhile q).filter q := by rw [List.filter_append]
    _ = l.filter q := by rw [hsplit]

theorem liquidated_longest (srt : List purchase → List purchase) (row : Row) (s : Simulation)
    (l1 l2 : List purchase) (hsplit : l1 ++ l2 = srt s.purchaseHistory)
    (hall : ∀ p ∈ l1, qualifies row.Close s.minReturn p = true) :
    l1.length ≤ (liquidated srt row s).length := by
  unfold liquidated
  rw [← hsplit, List.takeWhile_append_of_pos hall]
  simp

/-- C4, as stated, fails: in sample run B with the second buy at the price of the first (10),
the Sell on row 3 liquidates both lots, whose entry prices are equal, so the lots are not
liquidated in strictly ascending entry-price order. -/
theorem C4_counterexample :
    AtHead isort (startB 10) (headB3 10) ∧ curRow (headB3 10) = some (rowFlat 20) ∧
    (calcPositions (rowFlat 20) (headB3 10)).2.1 = true ∧
    liquidated isort (rowFlat 20) (headB3 10) =
      [purchase.mk 10 (10 / 10) 2, purchase.mk 10 2 0] ∧
    ¬ List.Pairwise (fun a b => a.price < b.price)
      (liquidated isort (rowFlat 20) (headB3 10)) := by
  refine ⟨headB3_atHead 10 (by norm_num), headB3_tied_sell.1, headB3_tied_sell.2.1,
    headB3_tied_sell.2.2, ?_⟩
  rw [headB3_tied_sell.2.2]
  simp

/-- C4, amended. For every state and price `P`, `sellAsset` liquidates only lots whose
lotReturn `(P - lot.price)/lot.price` is `> minReturn`, in non-decreasing entry-price order
(lots of equal price in the order the sort leaves them), stopping at the first disqualifying
lot: the lots removed are exactly the longest leading run of the ascending-by-price ordering of
purchaseHistory whose every element qualifies, each is removed whole (asset drops by the sum of
their full amounts), and the remaining lots are the rest of that ordering, unchanged. -/
theorem C4_sell_leading_run (srt : List purchase → List purchase) (hsrt : SortSpec srt)
    (row : Row) (s : Simulation) :
    List.Perm (srt s.purchaseHistory) s.purchaseHistory ∧
    List.Pairwise (fun a b => a.price ≤ b.price) (srt s.purchaseHistory) ∧
    liquidated srt row s ++ (sellAsset srt row s).purchaseHistory = srt s.purchaseHistory ∧
    (∀ p ∈ liquidated srt row s, (lotReturn row.Close p).gt s.minReturn = true) ∧
    List.Pairwise (fun a b => a.price ≤ b.price) (liquidated srt row s) ∧
    (∀ p, (sellAsset srt row s).purchaseHistory.head? = some p →
      (lotReturn row.Close p).gt s.minReturn = false) ∧
    (∀ l1 l2, l1 ++ l2 = srt s.purchaseHistory →
      (∀ p ∈ l1, (lotReturn row.Close p).gt s.minReturn = true) →
      l1.length ≤ (liquidated srt row s).length) ∧
    sellAsset srt row s =
      { sellAll row (liquidated srt row s) { s with purchaseHistory := srt s.purchaseHistory } with
        numTransactions := s.numTransactions + 1
        sells := s.sells ++ [s.dFrame.index] } ∧
    (sellAsset srt row s).asset = s.asset - sumAmount (liquidated srt row s) := by
  obtain ⟨hperm, hsorted⟩ := sortSpec_le srt hsrt s.purchaseHistory
  obtain ⟨-, -, g3, -, g5, -, -, g8⟩ :=
    sellAll_frame row (liquidated srt row s) { s with purchaseHistory := srt s.purchaseHistory }
  have hph := sellAsset_purchaseHistory srt row s
  refine ⟨hperm, hsorted, ?_, ?_, ?_, ?_, ?_, ?_, sellAsset_asset srt row s⟩
  · rw [hph]
    exact liquidated_append_dropWhile srt row s
  · intro p hp
    have hq : qualifies row.Close s.minReturn p = true := List.mem_takeWhile_imp hp
    exact hq
  · exact hsorted.sublist (List.takeWhile_sublist _)
  · intro p hp
    rw [hph] at hp
    exact dropWhile_head_fails _ _ p hp
  · intro l1 l2 hsplit hall
    exact liquidated_longest srt row s l1 l2 hsplit hall
  · rw [sellAsset_eq, g3, g5, g8]

/-- Witness for C4 as amended: the Sell of sample run B under insertion sort. -/
theorem C4_sell_leading_run_witness :
    SortSpec isort ∧
    liquidated isort (rowFlat 20) (headB3 5) ++
        (sellAsset isort (rowFlat 20) (headB3 5)).purchaseHistory =
      isort (headB3 5).purchaseHistory ∧
    List.Pairwise (fun a b => a.price ≤ b.price) (liquidated isort (rowFlat 20) (headB3 5)) :=
  ⟨isort_spec, (C4_sell_leading_run isort isort_spec (rowFlat 20) (headB3 5)).2.2.1,
    (C4_sell_leading_run isort isort_spec (rowFlat 20) (headB3 5)).2.2.2.2.1⟩

set_option maxRecDepth 1000000 in
/-- C5, as stated, fails on binary64: the rounded return is not monotone in the price.  In
sample run M (investment 40, no fee, no tax, sell condition 6, minReturn
`-0.753715022710705`; buys at 178.33 on row 0 and at 178.33000000000004 on row 2, then the
price 43.92 with a negative price change) the lot bought at the lower price has the lower
rounded return.  The sell signal on row 3 is true, the loop of `sellAsset` stops at the first
lot of the sorted history (its return is not above minReturn), and the run ends with both
lots open although the return of the second is above minReturn. -/
theorem C5_counterexample :
    B64.setup "A" 40 0 0 "d" B64.rowsM "l" "MACD" 6 0 1
        (F64.ofRatio true 753715022710705 1000000000000000) (F64.ofRatio false 1 10) 100 =
      Except.ok B64.startM ∧
    (∀ row ∈ B64.rowsM, (0 : F64) < row.Close) ∧
    (B64.RunSimulation B64.isort B64.startM).map
        (fun r => (r.1.buys, r.1.openReserves, r.1.sells,
          r.1.purchaseHistory.map (fun p => (p.price, p.index)))) =
      some ([0, 2], [1], [3], [(F64.ofRatio false 17833 100, 0),
        (F64.ofRatio false 17833000000000004 100000000000000, 2)]) ∧
    F64.ofRatio false 17833 100 < F64.ofRatio false 17833000000000004 100000000000000 ∧
    B64.lotReturn (F64.ofRatio false 4392 100)
        (B64.purchase.mk (F64.ofRatio false 17833 100) 0 0) <
      B64.lotReturn (F64.ofRatio false 4392 100)
        (B64.purchase.mk (F64.ofRatio false 17833000000000004 100000000000000) 0 2) ∧
    ¬ (B64.lotReturn (F64.ofRatio false 4392 100)
        (B64.purchase.mk (F64.ofRatio false 17833 100) 0 0) > B64.startM.minReturn) ∧
    B64.lotReturn (F64.ofRatio false 4392 100)
        (B64.purchase.mk (F64.ofRatio false 17833000000000004 100000000000000) 0 2) >
      B64.startM.minReturn :=
  ⟨b64_sampleStart_setup 40 0 0 6 1 (F64.ofRatio true 753715022710705 1000000000000000)
      (F64.ofRatio false 1 10) 100 B64.rowsM,
    by decide, by decide, by decide, by decide, by decide, by decide⟩

/-- C5, amended. In exact arithmetic, ascending price implies non-increasing return: for
`P > 0` and `0 < p1 <= p2`, `(P - p1)/p1 >= (P - p2)/p2`.  Hence, in exact arithmetic, when
`P > 0` and every lot price is positive, no lot that remains after `sellAsset` has lotReturn
`> minReturn`, and the lots liquidated are exactly the lots of purchaseHistory that
qualify. -/
theorem C5_early_exit_valid (srt : List purchase → List purchase) (hsrt : SortSpec srt)
    (row : Row) (s : Simulation) (hP : 0 < row.Close)
    (hpos : ∀ p ∈ s.purchaseHistory, 0 < p.price) :
    (∀ P p1 p2 : ℚ, 0 < P → 0 < p1 → p1 ≤ p2 → (P - p2) / p2 ≤ (P - p1) / p1) ∧
    (∀ (m : ℚ) (a b : purchase), 0 < a.price → a.price ≤ b.price →
      (lotReturn row.Close b).gt m = true → (lotReturn row.Close a).gt m = true) ∧
    (∀ p ∈ (sellAsset srt row s).purchaseHistory,
      (lotReturn row.Close p).gt s.minReturn = false) ∧
    liquidated srt row s =
      (srt s.purchaseHistory).filter (fun p => (lotReturn row.Close p).gt s.minReturn) ∧
    List.Perm (liquidated srt row s)
      (s.purchaseHistory.filter (fun p => (lotReturn row.Close p).gt s.minReturn)) := by
  obtain ⟨hperm, hsorted⟩ := sortSpec_le srt hsrt s.purchaseHistory
  have hpos2 : ∀ p ∈ srt s.purchaseHistory, 0 < p.price :=
    fun p hp => hpos p (hperm.subset hp)
  have hrest := dropWhile_none_qualifies row.Close s.minReturn hP (srt s.purchaseHistory)
    hpos2 hsorted
  have hfilter : liquidated srt row s =
      (srt s.purchaseHistory).filter (qualifies row.Close s.minReturn) :=
    takeWhile_eq_filter_of_rest _ _ hrest
  refine ⟨fun P p1 p2 h0 h1 h12 => return_antitone P p1 p2 h0 h1 h12,
    fun m a b ha hab hb => qualifies_mono row.Close m a b hP ha hab hb, ?_, hfilter, ?_⟩
  · intro p hp
    rw [sellAsset_purchaseHistory] at hp
    exact hrest p hp
  · rw [hfilter]
    exact hperm.filter _

/-- Witness for C5 as amended: the Sell of sample run B, at price 20 with lots bought at 5 and 10. -/
theorem C5_early_exit_valid_witness :
    SortSpec isort ∧ 0 < (rowFlat 20).Close ∧ (∀ p ∈ (headB3 5).purchaseHistory, 0 < p.price) ∧
    (∀ p ∈ (sellAsset isort (rowFlat 20) (headB3 5)).purchaseHistory,
      (lotReturn (rowFlat 20).Close p).gt (headB3 5).minReturn = false) := by
  have hP : 0 < (rowFlat 20).Close := by
    simp [rowFlat]
  have hpos : ∀ p ∈ (headB3 5).purchaseHistory, 0 < p.price := by
    rw [(headB3_fields 5).2.2.2.2.1]
    simp
  exact ⟨isort_spec, hP, hpos,
    (C5_early_exit_valid isort isort_spec (rowFlat 20) (headB3 5) hP hpos).2.2.1⟩

/-! ## Invariants of a run -/

theorem visited_induction (srt : List purchase → List purchase) (s0 : Simulation)
    (I : Simulation → Prop) (h0 : I s0)
    (hsell : ∀ s row, I s → curRow s = some row → I (sellAsset srt row s))
    (hbal : ∀ s row, I s → I (balanceFunds row s))
    (hbuy : ∀ s row, I s → curRow s = some row → 0 < s.capital → I (buyAsset row s))
    (hopen : ∀ s row, I s → I (openReserves row s))
    (hadv : ∀ s, I s → I (advance s)) (hret : ∀ s, I s → I (retreat s)) :
    ∀ s, Visited srt s0 s → I s := by
  have hbody : ∀ s row, I s → curRow s = some row → I (loopBody srt row s) := by
    intro s row hI hrow
    by_cases h1 : (calcPositions row s).2.1 = true
    · rw [loopBody_of_sell srt row s h1]
      split
      · exact hbal _ row (hsell s row hI hrow)
      · exact hsell s row hI hrow
    · have h1f : (calcPositions row s).2.1 = false := by simpa using h1
      by_cases h2 : (calcPositions row s).1 = true
      · rw [loopBody_of_buy srt row s h2]
        exact hbuy s row hI hrow (calcPositions_buy_capital row s h2)
      · have h2f : (calcPositions row s).1 = false := by simpa using h2
        by_cases h3 : (calcPositions row s).2.2 = true
        · rw [loopBody_of_openRes srt row s h1f h2f h3]
          exact hopen s row hI
        · have h3f : (calcPositions row s).2.2 = false := by simpa using h3
          rw [loopBody_of_none srt row s h1f h2f h3f]
          exact hI
  have hhead : ∀ s, AtHead srt s0 s → I s := by
    intro s hs
    induction hs with
    | start => exact h0
    | next s row _ hrow _ ih => exact hadv _ (hbody s row ih hrow)
  intro s hs
  cases hs with
  | head s h => exact hhead s h
  | sold s row h hrow _ => exact hsell s row (hhead s h) hrow
  | acted s row h hrow => exact hbody s row (hhead s h) hrow
  | moved s row h hrow => exact hadv _ (hbody s row (hhead s h) hrow)
  | done s row h hrow _ => exact hret _ (hadv _ (hbody s row (hhead s h) hrow))

theorem runLoop_visited (srt : List purchase → List purchase) (s0 : Simulation) (fuel : Nat)
    (s sf : Simulation) (hs : AtHead srt s0 s) (hrun : runLoop srt fuel s = some sf) :
    Visited srt s0 sf := by
  induction fuel generalizing s with
  | zero => simp [runLoop] at hrun
  | succ fuel ih =>
    unfold runLoop at hrun
    cases hrow : curRow s with
    | none => simp [hrow] at hrun
    | some row =>
      simp only [hrow] at hrun
      by_cases hge : (advance (loopBody srt row s)).dFrame.index ≥
          (advance (loopBody srt row s)).dFrame.nRows
      · rw [if_pos hge] at hrun
        have hsf : retreat (advance (loopBody srt row s)) = sf := by simpa using hrun
        rw [← hsf]
        exact Visited.done s row hs hrow hge
      · rw [if_neg hge] at hrun
        exact ih _ (AtHead.next s row hs hrow hge) hrun

theorem sumAmount_cons (p : purchase) (l : List purchase) :
    sumAmount (p :: l) = p.amount + sumAmount l := by
  simp [sumAmount]

theorem sumAmount_append (l1 l2 : List purchase) :
    sumAmount (l1 ++ l2) = sumAmount l1 + sumAmount l2 := by
  simp [sumAmount]

theorem sumAmount_perm {l1 l2 : List purchase} (h : List.Perm l1 l2) :
    sumAmount l1 = sumAmount l2 := by
  unfold sumAmount
  exact (h.map (fun p => p.amount)).sum_eq

theorem sellAsset_lots (srt : List purchase → List purchase) (hsrt : SortSpec srt) (row : Row)
    (s : Simulation) :
    List.Perm (liquidated srt row s ++ (sellAsset srt row s).purchaseHistory)
      s.purchaseHistory ∧
    sumAmount (sellAsset srt row s).purchaseHistory =
      sumAmount s.purchaseHistory - sumAmount (liquidated srt row s) := by
  have hperm := (hsrt s.purchaseHistory).1
  have hsplit : liquidated srt row s ++ (sellAsset srt row s).purchaseHistory =
      srt s.purchaseHistory := by
    rw [sellAsset_purchaseHistory]
    exact liquidated_append_dropWhile srt row s
  refine ⟨hsplit ▸ hperm, ?_⟩
  have h := sumAmount_perm hperm
  rw [← hsplit, sumAmount_append] at h
  linarith

theorem sellAsset_sum_invariant (srt : List purchase → List purchase) (hsrt : SortSpec srt)
    (row : Row) (s : Simulation) (h : sumAmount s.purchaseHistory = s.asset) :
    sumAmount (sellAsset srt row s).purchaseHistory = (sellAsset srt row s).asset := by
  rw [(sellAsset_lots srt hsrt row s).2, sellAsset_asset, h]

theorem visited_sum_invariant (srt : List purchase → List purchase) (hsrt : SortSpec srt)
    (s0 : Simulation) (h0 : sumAmount s0.purchaseHistory = s0.asset) :
    ∀ s, Visited srt s0 s → sumAmount s.purchaseHistory = s.asset := by
  refine visited_induction srt s0 (fun s => sumAmount s.purchaseHistory = s.asset) h0
    ?_ ?_ ?_ ?_ ?_ ?_
  · intro s row hI _
    exact sellAsset_sum_invariant srt hsrt row s hI
  · intro s row hI
    simpa using hI
  · intro s row hI _ _
    simp only [buyAsset_fields, sumAmount_cons]
    rw [hI]
    ring
  · intro s row hI
    simpa using hI
  · intro s hI
    simpa using hI
  · intro s hI
    simpa using hI

theorem setup_ok_fields (asset : String) (investAMT taxRate feePercentage : ℚ)
    (dataFile : String) (data : List Row) (logFile : String) (strat : String)
    (sellCondition : Int) (ema : Int) (reinvestPercentage minReturn percentDrop balanceTrip : ℚ)
    (s0 : Simulation)
    (hset : setup asset investAMT taxRate feePercentage dataFile data logFile strat
      sellCondition ema reinvestPercentage minReturn percentDrop balanceTrip = Except.ok s0) :
    s0.capital = investAMT / 2 ∧ s0.reserves = investAMT / 2 ∧ s0.asset = 0 ∧
    s0.purchaseHistory = [] ∧ s0.feePercentage = feePercentage ∧ s0.taxRate = taxRate ∧
    s0.reinvestPercentage = reinvestPercentage ∧ s0.dFrame.data = renameEMA ema data ∧
    s0.initialInvestment = investAMT ∧ s0.minReturn = minReturn ∧
    s0.percentDrop = -1 * percentDrop ∧ s0.balanceTrip = balanceTrip ∧
    s0.minReserves = investAMT * (125 / 1000) ∧ s0.lastBuyPrice = 0 ∧
    s0.dFrame.index = 0 ∧ s0.dFrame.nRows = data.length ∧ s0.strat = strat ∧
    s0.sellCondition = sellCondition := by
  unfold setup SetStratParams at hset
  by_cases hv : IsValidStrategy strat = true
  · simp only [if_pos hv] at hset
    injection hset with hset
    subst hset
    simp [NewSimulation, newDF]
  · simp only [if_neg hv] at hset
    cases hset

theorem lot_capital_nonneg (f t r P : ℚ) (p : purchase) (hf1 : f ≤ 1)
    (ht0 : 0 ≤ t) (hft : f + t ≤ 1) (hr0 : 0 ≤ r) (hr1 : r ≤ 1) (hP : 0 < P)
    (ha : 0 ≤ p.amount) (hp : 0 < p.price) :
    0 ≤ p.amount * p.price + lotReinvested f t r P p := by
  have hX : 0 ≤ p.amount * p.price := mul_nonneg ha hp.le
  have hAP : 0 ≤ p.amount * P := mul_nonneg ha hP.le
  have hY : 0 ≤ p.amount * p.price + lotNetReward f t P p := by
    unfold lotNetReward lotTax lotFee lotGain lotProceeds
    by_cases hg : p.amount * P - p.amount * p.price > 0
    · rw [if_pos hg]
      have e : p.amount * p.price + (p.amount * P - p.amount * p.price - p.amount * P * f -
          (p.amount * P - p.amount * p.price) * t) =
          p.amount * P * (1 - t - f) + p.amount * p.price * t := by ring
      rw [e]
      have h1 : 0 ≤ p.amount * P * (1 - t - f) := mul_nonneg hAP (by linarith)
      have h2 : 0 ≤ p.amount * p.price * t := mul_nonneg hX ht0
      linarith
    · rw [if_neg hg]
      have e : p.amount * p.price + (p.amount * P - p.amount * p.price - p.amount * P * f - 0) =
          p.amount * P * (1 - f) := by ring
      rw [e]
      exact mul_nonneg hAP (by linarith)
  have e2 : p.amount * p.price + lotReinvested f t r P p =
      (1 - r) * (p.amount * p.price) + r * (p.amount * p.price + lotNetReward f t P p) := by
    unfold lotReinvested
    ring
  rw [e2]
  exact add_nonneg (mul_nonneg (by linarith) hX) (mul_nonneg hr0 hY)

theorem sumAmount_nonneg (l : List purchase) (h : ∀ p ∈ l, 0 ≤ p.amount) :
    0 ≤ sumAmount l := by
  unfold sumAmount
  apply List.sum_nonneg
  intro x hx
  obtain ⟨p, hp, rfl⟩ := List.mem_map.mp hx
  exact h p hp

theorem nonNeg_sellAsset (srt : List purchase → List purchase) (hsrt : SortSpec srt)
    (s : Simulation) (row : Row) (hI : NonNeg s) (hrow : curRow s = some row) :
    NonNeg (sellAsset srt row s) := by
  obtain ⟨⟨hf0, hf1, ht0, hft, hr0, hr1, hrows⟩, hc, hres, _, hlots, hsum⟩ := hI
  obtain ⟨-, c2, c3, -, -, c6, -, -, -, -, c11, -⟩ := sellAsset_sameConfig srt row s
  obtain ⟨f1, -, -, -, -, -, -, -⟩ := sellAsset_frame srt row s
  have hP : 0 < row.Close := hrows row (List.getElem?_mem hrow)
  have hperm := (hsrt s.purchaseHistory).1
  have hliq : ∀ p ∈ liquidated srt row s, 0 ≤ p.amount ∧ 0 < p.price := fun p hp =>
    hlots p (hperm.subset (List.takeWhile_subset _ hp))
  have hrest : ∀ p ∈ (sellAsset srt row s).purchaseHistory, 0 ≤ p.amount ∧ 0 < p.price := by
    intro p hp
    rw [sellAsset_purchaseHistory] at hp
    exact hlots p (hperm.subset (List.dropWhile_subset _ hp))
  have hsum2 := sellAsset_sum_invariant srt hsrt row s hsum
  refine ⟨⟨?_, ?_, ?_, ?_, ?_, ?_, ?_⟩, ?_, ?_, ?_, hrest, hsum2⟩
  · rw [c2]; exact hf0
  · rw [c2]; exact hf1
  · rw [c3]; exact ht0
  · rw [c2, c3]; exact hft
  · rw [c6]; exact hr0
  · rw [c6]; exact hr1
  · rw [c11]; exact hrows
  · rw [(sellAsset_money srt row s).1]
    apply add_nonneg hc
    apply List.sum_nonneg
    intro x hx
    obtain ⟨p, hp, rfl⟩ := List.mem_map.mp hx
    exact lot_capital_nonneg _ _ _ _ p hf1 ht0 hft hr0 hr1 hP (hliq p hp).1 (hliq p hp).2
  · rw [f1]; exact hres
  · rw [← hsum2]
    exact sumAmount_nonneg _ (fun p hp => (hrest p hp).1)

theorem nonNeg_buyAsset (s : Simulation) (row : Row) (hI : NonNeg s)
    (hrow : curRow s = some row) : NonNeg (buyAsset row s) := by
  obtain ⟨⟨hf0, hf1, ht0, hft, hr0, hr1, hrows⟩, hc, hres, hasset, hlots, hsum⟩ := hI
  have hP : 0 < row.Close := hrows row (List.getElem?_mem hrow)
  have hamt : 0 ≤ (s.capital - s.capital * s.feePercentage) / row.Close := by
    apply div_nonneg _ hP.le
    have : s.capital * s.feePercentage ≤ s.capital * 1 := mul_le_mul_of_nonneg_left hf1 hc
    linarith
  refine ⟨⟨hf0, hf1, ht0, hft, hr0, hr1, hrows⟩, ?_, hres, ?_, ?_, ?_⟩
  · simp
  · simp only [buyAsset_fields]
    exact add_nonneg hasset hamt
  · simp only [buyAsset_fields]
    intro p hp
    rcases List.mem_cons.mp hp with rfl | hp2
    · exact ⟨hamt, hP⟩
    · exact hlots p hp2
  · simp only [buyAsset_fields, sumAmount_cons]
    rw [hsum]
    ring

theorem nonNeg_visited (srt : List purchase → List purchase) (hsrt : SortSpec srt)
    (s0 : Simulation) (h0 : NonNeg s0) : ∀ s, Visited srt s0 s → NonNeg s := by
  refine visited_induction srt s0 NonNeg h0 ?_ ?_ ?_ ?_ ?_ ?_
  · intro s row hI hrow
    exact nonNeg_sellAsset srt hsrt s row hI hrow
  · intro s row hI
    obtain ⟨hcfg, hc, hres, hasset, hlots, hsum⟩ := hI
    refine ⟨hcfg, ?_, ?_, hasset, hlots, hsum⟩ <;>
    · simp only [balanceFunds_fields]
      linarith
  · intro s row hI hrow _
    exact nonNeg_buyAsset s row hI hrow
  · intro s row hI
    obtain ⟨hcfg, hc, hres, hasset, hlots, hsum⟩ := hI
    refine ⟨hcfg, ?_, ?_, hasset, hlots, hsum⟩ <;>
    · simp only [openReserves_fields]
      linarith
  · intro s hI
    exact hI
  · intro s hI
    exact hI

theorem renameEMA_close (ema : Int) (data : List Row) (h : ∀ row ∈ data, 0 < row.Close) :
    ∀ row ∈ renameEMA ema data, 0 < row.Close := by
  intro row hrow
  unfold renameEMA at hrow
  obtain ⟨r, hr, rfl⟩ := List.mem_map.mp hrow
  exact h r hr

/-! ## Sample run C -/

theorem startC_fields :
    startC.capital = 10 ∧ startC.reserves = 10 ∧ startC.asset = 0 ∧ startC.lastBuyPrice = 0 ∧
    startC.purchaseHistory = [] ∧ startC.dFrame = df.mk 0 rowsC 2 ∧
    startC.feePercentage = 9 / 10 ∧ startC.taxRate = 1 ∧ startC.reinvestPercentage = 1 ∧
    startC.minReturn = 0 ∧ startC.percentDrop = 0 ∧ startC.balanceTrip = 100 ∧
    startC.strat = "MACD" ∧ startC.sellCondition = 1 := by
  refine ⟨?_, ?_, rfl, rfl, rfl, ?_, rfl, rfl, rfl, rfl, ?_, rfl, rfl, rfl⟩ <;>
    simp [startC, sampleStart, NewSimulation, newDF, renameEMA, rowsC, rowUp, rowFlat] <;> norm_num

theorem headC1_fields :
    headC1.capital = 0 ∧ headC1.reserves = 10 ∧ headC1.asset = 1 ∧ headC1.lastBuyPrice = 1 ∧
    headC1.purchaseHistory = [purchase.mk 1 1 0] ∧ headC1.dFrame = df.mk 1 rowsC 2 ∧
    headC1.feePercentage = 9 / 10 ∧ headC1.taxRate = 1 ∧ headC1.reinvestPercentage = 1 ∧
    headC1.minReturn = 0 ∧ headC1.percentDrop = 0 ∧ headC1.balanceTrip = 100 ∧
    headC1.strat = "MACD" ∧ headC1.sellCondition = 1 := by
  obtain ⟨a1, a2, a3, a4, a5, a6, a7, a8, a9, a10, a11, a12, a13, a14⟩ := startC_fields
  simp [headC1, a1, a2, a3, a4, a5, a6, a7, a8, a9, a10, a11, a12, a13, a14, rowUp]
  norm_num

theorem startC_step : curRow startC = some (rowUp 1) ∧
    advance (loopBody isort (rowUp 1) startC) = headC1 := by
  obtain ⟨a1, a2, a3, a4, a5, a6, a7, a8, a9, a10, a11, a12, a13, a14⟩ := startC_fields
  have hrow : curRow startC = some (rowUp 1) := by
    simp [curRow, a6, rowsC]
  have hbuy : (calcPositions (rowUp 1) startC).1 = true := by
    rw [calcPositions_buy]
    simp [a1, a13, isBuy, IsBuy, isBuyMACD, rowUp]
  exact ⟨hrow, by rw [loopBody_of_buy isort _ _ hbuy]; rfl⟩

theorem headC1_atHead : AtHead isort startC headC1 := by
  have h0 := startC_step
  rw [← h0.2]
  refine AtHead.next startC (rowUp 1) AtHead.start h0.1 ?_
  rw [h0.2]
  simp [headC1_fields.2.2.2.2.2.1]

theorem headC1_sell : curRow headC1 = some (rowFlat 2) ∧
    (calcPositions (rowFlat 2) headC1).2.1 = true ∧
    liquidated isort (rowFlat 2) headC1 = [purchase.mk 1 1 0] := by
  obtain ⟨a1, a2, a3, a4, a5, a6, a7, a8, a9, a10, a11, a12, a13, a14⟩ := headC1_fields
  refine ⟨?_, ?_, ?_⟩
  · simp [curRow, a6, rowsC]
  · rw [calcPositions_sell]
    simp [a1, a3, a4, a10, a14, IsSell, sellCondition1, fdiv, XRat.gt, rowFlat]
  · rw [liquidated, a5, a10]
    simp [isort, List.insertionSort, List.orderedInsert, qualifies, lotReturn, fdiv, XRat.gt,
      rowFlat, List.takeWhile]

theorem headC1_sold_capital : (sellAsset isort (rowFlat 2) headC1).capital = -(4 / 5) := by
  obtain ⟨a1, a2, a3, a4, a5, a6, a7, a8, a9, a10, a11, a12, a13, a14⟩ := headC1_fields
  rw [(sellAsset_money isort (rowFlat 2) headC1).1, headC1_sell.2.2, a1, a7, a8, a9]
  simp [lotReinvested, lotNetReward, lotGain, lotFee, lotTax, lotProceeds, rowFlat]
  norm_num

theorem RunSimulation_visited (srt : List purchase → List purchase) (s0 sf : Simulation)
    (res : Result) (h : RunSimulation srt s0 = some (sf, res)) : Visited srt s0 sf := by
  unfold RunSimulation at h
  cases hrun : runLoop srt (s0.dFrame.nRows + 1) s0 with
  | none => simp [hrun] at h
  | some sf2 =>
    simp only [hrun] at h
    cases hrow : curRow sf2 with
    | none => simp [hrow] at h
    | some row =>
      simp only [hrow] at h
      cases hres : getResultString sf2 row.Close with
      | none => simp [hres] at h
      | some str =>
        simp only [hres, Option.some.injEq, Prod.mk.injEq] at h
        rw [← h.1]
        exact runLoop_visited srt s0 _ s0 sf2 AtHead.start hrun

set_option maxRecDepth 1000000 in
/-- C1, as stated, fails.  In exact arithmetic: in sample run C (investment 20, fee rate
9/10, tax rate 1, reinvest percentage 1, close prices 1 and 2, all within the stated ranges)
the lot bought on row 0 is sold on row 1, and after `sellAsset` capital is -4/5.  On
binary64, also with `feeRate + taxRate <= 1`: in sample run R (investment 40, no fee, no tax,
close prices 10, 5, 7.5, 20) the amounts 2 and `fl(10/7.5)` are added to asset in the order
bought and subtracted in the order of price, and the run ends, after the Sell on row 3, with
asset `-2^-52` (`-2.220446049250313e-16`), which is below 0. -/
theorem C1_counterexample :
    (setup "A" 20 1 (9 / 10) "d" rowsC "l" "MACD" 1 0 1 0 0 100 = Except.ok startC ∧
      (0 : ℚ) ≤ 20 ∧ (∀ row ∈ rowsC, 0 < row.Close) ∧
      ((0 : ℚ) ≤ 9 / 10 ∧ (9 / 10 : ℚ) ≤ 1) ∧ ((0 : ℚ) ≤ 1 ∧ (1 : ℚ) ≤ 1) ∧
      Visited isort startC (sellAsset isort (rowFlat 2) headC1) ∧
      (sellAsset isort (rowFlat 2) headC1).capital < 0) ∧
    (B64.setup "A" 40 0 0 "d" B64.rowsR "l" "MACD" 1 0 1 0 (F64.ofRatio false 1 10) 100 =
        Except.ok B64.startR ∧
      (∀ row ∈ B64.rowsR, (0 : F64) < row.Close) ∧
      (B64.RunSimulation B64.isort B64.startR).map
          (fun r => (r.1.buys, r.1.openReserves, r.1.sells, r.1.asset)) =
        some ([0, 2], [1], [3], F64.fin true 4503599627370496 (-104)) ∧
      F64.fin true 4503599627370496 (-104) < (0 : F64)) := by
  refine ⟨⟨sampleStart_setup 20 1 (9 / 10) 1 0 0 100 rowsC, by norm_num, ?_,
    ⟨by norm_num, by norm_num⟩, ⟨by norm_num, by norm_num⟩,
    Visited.sold headC1 (rowFlat 2) headC1_atHead headC1_sell.1 headC1_sell.2.1, ?_⟩,
    b64_sampleStart_setup 40 0 0 1 1 0 (F64.ofRatio false 1 10) 100 B64.rowsR,
    by decide, by decide, by decide⟩
  · intro row hrow
    simp only [rowsC, List.mem_cons, List.mem_singleton, List.not_mem_nil, or_false] at hrow
    rcases hrow with rfl | rfl <;> simp [rowUp, rowFlat]
  · rw [headC1_sold_capital]
    norm_num

/-- C1, amended. In exact arithmetic: for every run of `RunSimulation` on a state built by
`NewSimulation` and `SetStratParams` with initialInvestment `>= 0`, strictly positive Close
prices, feeRate, taxRate and reinvestPercentage each in `[0,1]` and
`feeRate + taxRate <= 1`, every state the run passes through (the top of each iteration,
after `sellAsset`, after the decision chain, after the cursor moves, and the final state) has
capital `>= 0`, reserves `>= 0` and asset `>= 0`. -/
theorem C1_nonnegative (srt : List purchase → List purchase) (hsrt : SortSpec srt)
    (asset : String) (investAMT taxRate feePercentage : ℚ) (dataFile : String)
    (data : List Row) (logFile : String) (strat : String) (sellCondition : Int) (ema : Int)
    (reinvestPercentage minReturn percentDrop balanceTrip : ℚ) (s0 : Simulation)
    (hset : setup asset investAMT taxRate feePercentage dataFile data logFile strat
      sellCondition ema reinvestPercentage minReturn percentDrop balanceTrip = Except.ok s0)
    (hinv : 0 ≤ investAMT) (hprice : ∀ row ∈ data, 0 < row.Close)
    (hfee : 0 ≤ feePercentage ∧ feePercentage ≤ 1) (htax : 0 ≤ taxRate ∧ taxRate ≤ 1)
    (hre : 0 ≤ reinvestPercentage ∧ reinvestPercentage ≤ 1)
    (hsum : feePercentage + taxRate ≤ 1) :
    (∀ s, Visited srt s0 s → 0 ≤ s.capital ∧ 0 ≤ s.reserves ∧ 0 ≤ s.asset) ∧
    (∀ sf res, RunSimulation srt s0 = some (sf, res) →
      0 ≤ sf.capital ∧ 0 ≤ sf.reserves ∧ 0 ≤ sf.asset) := by
  obtain ⟨b1, b2, b3, b4, b5, b6, b7, b8, -⟩ := setup_ok_fields asset investAMT taxRate
    feePercentage dataFile data logFile strat sellCondition ema reinvestPercentage minReturn
    percentDrop balanceTrip s0 hset
  have h0 : NonNeg s0 := by
    refine ⟨⟨?_, ?_, ?_, ?_, ?_, ?_, ?_⟩, ?_, ?_, ?_, ?_, ?_⟩
    · rw [b5]; exact hfee.1
    · rw [b5]; exact hfee.2
    · rw [b6]; exact htax.1
    · rw [b5, b6]; exact hsum
    · rw [b7]; exact hre.1
    · rw [b7]; exact hre.2
    · rw [b8]; exact renameEMA_close ema data hprice
    · rw [b1]; linarith
    · rw [b2]; linarith
    · rw [b3]
    · rw [b4]; simp
    · rw [b3, b4]; rfl
  have hall : ∀ s, Visited srt s0 s → 0 ≤ s.capital ∧ 0 ≤ s.reserves ∧ 0 ≤ s.asset := by
    intro s hs
    obtain ⟨-, hc, hr, ha, -, -⟩ := nonNeg_visited srt hsrt s0 h0 s hs
    exact ⟨hc, hr, ha⟩
  exact ⟨hall, fun sf res h => hall sf (RunSimulation_visited srt s0 sf res h)⟩

/-- Witness for C1 as amended: the state after the Sell of sample run B. -/
theorem C1_nonnegative_witness :
    SortSpec isort ∧
    setup "A" 40 0 0 "d" (rowsB 5) "l" "MACD" 1 0 1 0 (1 / 10) 100 = Except.ok (startB 5) ∧
    Visited isort (startB 5) (sellAsset isort (rowFlat 20) (headB3 5)) ∧
    0 ≤ (sellAsset isort (rowFlat 20) (headB3 5)).capital ∧
    0 ≤ (sellAsset isort (rowFlat 20) (headB3 5)).reserves ∧
    0 ≤ (sellAsset isort (rowFlat 20) (headB3 5)).asset := by
  have hset := sampleStart_setup 40 0 0 1 0 (1 / 10) 100 (rowsB 5)
  have hvis : Visited isort (startB 5) (sellAsset isort (rowFlat 20) (headB3 5)) :=
    Visited.sold (headB3 5) (rowFlat 20) (headB3_atHead 5 (by norm_num)) headB3_sell.1
      headB3_sell.2.1
  have hprice : ∀ row ∈ rowsB 5, 0 < row.Close := by
    intro row hrow
    simp only [rowsB, List.mem_cons, List.mem_singleton, List.not_mem_nil, or_false] at hrow
    rcases hrow with rfl | rfl | rfl | rfl <;> simp [rowUp, rowFlat]
  exact ⟨isort_spec, hset, hvis,
    (C1_nonnegative isort isort_spec "A" 40 0 0 "d" (rowsB 5) "l" "MACD" 1 0 1 0 (1 / 10) 100
      (startB 5) hset (by norm_num) hprice ⟨by norm_num, by norm_num⟩
      ⟨by norm_num, by norm_num⟩ ⟨by norm_num, by norm_num⟩ (by norm_num)).1 _ hvis⟩

theorem renameEMA_close_ne (ema : Int) (data : List Row) (h : ∀ row ∈ data, row.Close ≠ 0) :
    ∀ row ∈ renameEMA ema data, row.Close ≠ 0 := by
  intro row hrow
  unfold renameEMA at hrow
  obtain ⟨r, hr, rfl⟩ := List.mem_map.mp hrow
  exact h r hr

theorem lots_price_ne_zero (srt : List purchase → List purchase) (hsrt : SortSpec srt)
    (s0 : Simulation) (h0d : ∀ row ∈ s0.dFrame.data, row.Close ≠ 0)
    (h0p : ∀ p ∈ s0.purchaseHistory, p.price ≠ 0) :
    ∀ s, Visited srt s0 s →
      (∀ row ∈ s.dFrame.data, row.Close ≠ 0) ∧ ∀ p ∈ s.purchaseHistory, p.price ≠ 0 := by
  refine visited_induction srt s0
    (fun s => (∀ row ∈ s.dFrame.data, row.Close ≠ 0) ∧ ∀ p ∈ s.purchaseHistory, p.price ≠ 0)
    ⟨h0d, h0p⟩ ?_ ?_ ?_ ?_ ?_ ?_
  · intro s row hI _
    refine ⟨?_, ?_⟩
    · rw [(sellAsset_frame srt row s).2.2.2.2.2.2.2]
      exact hI.1
    · intro p hp
      rw [sellAsset_purchaseHistory] at hp
      exact hI.2 p ((hsrt s.purchaseHistory).1.subset ((List.dropWhile_sublist _).subset hp))
  · intro s row hI
    simp only [balanceFunds_fields]
    exact hI
  · intro s row hI hrow _
    simp only [buyAsset_fields]
    refine ⟨hI.1, ?_⟩
    intro p hp
    rcases List.mem_cons.mp hp with rfl | hp
    · exact hI.1 row (List.getElem?_mem hrow)
    · exact hI.2 p hp
  · intro s row hI
    simp only [openReserves_fields]
    exact hI
  · intro s hI
    simp only [advance_fields]
    exact hI
  · intro s hI
    simp only [retreat_fields]
    exact hI

set_option maxRecDepth 1000000 in
/-- C2, as stated, fails at a close price of 0.  In sample run Z on binary64 (investment 40,
no fee, no tax; a buy signal at close price 0, then the price 20) the Buy on row 0 stores the
amount `20/0 = +Inf` in the lot and in asset; on row 1 the sell signal is true (`asset > 0`,
return `+Inf`), the lot qualifies and is removed, and asset becomes `+Inf - (+Inf) = NaN`.
The run ends with no lots, whose amounts sum to 0, and asset `NaN`. -/
theorem C2_counterexample :
    B64.setup "A" 40 0 0 "d" B64.rowsZ "l" "MACD" 1 0 1 0 (F64.ofRatio false 1 10) 100 =
      Except.ok B64.startZ ∧
    (B64.calcPositions (B64.rowUp 0 (-1)) B64.startZ).1 = true ∧
    (B64.loopBody B64.isort (B64.rowUp 0 (-1)) B64.startZ).purchaseHistory =
      [B64.purchase.mk 0 (F64.inf false) 0] ∧
    (B64.loopBody B64.isort (B64.rowUp 0 (-1)) B64.startZ).asset = F64.inf false ∧
    (B64.RunSimulation B64.isort B64.startZ).map
        (fun r => (r.1.buys, r.1.sells, r.1.purchaseHistory, r.1.asset)) =
      some ([0], [1], [], F64.nan) ∧
    B64.sumAmount [] = F64.zero false ∧
    F64.nan ≠ F64.zero false :=
  ⟨b64_sampleStart_setup 40 0 0 1 1 0 (F64.ofRatio false 1 10) 100 B64.rowsZ,
    by decide, by decide, by decide, by decide, by decide, by decide⟩

/-- C2, amended. In exact arithmetic, on a series whose Close prices are all non-zero: in
every state a run of `RunSimulation` passes through, starting from the state built by
`NewSimulation` (asset 0, no lots) and `SetStratParams`, the sum of the lot amounts in
purchaseHistory equals asset and every lot has a non-zero price: `buyAsset` (at a non-zero
price) adds the same amount to both, and `sellAsset` subtracts from asset exactly the amounts
of the lots it removes from purchaseHistory. -/
theorem C2_lot_sum (srt : List purchase → List purchase) (hsrt : SortSpec srt)
    (asset : String) (investAMT taxRate feePercentage : ℚ) (dataFile : String)
    (data : List Row) (logFile : String) (strat : String) (sellCondition : Int) (ema : Int)
    (reinvestPercentage minReturn percentDrop balanceTrip : ℚ) (s0 : Simulation)
    (hset : setup asset investAMT taxRate feePercentage dataFile data logFile strat
      sellCondition ema reinvestPercentage minReturn percentDrop balanceTrip = Except.ok s0)
    (hprice : ∀ row ∈ data, row.Close ≠ 0) :
    (NewSimulation asset investAMT taxRate feePercentage dataFile data logFile).asset = 0 ∧
    (NewSimulation asset investAMT taxRate feePercentage dataFile data logFile).purchaseHistory
      = [] ∧
    (∀ s, Visited srt s0 s →
      sumAmount s.purchaseHistory = s.asset ∧ ∀ p ∈ s.purchaseHistory, p.price ≠ 0) ∧
    (∀ sf res, RunSimulation srt s0 = some (sf, res) →
      sumAmount sf.purchaseHistory = sf.asset ∧ ∀ p ∈ sf.purchaseHistory, p.price ≠ 0) ∧
    (∀ row s, row.Close ≠ 0 →
      (buyAsset row s).asset - s.asset =
        sumAmount (buyAsset row s).purchaseHistory - sumAmount s.purchaseHistory ∧
      (buyAsset row s).asset - s.asset =
        (s.capital - s.capital * s.feePercentage) / row.Close ∧
      ((buyAsset row s).asset - s.asset) * row.Close =
        s.capital - s.capital * s.feePercentage) ∧
    (∀ row s, s.asset - (sellAsset srt row s).asset = sumAmount (liquidated srt row s) ∧
      sumAmount s.purchaseHistory - sumAmount (sellAsset srt row s).purchaseHistory =
        sumAmount (liquidated srt row s) ∧
      List.Perm (liquidated srt row s ++ (sellAsset srt row s).purchaseHistory)
        s.purchaseHistory) := by
  obtain ⟨-, -, b3, b4, -, -, -, b8, -⟩ := setup_ok_fields asset investAMT taxRate
    feePercentage dataFile data logFile strat sellCondition ema reinvestPercentage minReturn
    percentDrop balanceTrip s0 hset
  have h0 : sumAmount s0.purchaseHistory = s0.asset := by
    rw [b3, b4]; rfl
  have hall := visited_sum_invariant srt hsrt s0 h0
  have hne := lots_price_ne_zero srt hsrt s0 (by rw [b8]; exact renameEMA_close_ne ema data hprice)
    (by rw [b4]; simp)
  have hboth : ∀ s, Visited srt s0 s →
      sumAmount s.purchaseHistory = s.asset ∧ ∀ p ∈ s.purchaseHistory, p.price ≠ 0 :=
    fun s hs => ⟨hall s hs, (hne s hs).2⟩
  refine ⟨rfl, rfl, hboth, fun sf res h => hboth sf (RunSimulation_visited srt s0 sf res h),
    ?_, ?_⟩
  · intro row s hP
    refine ⟨?_, ?_, ?_⟩
    · simp only [buyAsset_fields, sumAmount_cons]
      ring
    · simp only [buyAsset_fields]
      ring
    · simp only [buyAsset_fields]
      rw [add_sub_cancel_left, div_mul_cancel₀ _ hP]
  · intro row s
    obtain ⟨hperm, hsum⟩ := sellAsset_lots srt hsrt row s
    refine ⟨?_, ?_, hperm⟩
    · rw [sellAsset_asset]; ring
    · rw [hsum]; ring

/-- Witness for C2 as amended: sample run B at the top of the loop on row 3, holding two
lots. -/
theorem C2_lot_sum_witness :
    SortSpec isort ∧
    setup "A" 40 0 0 "d" (rowsB 5) "l" "MACD" 1 0 1 0 (1 / 10) 100 = Except.ok (startB 5) ∧
    (∀ row ∈ rowsB 5, row.Close ≠ 0) ∧
    Visited isort (startB 5) (headB3 5) ∧
    sumAmount (headB3 5).purchaseHistory = (headB3 5).asset := by
  have hset := sampleStart_setup 40 0 0 1 0 (1 / 10) 100 (rowsB 5)
  have hvis : Visited isort (startB 5) (headB3 5) :=
    Visited.head (headB3 5) (headB3_atHead 5 (by norm_num))
  have hprice : ∀ row ∈ rowsB 5, row.Close ≠ 0 := by
    intro row hrow
    simp only [rowsB, List.mem_cons, List.mem_singleton, List.not_mem_nil, or_false] at hrow
    rcases hrow with rfl | rfl | rfl | rfl <;> simp [rowUp, rowFlat]
  exact ⟨isort_spec, hset, hprice, hvis,
    ((C2_lot_sum isort isort_spec "A" 40 0 0 "d" (rowsB 5) "l" "MACD" 1 0 1 0 (1 / 10) 100
      (startB 5) hset hprice).2.2.1 _ hvis).1⟩

/-! ## Strategy tables, set-up and benchmark -/

/-- C18. On every row `strategy.IsBuy` is the buy table: `MACD` is `MACD > SIGNAL` and
`Close > EMA`; `alt-MACD` adds `MACD < 0`; `MACD-CHAI` adds `CHAI > 0`; `PSAR` is
`SAR < Close` and `Close > EMA`; `MACD-PSAR` is the conjunction of the `MACD` and `PSAR`
conditions; any other name gives false.  So a buy under `alt-MACD`, `MACD-CHAI` or
`MACD-PSAR` implies a buy under `MACD` on the same row. -/
theorem C18_buy_table (row : Row) :
    IsBuy "MACD" row = (decide (row.MACD > row.SIGNAL) && decide (row.Close > row.EMA)) ∧
    IsBuy "alt-MACD" row =
      (decide (row.MACD > row.SIGNAL) && decide (row.Close > row.EMA) &&
        decide (row.MACD < 0)) ∧
    IsBuy "MACD-CHAI" row =
      (decide (row.MACD > row.SIGNAL) && decide (row.Close > row.EMA) &&
        decide (row.CHAI > 0)) ∧
    IsBuy "PSAR" row = (decide (row.SAR < row.Close) && decide (row.Close > row.EMA)) ∧
    IsBuy "MACD-PSAR" row =
      ((decide (row.MACD > row.SIGNAL) && decide (row.Close > row.EMA)) &&
        (decide (row.SAR < row.Close) && decide (row.Close > row.EMA))) ∧
    (∀ strat : String, strat ≠ "MACD-CHAI" → strat ≠ "MACD" → strat ≠ "PSAR" →
      strat ≠ "MACD-PSAR" → strat ≠ "alt-MACD" → IsBuy strat row = false) ∧
    (IsBuy "alt-MACD" row = true → IsBuy "MACD" row = true) ∧
    (IsBuy "MACD-CHAI" row = true → IsBuy "MACD" row = true) ∧
    (IsBuy "MACD-PSAR" row = true → IsBuy "MACD" row = true) := by
  have e1 : IsBuy "MACD" row = isBuyMACD row := by simp [IsBuy]
  have e2 : IsBuy "alt-MACD" row = isBuyAltMACD row := by simp [IsBuy]
  have e3 : IsBuy "MACD-CHAI" row = isBuyMACDCHAI row := by simp [IsBuy]
  have e4 : IsBuy "PSAR" row = isBuyPSAR row := by simp [IsBuy]
  have e5 : IsBuy "MACD-PSAR" row = (isBuyMACD row && isBuyPSAR row) := by simp [IsBuy]
  refine ⟨?_, ?_, ?_, ?_, ?_, ?_, ?_, ?_, ?_⟩
  · rw [e1]; rfl
  · rw [e2]; rfl
  · rw [e3]; rfl
  · rw [e4]; rfl
  · rw [e5]; rfl
  · intro strat h1 h2 h3 h4 h5
    simp [IsBuy, h1, h2, h3, h4, h5]
  · rw [e1, e2]
    simp only [isBuyAltMACD, isBuyMACD, Bool.and_eq_true]
    exact fun h => h.1
  · rw [e1, e3]
    simp only [isBuyMACDCHAI, isBuyMACD, Bool.and_eq_true]
    exact fun h => h.1
  · rw [e1, e5]
    simp only [Bool.and_eq_true]
    exact fun h => h.1

/-- C19. On every row, for every minReturn and currentReturn, `strategy.IsSell` is the sell
table: 1 is `currentReturn > minReturn`; 2 is `(EMA > Close and currentReturn > minReturn) or
currentReturn > 2*minReturn`; 3 is `EMA < Close and currentReturn > minReturn`; 4 is
`EMA > Close and MACD < SIGNAL and currentReturn > minReturn`; 5 is `EMA > Close and
currentReturn > minReturn`; 6 is `dP < 0 and currentReturn > minReturn`; any other id gives
false. -/
theorem C19_sell_table (row : Row) (minReturn : ℚ) (currentReturn : XRat) :
    IsSell minReturn currentReturn row 1 = currentReturn.gt minReturn ∧
    IsSell minReturn currentReturn row 2 =
      ((decide (row.EMA > row.Close) && currentReturn.gt minReturn) ||
        currentReturn.gt (2 * minReturn)) ∧
    IsSell minReturn currentReturn row 3 =
      (decide (row.EMA < row.Close) && currentReturn.gt minReturn) ∧
    IsSell minReturn currentReturn row 4 =
      (decide (row.EMA > row.Close) && decide (row.MACD < row.SIGNAL) &&
        currentReturn.gt minReturn) ∧
    IsSell minReturn currentReturn row 5 =
      (decide (row.EMA > row.Close) && currentReturn.gt minReturn) ∧
    IsSell minReturn currentReturn row 6 =
      (decide (row.dP < 0) && currentReturn.gt minReturn) ∧
    (∀ id : Int, (id < 1 ∨ 6 < id) → IsSell minReturn currentReturn row id = false) := by
  refine ⟨rfl, rfl, rfl, rfl, rfl, rfl, ?_⟩
  intro id hid
  have h1 : id ≠ 1 := by omega
  have h2 : id ≠ 2 := by omega
  have h3 : id ≠ 3 := by omega
  have h4 : id ≠ 4 := by omega
  have h5 : id ≠ 5 := by omega
  have h6 : id ≠ 6 := by omega
  simp [IsSell, h1, h2, h3, h4, h5, h6]

/-- C20. `IsValidStrategy` holds exactly of the five names `MACD-CHAI`, `MACD`, `PSAR`,
`MACD-PSAR`, `alt-MACD`.  `SetStratParams` returns an error exactly when `IsValidStrategy`
fails, and then leaves the state as it was; when it succeeds it stores strat, sellCondition,
ema, reinvestPercentage, minReturn and balanceTrip as given, stores percentDrop negated, and
puts the cursor on row 0. -/
theorem C20_set_strat_params (s : Simulation) (strat : String) (sellCondition : Int)
    (ema : Int) (reinvestPercentage minReturn percentDrop balanceTrip : ℚ) :
    (∀ name : String, IsValidStrategy name = true ↔
      (name = "MACD-CHAI" ∨ name = "MACD" ∨ name = "PSAR" ∨ name = "MACD-PSAR" ∨
        name = "alt-MACD")) ∧
    ((SetStratParams s strat sellCondition ema reinvestPercentage minReturn percentDrop
        balanceTrip).2 ≠ none ↔ IsValidStrategy strat = false) ∧
    ((SetStratParams s strat sellCondition ema reinvestPercentage minReturn percentDrop
        balanceTrip).2 ≠ none →
      (SetStratParams s strat sellCondition ema reinvestPercentage minReturn percentDrop
        balanceTrip).1 = s) ∧
    ((SetStratParams s strat sellCondition ema reinvestPercentage minReturn percentDrop
        balanceTrip).2 = none →
      (SetStratParams s strat sellCondition ema reinvestPercentage minReturn percentDrop
        balanceTrip).1.strat = strat ∧
      (SetStratParams s strat sellCondition ema reinvestPercentage minReturn percentDrop
        balanceTrip).1.sellCondition = sellCondition ∧
      (SetStratParams s strat sellCondition ema reinvestPercentage minReturn percentDrop
        balanceTrip).1.stratEMA = ema ∧
      (SetStratParams s strat sellCondition ema reinvestPercentage minReturn percentDrop
        balanceTrip).1.reinvestPercentage = reinvestPercentage ∧
      (SetStratParams s strat sellCondition ema reinvestPercentage minReturn percentDrop
        balanceTrip).1.minReturn = minReturn ∧
      (SetStratParams s strat sellCondition ema reinvestPercentage minReturn percentDrop
        balanceTrip).1.balanceTrip = balanceTrip ∧
      (SetStratParams s strat sellCondition ema reinvestPercentage minReturn percentDrop
        balanceTrip).1.percentDrop = -percentDrop ∧
      (SetStratParams s strat sellCondition ema reinvestPercentage minReturn percentDrop
        balanceTrip).1.dFrame.index = 0) := by
  refine ⟨?_, ?_, ?_, ?_⟩
  · intro name
    simp only [IsValidStrategy, strategies, List.any_cons, List.any_nil, Bool.or_false,
      Bool.or_eq_true, decide_eq_true_eq]
    constructor
    · rintro (h | h | h | h | h) <;> simp [← h]
    · rintro (h | h | h | h | h) <;> simp [h]
  · unfold SetStratParams
    by_cases hv : IsValidStrategy strat = true
    · simp [hv]
    · simp [hv]
  · unfold SetStratParams
    by_cases hv : IsValidStrategy strat = true
    · simp [hv]
    · simp [hv]
  · unfold SetStratParams
    by_cases hv : IsValidStrategy strat = true
    · simp [hv]
    · simp [hv]

theorem getBuyHold_eq (s : Simulation) (first last : Row)
    (h0 : s.dFrame.data[0]? = some first)
    (hl : s.dFrame.data[s.dFrame.nRows - 1]? = some last) :
    getBuyHold s =
      some (buyHoldValue first.Close last.Close s.feePercentage s.taxRate
        s.initialInvestment) := by
  unfold getBuyHold buyHoldValue
  simp only [h0, hl]
  by_cases hg : (s.initialInvestment - s.initialInvestment * s.feePercentage) / first.Close *
      last.Close - s.initialInvestment > 0
  · simp only [if_pos hg]
  · simp only [if_neg hg, sub_zero]

/-- C17. `getBuyHold` is a function of the first Close price, the last Close price,
feePercentage, taxRate and initialInvestment alone, on binary64 and in exact arithmetic
alike: its value is `g - t - s` rounded to 2 decimals by `roundFloat`, where
`a = (I - I*fee)/first`, `s = a*last*fee`, `g = a*last - I` and `t = g*taxRate` if `g > 0`,
else 0, each operation performed in the arithmetic at hand; two states that agree on these
five values get the same number, whatever their other fields.  In exact arithmetic the
rounded value is a multiple of 1/100 within 1/200 of `g - t - s`. -/
theorem C17_buy_hold_pure (s : Simulation) (first last : Row)
    (h0 : s.dFrame.data[0]? = some first)
    (hl : s.dFrame.data[s.dFrame.nRows - 1]? = some last)
    (t : B64.Simulation) (firstF lastF : B64.Row)
    (g0 : t.dFrame.data[0]? = some firstF)
    (gl : t.dFrame.data[t.dFrame.nRows - 1]? = some lastF) :
    (B64.getBuyHold t =
        some (B64.roundFloat
          (((t.initialInvestment - t.initialInvestment * t.feePercentage) / firstF.Close *
              lastF.Close - t.initialInvestment) -
            (if (t.initialInvestment - t.initialInvestment * t.feePercentage) / firstF.Close *
                lastF.Close - t.initialInvestment > 0 then
              ((t.initialInvestment - t.initialInvestment * t.feePercentage) / firstF.Close *
                lastF.Close - t.initialInvestment) * t.taxRate else 0) -
            (t.initialInvestment - t.initialInvestment * t.feePercentage) / firstF.Close *
              lastF.Close * t.feePercentage) 2) ∧
      B64.getBuyHold t =
        some (B64.buyHoldValue firstF.Close lastF.Close t.feePercentage t.taxRate
          t.initialInvestment) ∧
      (∀ (t2 : B64.Simulation) (first2 last2 : B64.Row),
        t2.dFrame.data[0]? = some first2 →
        t2.dFrame.data[t2.dFrame.nRows - 1]? = some last2 →
        first2.Close = firstF.Close → last2.Close = lastF.Close →
        t2.feePercentage = t.feePercentage → t2.taxRate = t.taxRate →
        t2.initialInvestment = t.initialInvestment →
        B64.getBuyHold t2 = B64.getBuyHold t)) ∧
    (getBuyHold s =
        some (roundFloat
          (((s.initialInvestment - s.initialInvestment * s.feePercentage) / first.Close *
              last.Close - s.initialInvestment) -
            (if (s.initialInvestment - s.initialInvestment * s.feePercentage) / first.Close *
                last.Close - s.initialInvestment > 0 then
              ((s.initialInvestment - s.initialInvestment * s.feePercentage) / first.Close *
                last.Close - s.initialInvestment) * s.taxRate else 0) -
            (s.initialInvestment - s.initialInvestment * s.feePercentage) / first.Close *
              last.Close * s.feePercentage) 2) ∧
      getBuyHold s =
        some (buyHoldValue first.Close last.Close s.feePercentage s.taxRate
          s.initialInvestment) ∧
      (∀ (s2 : Simulation) (first2 last2 : Row),
        s2.dFrame.data[0]? = some first2 →
        s2.dFrame.data[s2.dFrame.nRows - 1]? = some last2 →
        first2.Close = first.Close → last2.Close = last.Close →
        s2.feePercentage = s.feePercentage → s2.taxRate = s.taxRate →
        s2.initialInvestment = s.initialInvestment → getBuyHold s2 = getBuyHold s) ∧
      (∀ v : ℚ, |roundFloat v 2 - v| ≤ 1 / 200 ∧ ∃ k : ℤ, roundFloat v 2 = (k : ℚ) / 100)) := by
  have h := getBuyHold_eq s first last h0 hl
  have g := B64.b64_getBuyHold_eq t firstF lastF g0 gl
  refine ⟨⟨?_, g, ?_⟩, ?_, h, ?_, roundFloat_two_spec⟩
  · rw [g]
    rfl
  · intro t2 first2 last2 k0 kl e1 e2 e3 e4 e5
    rw [g, B64.b64_getBuyHold_eq t2 first2 last2 k0 kl, e1, e2, e3, e4, e5]
  · rw [h]
    rfl
  · intro s2 first2 last2 k0 kl e1 e2 e3 e4 e5
    rw [h, getBuyHold_eq s2 first2 last2 k0 kl, e1, e2, e3, e4, e5]

set_option maxRecDepth 1000000 in
/-- Witness for C17.  In exact arithmetic the start state and the state at the top of row 3
of sample run B differ in capital, asset, lots and cursor, and have the same benchmark.  On
binary64, sample run H (investment 40, fee 0.125, no tax, close prices 2.125 and 6.375) has
the benchmark 51.87; the same formula in exact arithmetic gives 51.875, rounded to 51.88. -/
theorem C17_buy_hold_pure_witness :
    (startB 5).dFrame.data[0]? = some (rowUp 10) ∧
    (startB 5).dFrame.data[(startB 5).dFrame.nRows - 1]? = some (rowFlat 20) ∧
    B64.startH.dFrame.data[0]? = some (B64.rowUp (F64.ofRatio false 2125 1000) 0) ∧
    B64.startH.dFrame.data[B64.startH.dFrame.nRows - 1]? =
      some (B64.rowFlat (F64.ofRatio false 6375 1000) 0) ∧
    getBuyHold (headB3 5) = getBuyHold (startB 5) ∧
    B64.getBuyHold B64.startH =
      some (B64.buyHoldValue (F64.ofRatio false 2125 1000) (F64.ofRatio false 6375 1000)
        (F64.ofRatio false 125 1000) 0 40) ∧
    B64.buyHoldValue (F64.ofRatio false 2125 1000) (F64.ofRatio false 6375 1000)
      (F64.ofRatio false 125 1000) 0 40 = F64.ofRatio false 5187 100 ∧
    buyHoldValue (2125 / 1000) (6375 / 1000) (125 / 1000) 0 40 = 5188 / 100 := by
  have hd : (startB 5).dFrame = df.mk 0 (rowsB 5) 4 := (startB_fields 5).2.2.2.2.2.1
  have hd3 : (headB3 5).dFrame = df.mk 3 (rowsB 5) 4 := (headB3_fields 5).2.2.2.2.2.1
  have h0 : (startB 5).dFrame.data[0]? = some (rowUp 10) := by
    rw [hd]; simp [rowsB]
  have hl : (startB 5).dFrame.data[(startB 5).dFrame.nRows - 1]? = some (rowFlat 20) := by
    rw [hd]; simp [rowsB]
  have g0 : (headB3 5).dFrame.data[0]? = some (rowUp 10) := by
    rw [hd3]; simp [rowsB]
  have gl : (headB3 5).dFrame.data[(headB3 5).dFrame.nRows - 1]? = some (rowFlat 20) := by
    rw [hd3]; simp [rowsB]
  have k0 : B64.startH.dFrame.data[0]? = some (B64.rowUp (F64.ofRatio false 2125 1000) 0) :=
    rfl
  have kl : B64.startH.dFrame.data[B64.startH.dFrame.nRows - 1]? =
      some (B64.rowFlat (F64.ofRatio false 6375 1000) 0) := rfl
  have key := C17_buy_hold_pure (startB 5) (rowUp 10) (rowFlat 20) h0 hl B64.startH
    (B64.rowUp (F64.ofRatio false 2125 1000) 0) (B64.rowFlat (F64.ofRatio false 6375 1000) 0)
    k0 kl
  refine ⟨h0, hl, k0, kl, key.2.2.2.1 (headB3 5) (rowUp 10) (rowFlat 20) g0 gl rfl rfl ?_ ?_
    ?_, key.1.2.1, by decide, ?_⟩
  · rw [(headB3_fields 5).2.2.2.2.2.2.1, (startB_fields 5).2.2.2.2.2.2.1]
  · rw [(headB3_fields 5).2.2.2.2.2.2.2.1, (startB_fields 5).2.2.2.2.2.2.2.1]
  · rfl
  · have e : buyHoldValue (2125 / 1000) (6375 / 1000) (125 / 1000) 0 40 =
        roundFloat (51875 / 1000) 2 := by
      unfold buyHoldValue
      norm_num
    rw [e, roundFloat_half.2]

/-! ## Sample run D -/

theorem startD_fields (r bt : ℚ) :
    (startD r bt).capital = 20 ∧ (startD r bt).reserves = 20 ∧ (startD r bt).asset = 0 ∧
    (startD r bt).lastBuyPrice = 0 ∧ (startD r bt).purchaseHistory = [] ∧
    (startD r bt).dFrame = df.mk 0 rowsD 2 ∧
    (startD r bt).feePercentage = 0 ∧ (startD r bt).taxRate = 0 ∧
    (startD r bt).reinvestPercentage = r ∧ (startD r bt).minReturn = 0 ∧
    (startD r bt).percentDrop = -(1 / 10) ∧ (startD r bt).balanceTrip = bt ∧
    (startD r bt).minReserves = 5 ∧ (startD r bt).strat = "MACD" ∧
    (startD r bt).sellCondition = 1 := by
  refine ⟨?_, ?_, rfl, rfl, rfl, ?_, rfl, rfl, rfl, rfl, ?_, rfl, ?_, rfl, rfl⟩ <;>
    simp [startD, sampleStart, NewSimulation, newDF, renameEMA, rowsD, rowUp, rowFlat] <;> norm_num

theorem headD1_fields (r bt : ℚ) :
    (headD1 r bt).capital = 0 ∧ (headD1 r bt).reserves = 20 ∧ (headD1 r bt).asset = 2 ∧
    (headD1 r bt).lastBuyPrice = 10 ∧ (headD1 r bt).purchaseHistory = [purchase.mk 10 2 0] ∧
    (headD1 r bt).dFrame = df.mk 1 rowsD 2 ∧
    (headD1 r bt).feePercentage = 0 ∧ (headD1 r bt).taxRate = 0 ∧
    (headD1 r bt).reinvestPercentage = r ∧ (headD1 r bt).minReturn = 0 ∧
    (headD1 r bt).percentDrop = -(1 / 10) ∧ (headD1 r bt).balanceTrip = bt ∧
    (headD1 r bt).minReserves = 5 ∧ (headD1 r bt).strat = "MACD" ∧
    (headD1 r bt).sellCondition = 1 := by
  obtain ⟨a1, a2, a3, a4, a5, a6, a7, a8, a9, a10, a11, a12, a13, a14, a15⟩ :=
    startD_fields r bt
  simp [headD1, a1, a2, a3, a4, a5, a6, a7, a8, a9, a10, a11, a12, a13, a14, a15, rowUp]
  norm_num

theorem startD_step (r bt : ℚ) : curRow (startD r bt) = some (rowUp 10) ∧
    advance (loopBody isort (rowUp 10) (startD r bt)) = headD1 r bt := by
  obtain ⟨a1, a2, a3, a4, a5, a6, a7, a8, a9, a10, a11, a12, a13, a14, a15⟩ :=
    startD_fields r bt
  have hrow : curRow (startD r bt) = some (rowUp 10) := by
    simp [curRow, a6, rowsD]
  have hbuy : (calcPositions (rowUp 10) (startD r bt)).1 = true := by
    rw [calcPositions_buy]
    simp [a1, a14, isBuy, IsBuy, isBuyMACD, rowUp]
  exact ⟨hrow, by rw [loopBody_of_buy isort _ _ hbuy]; rfl⟩

theorem headD1_atHead (r bt : ℚ) : AtHead isort (startD r bt) (headD1 r bt) := by
  have h0 := startD_step r bt
  rw [← h0.2]
  refine AtHead.next (startD r bt) (rowUp 10) AtHead.start h0.1 ?_
  rw [h0.2]
  simp [(headD1_fields r bt).2.2.2.2.2.1]

theorem headD1_sell (r bt : ℚ) : curRow (headD1 r bt) = some (rowFlat 20) ∧
    (calcPositions (rowFlat 20) (headD1 r bt)).2.1 = true ∧
    liquidated isort (rowFlat 20) (headD1 r bt) = [purchase.mk 10 2 0] ∧
    (sellAsset isort (rowFlat 20) (headD1 r bt)).capital = 20 + 20 * r ∧
    (sellAsset isort (rowFlat 20) (headD1 r bt)).reserves = 20 ∧
    (sellAsset isort (rowFlat 20) (headD1 r bt)).balanceTrip = bt := by
  obtain ⟨a1, a2, a3, a4, a5, a6, a7, a8, a9, a10, a11, a12, a13, a14, a15⟩ :=
    headD1_fields r bt
  have hliq : liquidated isort (rowFlat 20) (headD1 r bt) = [purchase.mk 10 2 0] := by
    rw [liquidated, a5, a10]
    simp [isort, List.insertionSort, List.orderedInsert, qualifies, lotReturn, fdiv, XRat.gt,
      rowFlat, List.takeWhile]
    norm_num
  refine ⟨?_, ?_, hliq, ?_, ?_, ?_⟩
  · simp [curRow, a6, rowsD]
  · rw [calcPositions_sell]
    simp [a1, a3, a4, a10, a15, IsSell, sellCondition1, fdiv, XRat.gt, rowFlat]
    norm_num
  · rw [(sellAsset_money isort (rowFlat 20) (headD1 r bt)).1, hliq, a1, a7, a8, a9]
    simp [lotReinvested, lotNetReward, lotGain, lotFee, lotTax, lotProceeds, rowFlat]
    norm_num
  · rw [(sellAsset_frame isort (rowFlat 20) (headD1 r bt)).1, a2]
  · rw [(sellAsset_sameConfig isort (rowFlat 20) (headD1 r bt)).2.2.2.2.2.2.2.2.1, a12]

/-! ## Balance after a sell -/

theorem fdiv_gt_of_ne (a b c : ℚ) (hb : b ≠ 0) : (fdiv a b).gt c = decide (c < a / b) := by
  simp [fdiv, hb, XRat.gt]

/-- C11. In a step that performs a Sell, with `c`, `r` the capital and reserves right after
`sellAsset` and `r != 0`: if `c / r > balanceTrip` the step goes on with `balanceFunds`, after
which capital = reserves = `(c + r)/2`, so capital + reserves is unchanged, the row index is
appended to balances, and asset, revenue, tax, fees, numTransactions and purchaseHistory are
as `sellAsset` left them; if `c / r <= balanceTrip` no Balance is performed. -/
theorem C11_balance_after_sell (srt : List purchase → List purchase) (row : Row)
    (s : Simulation) (hsell : (calcPositions row s).2.1 = true)
    (hres : (sellAsset srt row s).reserves ≠ 0) :
    ((sellAsset srt row s).balanceTrip <
        (sellAsset srt row s).capital / (sellAsset srt row s).reserves →
      loopBody srt row s = balanceFunds row (sellAsset srt row s) ∧
      (loopBody srt row s).capital =
        ((sellAsset srt row s).capital + (sellAsset srt row s).reserves) / 2 ∧
      (loopBody srt row s).reserves =
        ((sellAsset srt row s).capital + (sellAsset srt row s).reserves) / 2 ∧
      (loopBody srt row s).capital + (loopBody srt row s).reserves =
        (sellAsset srt row s).capital + (sellAsset srt row s).reserves ∧
      (loopBody srt row s).balances = s.balances ++ [s.dFrame.index] ∧
      (loopBody srt row s).asset = (sellAsset srt row s).asset ∧
      (loopBody srt row s).revenue = (sellAsset srt row s).revenue ∧
      (loopBody srt row s).tax = (sellAsset srt row s).tax ∧
      (loopBody srt row s).fees = (sellAsset srt row s).fees ∧
      (loopBody srt row s).numTransactions = (sellAsset srt row s).numTransactions ∧
      (loopBody srt row s).purchaseHistory = (sellAsset srt row s).purchaseHistory) ∧
    ((sellAsset srt row s).capital / (sellAsset srt row s).reserves ≤
        (sellAsset srt row s).balanceTrip →
      loopBody srt row s = sellAsset srt row s ∧
      (loopBody srt row s).balances = s.balances) := by
  obtain ⟨-, -, -, -, -, f6, -, f8⟩ := sellAsset_frame srt row s
  have hbody := loopBody_of_sell srt row s hsell
  rw [fdiv_gt_of_ne _ _ _ hres] at hbody
  constructor
  · intro hgt
    have e : loopBody srt row s = balanceFunds row (sellAsset srt row s) := by
      rw [hbody]
      simp [hgt]
    rw [e]
    refine ⟨rfl, ?_, ?_, ?_, ?_, ?_, ?_, ?_, ?_, ?_, ?_⟩ <;>
      simp only [balanceFunds_fields, f6, f8]
    ring
  · intro hle
    have e : loopBody srt row s = sellAsset srt row s := by
      rw [hbody]
      simp [not_lt.mpr hle]
    rw [e]
    exact ⟨rfl, f6⟩

/-- Witness for C11: the Sell of sample run D with balanceTrip 1 leaves capital 40 and
reserves 20, and the Balance that follows makes both 30. -/
theorem C11_balance_after_sell_witness :
    (calcPositions (rowFlat 20) (headD1 1 1)).2.1 = true ∧
    (sellAsset isort (rowFlat 20) (headD1 1 1)).reserves ≠ 0 ∧
    (sellAsset isort (rowFlat 20) (headD1 1 1)).balanceTrip <
      (sellAsset isort (rowFlat 20) (headD1 1 1)).capital /
        (sellAsset isort (rowFlat 20) (headD1 1 1)).reserves ∧
    (loopBody isort (rowFlat 20) (headD1 1 1)).capital = 30 ∧
    (loopBody isort (rowFlat 20) (headD1 1 1)).reserves = 30 := by
  obtain ⟨-, hsell, -, hc, hr, hb⟩ := headD1_sell 1 1
  have hres : (sellAsset isort (rowFlat 20) (headD1 1 1)).reserves ≠ 0 := by
    rw [hr]; norm_num
  have hgt : (sellAsset isort (rowFlat 20) (headD1 1 1)).balanceTrip <
      (sellAsset isort (rowFlat 20) (headD1 1 1)).capital /
        (sellAsset isort (rowFlat 20) (headD1 1 1)).reserves := by
    rw [hc, hr, hb]; norm_num
  have key := (C11_balance_after_sell isort (rowFlat 20) (headD1 1 1) hsell hres).1 hgt
  refine ⟨hsell, hres, hgt, ?_, ?_⟩
  · rw [key.2.1, hc, hr]; norm_num
  · rw [key.2.2.1, hc, hr]; norm_num

/-! ## The balance check on zero reserves -/

set_option maxRecDepth 1000000 in
/-- C12, as stated, fails.  In sample run S on binary64 (investment `1e-323`, that is
`2 * 2^-1074`, no fee, no tax, balanceTrip 100; close prices 0.5, 0.25 and 1) the Buy on
row 0 leaves reserves `2^-1074`; the OpenReserve on row 1 halves it, and the half, a tie
between 0 and `2^-1074`, rounds to `+0`; on row 2 the Sell leaves capital `2 * 2^-1074` and
reserves `+0`.  The quotient `capital/reserves` is `+Inf`, above balanceTrip, and the step
performs a Balance: the run ends with balances = [2]. -/
theorem C12_counterexample :
    B64.setup "A" (F64.fin false 2 (-1074)) 0 0 "d" B64.rowsS "l" "MACD" 1 0 1 0
        (F64.ofRatio false 1 10) 100 = Except.ok B64.startS ∧
    (0 : F64) < B64.startS.initialInvestment ∧
    B64.runFrom B64.isort B64.rowsS B64.startS =
      B64.advance (B64.loopBody B64.isort (B64.rowFlat 1 0) B64.headS2) ∧
    (B64.calcPositions (B64.rowFlat 1 0) B64.headS2).2.1 = true ∧
    (B64.sellAsset B64.isort (B64.rowFlat 1 0) B64.headS2).reserves = F64.zero false ∧
    (B64.sellAsset B64.isort (B64.rowFlat 1 0) B64.headS2).capital = F64.fin false 2 (-1074) ∧
    (B64.sellAsset B64.isort (B64.rowFlat 1 0) B64.headS2).capital /
        (B64.sellAsset B64.isort (B64.rowFlat 1 0) B64.headS2).reserves = F64.inf false ∧
    (B64.loopBody B64.isort (B64.rowFlat 1 0) B64.headS2).balances = [2] ∧
    (B64.RunSimulation B64.isort B64.startS).map
        (fun r => (r.1.buys, r.1.openReserves, r.1.sells, r.1.balances, r.1.capital,
          r.1.reserves)) =
      some ([0], [1], [2], [2], F64.fin false 1 (-1074), F64.fin false 1 (-1074)) :=
  ⟨b64_sampleStart_setup (F64.fin false 2 (-1074)) 0 0 1 1 0 (F64.ofRatio false 1 10) 100
      B64.rowsS,
    by decide, rfl, by decide, by decide, by decide, by decide, by decide, by decide⟩

/-- C12, amended. The `reserves == 0` case is not guarded: `RunSimulation` evaluates
`capital/reserves > balanceTrip` on binary64 with no check of reserves.  When reserves is
`+0` right after a Sell, the step performs a Balance exactly when capital is above 0 and
balanceTrip is below `+Inf` (the quotient is `+Inf`); when reserves is `-0`, exactly when
capital is below 0 and balanceTrip is below `+Inf`.  A Balance appends the row index to
balances and sets capital and reserves to `(capital + reserves)/2`; otherwise (a quotient
`NaN` or `-Inf`, or balanceTrip `+Inf` or `NaN`) the step ends after the Sell with balances
unchanged. -/
theorem C12_zero_reserves (srt : List B64.purchase → List B64.purchase) (row : B64.Row)
    (s : B64.Simulation) (neg : Bool)
    (hsell : (B64.calcPositions row s).2.1 = true)
    (hres : (B64.sellAsset srt row s).reserves = F64.zero neg) :
    (((if neg then (B64.sellAsset srt row s).capital < 0
        else 0 < (B64.sellAsset srt row s).capital) ∧
        (B64.sellAsset srt row s).balanceTrip < F64.inf false) →
      B64.loopBody srt row s = B64.balanceFunds row (B64.sellAsset srt row s) ∧
      (B64.loopBody srt row s).balances = s.balances ++ [s.dFrame.index] ∧
      (B64.loopBody srt row s).capital =
        ((B64.sellAsset srt row s).capital + (B64.sellAsset srt row s).reserves) / 2 ∧
      (B64.loopBody srt row s).reserves =
        ((B64.sellAsset srt row s).capital + (B64.sellAsset srt row s).reserves) / 2) ∧
    (¬ ((if neg then (B64.sellAsset srt row s).capital < 0
        else 0 < (B64.sellAsset srt row s).capital) ∧
        (B64.sellAsset srt row s).balanceTrip < F64.inf false) →
      B64.loopBody srt row s = B64.sellAsset srt row s ∧
      (B64.loopBody srt row s).balances = s.balances) := by
  obtain ⟨-, -, -, -, f5, f6⟩ := B64.b64_sellAsset_frame srt row s
  have hbody := B64.b64_loopBody_of_sell srt row s hsell
  have hiff := b64_div_zero_gt (B64.sellAsset srt row s).capital
    (B64.sellAsset srt row s).balanceTrip neg
  rw [← hres] at hiff
  constructor
  · intro hP
    have e : B64.loopBody srt row s = B64.balanceFunds row (B64.sellAsset srt row s) := by
      rw [hbody, if_pos (hiff.mpr hP)]
    rw [e]
    refine ⟨rfl, ?_, rfl, rfl⟩
    show (B64.sellAsset srt row s).balances ++ [(B64.sellAsset srt row s).dFrame.index] = _
    rw [f5, f6]
  · intro hP
    have e : B64.loopBody srt row s = B64.sellAsset srt row s := by
      rw [hbody, if_neg (fun h => hP (hiff.mp h))]
    rw [e]
    exact ⟨rfl, f5⟩

set_option maxRecDepth 1000000 in
/-- Witness for C12 as amended: the Sell on row 2 of sample run S, which leaves reserves `+0`
and capital `2 * 2^-1074`. -/
theorem C12_zero_reserves_witness :
    (B64.calcPositions (B64.rowFlat 1 0) B64.headS2).2.1 = true ∧
    (B64.sellAsset B64.isort (B64.rowFlat 1 0) B64.headS2).reserves = F64.zero false ∧
    ((if false then (B64.sellAsset B64.isort (B64.rowFlat 1 0) B64.headS2).capital < 0
      else 0 < (B64.sellAsset B64.isort (B64.rowFlat 1 0) B64.headS2).capital) ∧
      (B64.sellAsset B64.isort (B64.rowFlat 1 0) B64.headS2).balanceTrip < F64.inf false) ∧
    (B64.loopBody B64.isort (B64.rowFlat 1 0) B64.headS2).balances =
      B64.headS2.balances ++ [B64.headS2.dFrame.index] :=
  ⟨by decide, by decide, by decide,
    ((C12_zero_reserves B64.isort (B64.rowFlat 1 0) B64.headS2 false (by decide)
      (by decide)).1 (by decide)).2.1⟩

/-! ## Before the first buy, and opening the reserves -/

theorem visited_sameConfig (srt : List purchase → List purchase) (s0 : Simulation) :
    ∀ s, Visited srt s0 s → sameConfig s0 s := by
  refine visited_induction srt s0 (sameConfig s0) (sameConfig_refl s0) ?_ ?_ ?_ ?_ ?_ ?_
  · intro s row hI _
    exact sameConfig_trans hI (sellAsset_sameConfig srt row s)
  · intro s row hI
    exact sameConfig_trans hI (by simp [sameConfig])
  · intro s row hI _ _
    exact sameConfig_trans hI (by simp [sameConfig])
  · intro s row hI
    exact sameConfig_trans hI (by simp [sameConfig])
  · intro s hI
    exact sameConfig_trans hI (by simp [sameConfig])
  · intro s hI
    exact sameConfig_trans hI (by simp [sameConfig])

theorem sortSpec_nil (srt : List purchase → List purchase) (hsrt : SortSpec srt) :
    srt [] = [] :=
  List.perm_nil.mp (hsrt []).1

theorem loopBody_no_sell (srt : List purchase → List purchase) (row : Row) (s : Simulation)
    (h : (calcPositions row s).2.1 = false) :
    (loopBody srt row s).sells = s.sells ∧ (loopBody srt row s).balances = s.balances := by
  by_cases h2 : (calcPositions row s).1 = true
  · rw [loopBody_of_buy srt row s h2]
    simp
  · have h2f : (calcPositions row s).1 = false := by simpa using h2
    by_cases h3 : (calcPositions row s).2.2 = true
    · rw [loopBody_of_openRes srt row s h h2f h3]
      simp
    · have h3f : (calcPositions row s).2.2 = false := by simpa using h3
      rw [loopBody_of_none srt row s h h2f h3f]
      exact ⟨rfl, rfl⟩

theorem before_first_buy (srt : List purchase → List purchase) (hsrt : SortSpec srt)
    (s0 : Simulation) (hprice : ∀ row ∈ s0.dFrame.data, 0 < row.Close)
    (h0 : s0.asset = 0 ∧ s0.purchaseHistory = [] ∧ s0.buys = [] ∧ s0.lastBuyPrice = 0) :
    ∀ s, Visited srt s0 s →
      (∀ row ∈ s.dFrame.data, 0 < row.Close) ∧
      ((s.buys = [] ∨ s.lastBuyPrice = 0) →
        s.asset = 0 ∧ s.purchaseHistory = [] ∧ s.buys = [] ∧ s.lastBuyPrice = 0) := by
  refine visited_induction srt s0
    (fun s => (∀ row ∈ s.dFrame.data, 0 < row.Close) ∧
      ((s.buys = [] ∨ s.lastBuyPrice = 0) →
        s.asset = 0 ∧ s.purchaseHistory = [] ∧ s.buys = [] ∧ s.lastBuyPrice = 0))
    ⟨hprice, fun _ => h0⟩ ?_ ?_ ?_ ?_ ?_ ?_
  · intro s row hI _
    obtain ⟨f1, f2, -, f4, -, -, -, f8⟩ := sellAsset_frame srt row s
    refine ⟨by rw [f8]; exact hI.1, ?_⟩
    rw [f4, f2]
    intro hpre
    obtain ⟨ha, hph, hb, hl⟩ := hI.2 hpre
    have hliq : liquidated srt row s = [] := by
      rw [liquidated, hph, sortSpec_nil srt hsrt]
      rfl
    refine ⟨?_, ?_, hb, hl⟩
    · rw [sellAsset_asset, hliq, ha]
      simp [sumAmount]
    · rw [sellAsset_purchaseHistory, hph, sortSpec_nil srt hsrt]
      rfl
  · intro s row hI
    simpa using hI
  · intro s row hI hrow _
    have hP : 0 < row.Close := hI.1 row (List.getElem?_mem hrow)
    refine ⟨by simpa using hI.1, ?_⟩
    simp only [buyAsset_fields]
    intro hpre
    rcases hpre with h | h
    · simp at h
    · exact absurd h (ne_of_gt hP)
  · intro s row hI
    simpa using hI
  · intro s hI
    simpa using hI
  · intro s hI
    simpa using hI

/-- C13. In a run of `RunSimulation` from `NewSimulation` and `SetStratParams` on strictly
positive Close prices, at the top of every step taken before the first Buy (no buy recorded,
equivalently lastBuyPrice still 0) asset is 0, so the sell signal of `calcPositions` is false
and the step records no sell, whatever the sell condition id and minReturn: the division by
`lastBuyPrice = 0` in currentReturn never produces a sell. -/
theorem C13_no_sell_before_buy (srt : List purchase → List purchase) (hsrt : SortSpec srt)
    (asset : String) (investAMT taxRate feePercentage : ℚ) (dataFile : String)
    (data : List Row) (logFile : String) (strat : String) (sellCondition : Int) (ema : Int)
    (reinvestPercentage minReturn percentDrop balanceTrip : ℚ) (s0 : Simulation)
    (hset : setup asset investAMT taxRate feePercentage dataFile data logFile strat
      sellCondition ema reinvestPercentage minReturn percentDrop balanceTrip = Except.ok s0)
    (hprice : ∀ row ∈ data, 0 < row.Close) (s : Simulation) (hs : AtHead srt s0 s)
    (row : Row) (hbefore : s.lastBuyPrice = 0 ∨ s.buys = []) :
    s.lastBuyPrice = 0 ∧ s.buys = [] ∧ s.asset = 0 ∧
    (calcPositions row s).2.1 = false ∧
    (loopBody srt row s).sells = s.sells ∧
    (loopBody srt row s).balances = s.balances ∧
    loopBody srt row s ≠ sellAsset srt row s := by
  obtain ⟨-, -, b3, b4, -, -, -, b8, -, -, -, -, -, b14, -⟩ := setup_ok_fields asset investAMT
    taxRate feePercentage dataFile data logFile strat sellCondition ema reinvestPercentage
    minReturn percentDrop balanceTrip s0 hset
  have h0buys : s0.buys = [] := by
    unfold setup SetStratParams at hset
    by_cases hv : IsValidStrategy strat = true
    · simp only [if_pos hv] at hset
      injection hset with hset
      subst hset
      rfl
    · simp only [if_neg hv] at hset
      cases hset
  have hinv := before_first_buy srt hsrt s0 (by rw [b8]; exact renameEMA_close ema data hprice)
    ⟨b3, b4, h0buys, b14⟩ s (Visited.head s hs)
  obtain ⟨ha, -, hb, hl⟩ := hinv.2 hbefore.symm
  have hsig : (calcPositions row s).2.1 = false := by
    rw [calcPositions_sell, ha]
    simp
  obtain ⟨e1, e2⟩ := loopBody_no_sell srt row s hsig
  refine ⟨hl, hb, ha, hsig, e1, e2, ?_⟩
  intro heq
  have h1 := (sellAsset_frame srt row s).2.2.2.2.1
  rw [← heq, e1] at h1
  simp at h1

/-- Witness for C13: the first step of sample run B. -/
theorem C13_no_sell_before_buy_witness :
    SortSpec isort ∧
    setup "A" 40 0 0 "d" (rowsB 5) "l" "MACD" 1 0 1 0 (1 / 10) 100 = Except.ok (startB 5) ∧
    (∀ row ∈ rowsB 5, 0 < row.Close) ∧ curRow (startB 5) = some (rowUp 10) ∧
    (startB 5).lastBuyPrice = 0 ∧
    (calcPositions (rowUp 10) (startB 5)).2.1 = false := by
  have hset := sampleStart_setup 40 0 0 1 0 (1 / 10) 100 (rowsB 5)
  have hprice : ∀ row ∈ rowsB 5, 0 < row.Close := by
    intro row hrow
    simp only [rowsB, List.mem_cons, List.mem_singleton, List.not_mem_nil, or_false] at hrow
    rcases hrow with rfl | rfl | rfl | rfl <;> simp [rowUp, rowFlat]
  have hl : (startB 5).lastBuyPrice = 0 := (startB_fields 5).2.2.2.1
  exact ⟨isort_spec, hset, hprice, (startB_step 5).1, hl,
    (C13_no_sell_before_buy isort isort_spec "A" 40 0 0 "d" (rowsB 5) "l" "MACD" 1 0 1 0
      (1 / 10) 100 (startB 5) hset hprice (startB 5) AtHead.start (rowUp 10)
      (Or.inl hl)).2.2.2.1⟩

theorem loopBody_openReserves_grew (srt : List purchase → List purchase) (row : Row)
    (s : Simulation) (h : (loopBody srt row s).openReserves ≠ s.openReserves) :
    (calcPositions row s).2.1 = false ∧ (calcPositions row s).1 = false ∧
    (calcPositions row s).2.2 = true ∧ loopBody srt row s = openReserves row s := by
  by_cases h1 : (calcPositions row s).2.1 = true
  · exfalso
    apply h
    rw [loopBody_of_sell srt row s h1]
    have f7 := (sellAsset_frame srt row s).2.2.2.2.2.2.1
    split
    · simp [f7]
    · exact f7
  · have h1f : (calcPositions row s).2.1 = false := by simpa using h1
    by_cases h2 : (calcPositions row s).1 = true
    · exfalso
      apply h
      rw [loopBody_of_buy srt row s h2]
      simp
    · have h2f : (calcPositions row s).1 = false := by simpa using h2
      by_cases h3 : (calcPositions row s).2.2 = true
      · exact ⟨h1f, h2f, h3, loopBody_of_openRes srt row s h1f h2f h3⟩
      · have h3f : (calcPositions row s).2.2 = false := by simpa using h3
        exfalso
        apply h
        rw [loopBody_of_none srt row s h1f h2f h3f]

/-- C14. In a run set up by `NewSimulation` and `SetStratParams`, a step performs an
OpenReserve (the list openReserves changes) only if capital `< 1`, currentReturn
`< -percentDrop` (the magnitude passed to `SetStratParams`) and reserves
`> 0.125 * initialInvestment`.  With `r` the reserves before, it sets capital and reserves to
`r/2` (capital is overwritten), appends the row index to openReserves and leaves asset,
revenue, tax, fees, numTransactions and purchaseHistory alone; so capital + reserves
afterwards is `r`: the total drops by exactly the capital held before. -/
theorem C14_open_reserve (srt : List purchase → List purchase)
    (asset : String) (investAMT taxRate feePercentage : ℚ) (dataFile : String)
    (data : List Row) (logFile : String) (strat : String) (sellCondition : Int) (ema : Int)
    (reinvestPercentage minReturn percentDrop balanceTrip : ℚ) (s0 : Simulation)
    (hset : setup asset investAMT taxRate feePercentage dataFile data logFile strat
      sellCondition ema reinvestPercentage minReturn percentDrop balanceTrip = Except.ok s0)
    (s : Simulation) (hs : AtHead srt s0 s) (row : Row)
    (hopen : (loopBody srt row s).openReserves ≠ s.openReserves) :
    s.capital < 1 ∧
    (fdiv (row.Close - s.lastBuyPrice) s.lastBuyPrice).lt (-percentDrop) = true ∧
    s.reserves > 125 / 1000 * investAMT ∧
    loopBody srt row s = openReserves row s ∧
    (loopBody srt row s).capital = s.reserves / 2 ∧
    (loopBody srt row s).reserves = s.reserves / 2 ∧
    (loopBody srt row s).openReserves = s.openReserves ++ [s.dFrame.index] ∧
    (loopBody srt row s).asset = s.asset ∧ (loopBody srt row s).revenue = s.revenue ∧
    (loopBody srt row s).tax = s.tax ∧ (loopBody srt row s).fees = s.fees ∧
    (loopBody srt row s).numTransactions = s.numTransactions ∧
    (loopBody srt row s).purchaseHistory = s.purchaseHistory ∧
    (loopBody srt row s).capital + (loopBody srt row s).reserves = s.reserves ∧
    (s.capital + s.reserves) - ((loopBody srt row s).capital + (loopBody srt row s).reserves) =
      s.capital := by
  obtain ⟨-, -, -, -, -, -, -, -, b9, -, b11, -, b13, -⟩ := setup_ok_fields asset investAMT
    taxRate feePercentage dataFile data logFile strat sellCondition ema reinvestPercentage
    minReturn percentDrop balanceTrip s0 hset
  obtain ⟨-, -, -, -, -, -, -, c8, -, c10, -, -⟩ :=
    visited_sameConfig srt s0 s (Visited.head s hs)
  obtain ⟨-, -, h3, hbody⟩ := loopBody_openReserves_grew srt row s hopen
  rw [calcPositions_openRes, c8, c10, b11, b13] at h3
  simp only [Bool.and_eq_true, decide_eq_true_eq] at h3
  obtain ⟨⟨hc, hret⟩, hres⟩ := h3
  have e : (-1 : ℚ) * percentDrop = -percentDrop := by ring
  rw [e] at hret
  rw [hbody]
  refine ⟨hc, hret, by linarith, rfl, ?_, ?_, ?_, ?_, ?_, ?_, ?_, ?_, ?_, ?_, ?_⟩ <;>
    simp only [openReserves_fields] <;> ring

/-- Witness for C14: the step on row 1 of sample run B, which opens the reserves. -/
theorem C14_open_reserve_witness :
    setup "A" 40 0 0 "d" (rowsB 5) "l" "MACD" 1 0 1 0 (1 / 10) 100 = Except.ok (startB 5) ∧
    AtHead isort (startB 5) (headB1 5) ∧
    (loopBody isort (rowFlat 5) (headB1 5)).openReserves ≠ (headB1 5).openReserves ∧
    (loopBody isort (rowFlat 5) (headB1 5)).capital = (headB1 5).reserves / 2 := by
  have hset := sampleStart_setup 40 0 0 1 0 (1 / 10) 100 (rowsB 5)
  have h0 := startB_step 5
  have hhead : AtHead isort (startB 5) (headB1 5) := by
    rw [← h0.2]
    refine AtHead.next (startB 5) (rowUp 10) AtHead.start h0.1 ?_
    rw [h0.2]
    simp [(headB1_fields 5).2.2.2.2.2.1]
  have hbody : advance (loopBody isort (rowFlat 5) (headB1 5)) = headB2 5 := (headB1_step 5).2
  have hopen : (loopBody isort (rowFlat 5) (headB1 5)).openReserves ≠
      (headB1 5).openReserves := by
    have e : (loopBody isort (rowFlat 5) (headB1 5)).openReserves = (headB2 5).openReserves := by
      rw [← hbody]
      simp
    rw [e]
    simp [headB2]
  exact ⟨hset, hhead, hopen,
    (C14_open_reserve isort "A" 40 0 0 "d" (rowsB 5) "l" "MACD" 1 0 1 0 (1 / 10) 100
      (startB 5) hset (headB1 5) hhead (rowFlat 5) hopen).2.2.2.2.1⟩

/-! ## Termination and the order of the steps -/

theorem runFrom_nil (srt : List purchase → List purchase) (s : Simulation) :
    runFrom srt [] s = s := rfl

theorem runFrom_cons (srt : List purchase → List purchase) (row : Row) (rows : List Row)
    (s : Simulation) :
    runFrom srt (row :: rows) s = runFrom srt rows (advance (loopBody srt row s)) := rfl

theorem step_dFrame (srt : List purchase → List purchase) (row : Row) (s : Simulation) :
    (advance (loopBody srt row s)).dFrame =
      df.mk (s.dFrame.index + 1) s.dFrame.data s.dFrame.nRows := by
  simp [loopBody_dFrame]

theorem runFrom_dFrame (srt : List purchase → List purchase) (rows : List Row)
    (s : Simulation) :
    (runFrom srt rows s).dFrame =
      df.mk (s.dFrame.index + rows.length) s.dFrame.data s.dFrame.nRows := by
  induction rows generalizing s with
  | nil => rfl
  | cons row rows ih =>
    rw [runFrom_cons, ih, step_dFrame]
    simp only [List.length_cons]
    congr 1
    omega

theorem runTrace_last (srt : List purchase → List purchase) (fuel : Nat) (s : Simulation)
    (row : Row) (hrow : curRow s = some row) (h : s.dFrame.nRows ≤ s.dFrame.index + 1) :
    runTrace srt (fuel + 1) s = [s.dFrame.index] := by
  have hge : (advance (loopBody srt row s)).dFrame.index ≥
      (advance (loopBody srt row s)).dFrame.nRows := by
    rw [step_dFrame]
    exact h
  simp only [runTrace, hrow]
  rw [if_pos hge]

theorem runTrace_continue (srt : List purchase → List purchase) (fuel : Nat) (s : Simulation)
    (row : Row) (hrow : curRow s = some row) (h : s.dFrame.index + 1 < s.dFrame.nRows) :
    runTrace srt (fuel + 1) s =
      s.dFrame.index :: runTrace srt fuel (advance (loopBody srt row s)) := by
  have hlt : ¬ (advance (loopBody srt row s)).dFrame.index ≥
      (advance (loopBody srt row s)).dFrame.nRows := by
    rw [step_dFrame]
    exact Nat.not_le.mpr h
  simp only [runTrace, hrow]
  rw [if_neg hlt]

theorem runLoop_steps (srt : List purchase → List purchase) (k : Nat) :
    ∀ (s : Simulation) (fuel : Nat), s.dFrame.nRows = s.dFrame.data.length →
      s.dFrame.index + k + 1 = s.dFrame.nRows → k + 1 ≤ fuel →
      runLoop srt fuel s =
        some (retreat (runFrom srt (s.dFrame.data.drop s.dFrame.index) s)) ∧
      runTrace srt fuel s = List.range' s.dFrame.index (k + 1) := by
  induction k with
  | zero =>
    intro s fuel hn hk hfuel
    obtain ⟨f, rfl⟩ : ∃ f, fuel = f + 1 := ⟨fuel - 1, by omega⟩
    have hlt : s.dFrame.index < s.dFrame.data.length := by omega
    have hrow : curRow s = some s.dFrame.data[s.dFrame.index] := by
      unfold curRow
      exact List.getElem?_eq_getElem hlt
    have hdrop : s.dFrame.data.drop s.dFrame.index = [s.dFrame.data[s.dFrame.index]] := by
      rw [List.drop_eq_getElem_cons hlt, List.drop_eq_nil_of_le (by omega)]
    refine ⟨?_, ?_⟩
    · rw [runLoop_last srt f s _ hrow (by omega), hdrop]
      rfl
    · rw [runTrace_last srt f s _ hrow (by omega)]
      rfl
  | succ k ih =>
    intro s fuel hn hk hfuel
    obtain ⟨f, rfl⟩ : ∃ f, fuel = f + 1 := ⟨fuel - 1, by omega⟩
    have hlt : s.dFrame.index < s.dFrame.data.length := by omega
    have hrow : curRow s = some s.dFrame.data[s.dFrame.index] := by
      unfold curRow
      exact List.getElem?_eq_getElem hlt
    have hd := step_dFrame srt s.dFrame.data[s.dFrame.index] s
    have hih := ih (advance (loopBody srt s.dFrame.data[s.dFrame.index] s)) f
      (by rw [hd]; exact hn) (by rw [hd]; simp only; omega) (by omega)
    rw [hd] at hih
    simp only at hih
    refine ⟨?_, ?_⟩
    · rw [runLoop_continue srt f s _ hrow (by omega), hih.1,
        List.drop_eq_getElem_cons hlt, runFrom_cons]
    · rw [runTrace_continue srt f s _ hrow (by omega), hih.2]
      exact (List.range'_succ s.dFrame.index (k + 1) 1).symm

theorem getResultString_some (s : Simulation) (price : ℚ) (first last : Row)
    (h0 : s.dFrame.data[0]? = some first)
    (hl : s.dFrame.data[s.dFrame.nRows - 1]? = some last) :
    ∃ str, getResultString s price = some str ∧
      str.finalValue = roundFloat (s.capital + s.reserves + s.asset * price) 2 ∧
      str.numTransactions = s.numTransactions ∧ str.buys = s.buys ∧ str.sells = s.sells := by
  unfold getResultString
  simp only [h0, hl, getBuyHold_eq s first last h0 hl]
  exact ⟨_, rfl, rfl, rfl, rfl, rfl⟩

theorem RunSimulation_eq (srt : List purchase → List purchase) (s0 : Simulation)
    (hn : s0.dFrame.nRows = s0.dFrame.data.length) (hi : s0.dFrame.index = 0)
    (hpos : 1 ≤ s0.dFrame.data.length) :
    ∃ res last,
      RunSimulation srt s0 = some (retreat (runFrom srt s0.dFrame.data s0), res) ∧
      (∀ fuel, s0.dFrame.data.length ≤ fuel →
        runLoop srt fuel s0 = some (retreat (runFrom srt s0.dFrame.data s0))) ∧
      runTrace srt (s0.dFrame.nRows + 1) s0 = List.range s0.dFrame.data.length ∧
      (retreat (runFrom srt s0.dFrame.data s0)).dFrame.index = s0.dFrame.data.length - 1 ∧
      s0.dFrame.data[s0.dFrame.data.length - 1]? = some last ∧
      res.ResultString.finalValue =
        roundFloat ((retreat (runFrom srt s0.dFrame.data s0)).capital +
          (retreat (runFrom srt s0.dFrame.data s0)).reserves +
          (retreat (runFrom srt s0.dFrame.data s0)).asset * last.Close) 2 ∧
      res.ResultString.numTransactions =
        (retreat (runFrom srt s0.dFrame.data s0)).numTransactions ∧
      res.ResultString.buys = (retreat (runFrom srt s0.dFrame.data s0)).buys ∧
      res.ResultString.sells = (retreat (runFrom srt s0.dFrame.data s0)).sells := by
  have hsteps : ∀ fuel, s0.dFrame.data.length ≤ fuel →
      runLoop srt fuel s0 = some (retreat (runFrom srt s0.dFrame.data s0)) ∧
      runTrace srt fuel s0 = List.range s0.dFrame.data.length := by
    intro fuel hfuel
    have h := runLoop_steps srt (s0.dFrame.data.length - 1) s0 fuel hn (by omega) (by omega)
    rw [hi, List.drop_zero] at h
    have e : s0.dFrame.data.length - 1 + 1 = s0.dFrame.data.length := by omega
    rw [e] at h
    exact ⟨h.1, by rw [h.2, List.range_eq_range']⟩
  have hd : (retreat (runFrom srt s0.dFrame.data s0)).dFrame =
      df.mk (s0.dFrame.data.length - 1) s0.dFrame.data s0.dFrame.nRows := by
    simp only [retreat_fields, runFrom_dFrame, hi]
    congr 1
    omega
  have hlt : s0.dFrame.data.length - 1 < s0.dFrame.data.length := by omega
  have hlast : s0.dFrame.data[s0.dFrame.data.length - 1]? =
      some s0.dFrame.data[s0.dFrame.data.length - 1] := List.getElem?_eq_getElem hlt
  have hfirst : s0.dFrame.data[0]? = some s0.dFrame.data[0] :=
    List.getElem?_eq_getElem (by omega)
  have hcur : curRow (retreat (runFrom srt s0.dFrame.data s0)) =
      some s0.dFrame.data[s0.dFrame.data.length - 1] := by
    unfold curRow
    rw [hd]
    exact hlast
  obtain ⟨str, hstr, hfv, hnt, hb, hsl⟩ := getResultString_some
    (retreat (runFrom srt s0.dFrame.data s0)) s0.dFrame.data[s0.dFrame.data.length - 1].Close
    s0.dFrame.data[0] s0.dFrame.data[s0.dFrame.data.length - 1]
    (by rw [hd]; exact hfirst) (by rw [hd]; simp only; rw [hn]; exact hlast)
  refine ⟨{ AssetName := (retreat (runFrom srt s0.dFrame.data s0)).assetName,
            ResultString := str }, s0.dFrame.data[s0.dFrame.data.length - 1], ?_,
    fun fuel hfuel => (hsteps fuel hfuel).1, ?_, ?_, hlast, hfv, hnt, hb, hsl⟩
  · unfold RunSimulation
    simp only [(hsteps (s0.dFrame.nRows + 1) (by omega)).1, hcur, hstr]
  · exact (hsteps (s0.dFrame.nRows + 1) (by omega)).2
  · rw [hd]

/-- C15. On a series of `n >= 1` rows, on binary64 and in exact arithmetic alike,
`RunSimulation` returns a result; the loop makes exactly `n` decision steps, at the cursor
positions `0, 1, ..., n-1` in that order, one on each row whatever action is taken (any fuel
of at least `n` gives the same final state); the cursor ends on row `n-1`; and the
finalPortfolioValue of the result is `capital + reserves + asset * Close[n-1]` of the final
state rounded to 2 decimals by `roundFloat`.  In exact arithmetic the rounded value is a
multiple of 1/100 within 1/200 of that sum. -/
theorem C15_run_terminates (srt : List purchase → List purchase)
    (asset : String) (investAMT taxRate feePercentage : ℚ) (dataFile : String)
    (data : List Row) (logFile : String) (strat : String) (sellCondition : Int) (ema : Int)
    (reinvestPercentage minReturn percentDrop balanceTrip : ℚ) (s0 : Simulation)
    (hset : setup asset investAMT taxRate feePercentage dataFile data logFile strat
      sellCondition ema reinvestPercentage minReturn percentDrop balanceTrip = Except.ok s0)
    (hn : 1 ≤ data.length)
    (srtF : List B64.purchase → List B64.purchase)
    (investF taxF feeF : F64) (dataF : List B64.Row)
    (reinvestF minReturnF percentDropF balanceTripF : F64) (t0 : B64.Simulation)
    (hsetF : B64.setup asset investF taxF feeF dataFile dataF logFile strat sellCondition ema
      reinvestF minReturnF percentDropF balanceTripF = Except.ok t0)
    (hnF : 1 ≤ dataF.length) :
    (∃ tf res last,
      B64.RunSimulation srtF t0 = some (tf, res) ∧
      (∀ fuel, dataF.length ≤ fuel → B64.runLoop srtF fuel t0 = some tf) ∧
      tf = B64.retreat (B64.runFrom srtF t0.dFrame.data t0) ∧
      t0.dFrame.data.length = dataF.length ∧
      B64.runTrace srtF (t0.dFrame.nRows + 1) t0 = List.range dataF.length ∧
      (∀ k, k ≤ dataF.length →
        (B64.runFrom srtF (t0.dFrame.data.take k) t0).dFrame.index = k) ∧
      tf.dFrame.index = dataF.length - 1 ∧
      t0.dFrame.data[dataF.length - 1]? = some last ∧
      (t0.dFrame.data[dataF.length - 1]?).map (fun r => r.Close) =
        (dataF[dataF.length - 1]?).map (fun r => r.Close) ∧
      res.ResultString.finalValue =
        B64.roundFloat (tf.capital + tf.reserves + tf.asset * last.Close) 2) ∧
    (∃ sf res last,
      RunSimulation srt s0 = some (sf, res) ∧
      (∀ fuel, data.length ≤ fuel → runLoop srt fuel s0 = some sf) ∧
      sf = retreat (runFrom srt s0.dFrame.data s0) ∧
      s0.dFrame.data.length = data.length ∧
      runTrace srt (s0.dFrame.nRows + 1) s0 = List.range data.length ∧
      (∀ k, k ≤ data.length → (runFrom srt (s0.dFrame.data.take k) s0).dFrame.index = k) ∧
      sf.dFrame.index = data.length - 1 ∧
      s0.dFrame.data[data.length - 1]? = some last ∧
      (s0.dFrame.data[data.length - 1]?).map (fun r => r.Close) =
        (data[data.length - 1]?).map (fun r => r.Close) ∧
      res.ResultString.finalValue =
        roundFloat (sf.capital + sf.reserves + sf.asset * last.Close) 2 ∧
      |res.ResultString.finalValue - (sf.capital + sf.reserves + sf.asset * last.Close)| ≤
        1 / 200 ∧
      ∃ k : ℤ, res.ResultString.finalValue = (k : ℚ) / 100) := by
  constructor
  · obtain ⟨c1, c2, c3, -⟩ := B64.b64_setup_ok_fields asset investF taxF feeF dataFile dataF
      logFile strat sellCondition ema reinvestF minReturnF percentDropF balanceTripF t0 hsetF
    have hlen : t0.dFrame.data.length = dataF.length := by
      rw [c1]
      simp [B64.renameEMA]
    obtain ⟨res, last, h1, h2, h3, h4, h5, h6⟩ :=
      B64.b64_RunSimulation_eq srtF t0 (by rw [c3, hlen]) c2 (by omega)
    rw [hlen] at h2 h3 h4 h5
    refine ⟨_, res, last, h1, h2, rfl, hlen, h3, ?_, h4, h5, ?_, h6⟩
    · intro k hk
      rw [B64.b64_runFrom_dFrame, c2, List.length_take, hlen]
      simp only
      omega
    · rw [c1]
      simp only [B64.renameEMA, List.getElem?_map, Option.map_map]
      rfl
  · obtain ⟨-, -, -, -, -, -, -, b8, -, -, -, -, -, -, b15, b16, -⟩ := setup_ok_fields asset
      investAMT taxRate feePercentage dataFile data logFile strat sellCondition ema
      reinvestPercentage minReturn percentDrop balanceTrip s0 hset
    have hlen : s0.dFrame.data.length = data.length := by
      rw [b8]
      simp [renameEMA]
    obtain ⟨res, last, h1, h2, h3, h4, h5, h6, -⟩ :=
      RunSimulation_eq srt s0 (by rw [b16, hlen]) b15 (by omega)
    rw [hlen] at h2 h3 h4 h5
    refine ⟨_, res, last, h1, h2, rfl, hlen, h3, ?_, h4, h5, ?_, h6, ?_, ?_⟩
    · intro k hk
      rw [runFrom_dFrame, b15, List.length_take, hlen]
      simp only
      omega
    · rw [b8]
      simp only [renameEMA, List.getElem?_map, Option.map_map]
      rfl
    · rw [h6]
      exact (roundFloat_two_spec _).1
    · rw [h6]
      exact (roundFloat_two_spec _).2

set_option maxRecDepth 1000000 in
/-- Witness for C15.  In exact arithmetic sample run B has 4 rows and its decision steps run
at 0, 1, 2, 3.  On binary64 sample run F (investment 40, fee 0.125, no tax; a buy at 3.125
and a sell at 3.25) makes its steps at 0, 1 and ends with capital `15.924999999999999`,
reserves 20, no asset and finalPortfolioValue 35.92; in exact arithmetic the same sum is
35.925, which `roundFloat` takes to 35.93. -/
theorem C15_run_terminates_witness :
    setup "A" 40 0 0 "d" (rowsB 5) "l" "MACD" 1 0 1 0 (1 / 10) 100 = Except.ok (startB 5) ∧
    1 ≤ (rowsB 5).length ∧
    B64.setup "A" 40 0 (F64.ofRatio false 125 1000) "d" B64.rowsF "l" "MACD" 1 0 1 0
      (F64.ofRatio false 1 10) 100 = Except.ok B64.startF ∧
    1 ≤ B64.rowsF.length ∧
    runTrace isort ((startB 5).dFrame.nRows + 1) (startB 5) = List.range (rowsB 5).length ∧
    B64.runTrace B64.isort (B64.startF.dFrame.nRows + 1) B64.startF =
      List.range B64.rowsF.length ∧
    (B64.RunSimulation B64.isort B64.startF).map
        (fun r => (r.1.buys, r.1.sells, r.1.capital, r.1.reserves, r.1.asset,
          r.2.ResultString.finalValue)) =
      some ([0], [1], F64.fin false 8964978008234393 (-49), 20, 0,
        F64.ofRatio false 3592 100) ∧
    B64.roundFloat (F64.fin false 8964978008234393 (-49) + 20 + 0 * F64.ofRatio false 325 100)
      2 = F64.ofRatio false 3592 100 ∧
    roundFloat (35925 / 1000) 2 = 3593 / 100 := by
  have hset := sampleStart_setup 40 0 0 1 0 (1 / 10) 100 (rowsB 5)
  have hn : 1 ≤ (rowsB 5).length := by simp [rowsB]
  have hsetF := b64_sampleStart_setup 40 0 (F64.ofRatio false 125 1000) 1 1 0
    (F64.ofRatio false 1 10) 100 B64.rowsF
  have hnF : 1 ≤ B64.rowsF.length := by decide
  obtain ⟨⟨tf, resF, lastF, k⟩, ⟨sf, res, last, h⟩⟩ := C15_run_terminates isort "A" 40 0 0 "d"
    (rowsB 5) "l" "MACD" 1 0 1 0 (1 / 10) 100 (startB 5) hset hn B64.isort 40 0
    (F64.ofRatio false 125 1000) B64.rowsF 1 0 (F64.ofRatio false 1 10) 100 B64.startF hsetF hnF
  exact ⟨hset, hn, hsetF, hnF, h.2.2.2.2.1, k.2.2.2.2.1, by decide, by decide,
    roundFloat_half.1⟩

/-! ## A two-row run: one buy, one sell -/

theorem setup_ok_counters (asset : String) (investAMT taxRate feePercentage : ℚ)
    (dataFile : String) (data : List Row) (logFile : String) (strat : String)
    (sellCondition : Int) (ema : Int) (reinvestPercentage minReturn percentDrop balanceTrip : ℚ)
    (s0 : Simulation)
    (hset : setup asset investAMT taxRate feePercentage dataFile data logFile strat
      sellCondition ema reinvestPercentage minReturn percentDrop balanceTrip = Except.ok s0) :
    s0.revenue = 0 ∧ s0.tax = 0 ∧ s0.fees = 0 ∧ s0.numTransactions = 0 ∧ s0.buys = [] ∧
    s0.sells = [] ∧ s0.balances = [] ∧ s0.openReserves = [] ∧ s0.log = [] := by
  unfold setup SetStratParams at hset
  by_cases hv : IsValidStrategy strat = true
  · simp only [if_pos hv] at hset
    injection hset with hset
    subst hset
    simp [NewSimulation]
  · simp only [if_neg hv] at hset
    cases hset

theorem sellAll_countBUY (row : Row) (l : List purchase) (s : Simulation) :
    countBUY (sellAll row l s).log = countBUY s.log := by
  induction l generalizing s with
  | nil => simp [sellAll]
  | cons p l ih =>
    rw [sellAll_cons, ih]
    simp [countBUY, Event.isBUY, List.countP_append]

theorem sellAsset_countBUY (srt : List purchase → List purchase) (row : Row)
    (s : Simulation) : countBUY (sellAsset srt row s).log = countBUY s.log := by
  rw [sellAsset_eq]
  exact sellAll_countBUY row _ _

theorem sortSpec_singleton (srt : List purchase → List purchase) (hsrt : SortSpec srt)
    (p : purchase) : srt [p] = [p] :=
  List.perm_singleton.mp (hsrt [p]).1

theorem loopBody_sell_totals (srt : List purchase → List purchase) (row : Row)
    (s : Simulation) (hsell : (calcPositions row s).2.1 = true) :
    (loopBody srt row s).capital + (loopBody srt row s).reserves =
      (sellAsset srt row s).capital + (sellAsset srt row s).reserves ∧
    (loopBody srt row s).revenue = (sellAsset srt row s).revenue ∧
    (loopBody srt row s).buys = (sellAsset srt row s).buys ∧
    (loopBody srt row s).sells = (sellAsset srt row s).sells ∧
    (loopBody srt row s).numTransactions = (sellAsset srt row s).numTransactions ∧
    countBUY (loopBody srt row s).log = countBUY (sellAsset srt row s).log ∧
    countSELL (loopBody srt row s).log = countSELL (sellAsset srt row s).log := by
  rw [loopBody_of_sell srt row s hsell]
  split
  · refine ⟨?_, ?_, ?_, ?_, ?_, ?_, ?_⟩ <;>
      simp [countBUY, countSELL, Event.isBUY, Event.isSELL, List.countP_append]
  · exact ⟨rfl, rfl, rfl, rfl, rfl, rfl, rfl⟩

theorem two_row_run (srt : List purchase → List purchase) (hsrt : SortSpec srt)
    (asset : String) (investAMT taxRate feePercentage : ℚ) (dataFile : String)
    (data : List Row) (logFile : String) (strat : String) (sellCondition : Int) (ema : Int)
    (reinvestPercentage minReturn percentDrop balanceTrip : ℚ) (s0 : Simulation)
    (hset : setup asset investAMT taxRate feePercentage dataFile data logFile strat
      sellCondition ema reinvestPercentage minReturn percentDrop balanceTrip = Except.ok s0)
    (R0 R1 : Row) (hdata : s0.dFrame.data = [R0, R1])
    (hbuy : (calcPositions R0 s0).1 = true)
    (hsell : (calcPositions R1 (advance (buyAsset R0 s0))).2.1 = true)
    (hliq : (fdiv (R1.Close - R0.Close) R0.Close).gt minReturn = true)
    (hP0 : R0.Close ≠ 0) :
    ∃ sf res, RunSimulation srt s0 = some (sf, res) ∧
      sf.buys = [0] ∧ sf.sells = [1] ∧ countBUY sf.log = 1 ∧ countSELL sf.log = 1 ∧
      sf.numTransactions = 2 ∧
      res.ResultString.buys = [0] ∧ res.ResultString.sells = [1] ∧
      res.ResultString.numTransactions = 2 ∧
      sf.capital + sf.reserves =
        investAMT - investAMT / 2 * feePercentage +
          reinvestPercentage * lotNetReward feePercentage taxRate R1.Close
            (purchase.mk R0.Close
              ((investAMT / 2 - investAMT / 2 * feePercentage) / R0.Close) 0) ∧
      sf.capital + sf.reserves + sf.revenue =
        investAMT - investAMT / 2 * feePercentage +
          lotNetReward feePercentage taxRate R1.Close
            (purchase.mk R0.Close
              ((investAMT / 2 - investAMT / 2 * feePercentage) / R0.Close) 0) := by
  obtain ⟨b1, b2, b3, b4, b5, b6, b7, -, -, b10, -, -, -, -, b15, b16, -⟩ :=
    setup_ok_fields asset investAMT taxRate feePercentage dataFile data logFile strat
      sellCondition ema reinvestPercentage minReturn percentDrop balanceTrip s0 hset
  obtain ⟨c1, -, -, c4, c5, c6, -, -, c9⟩ :=
    setup_ok_counters asset investAMT taxRate feePercentage dataFile data logFile strat
      sellCondition ema reinvestPercentage minReturn percentDrop balanceTrip s0 hset
  have hlen : s0.dFrame.data.length = 2 := by rw [hdata]; rfl
  have hn : s0.dFrame.nRows = s0.dFrame.data.length := by
    rw [b16, hlen]
    have h := congrArg List.length hdata
    rw [setup_ok_fields asset investAMT taxRate feePercentage dataFile data logFile strat
      sellCondition ema reinvestPercentage minReturn percentDrop balanceTrip s0 hset
      |>.2.2.2.2.2.2.2.1] at h
    simpa [renameEMA] using h
  obtain ⟨res, last, h1, -, -, -, -, -, r1, r2, r3⟩ :=
    RunSimulation_eq srt s0 hn b15 (by omega)
  have hfrom : runFrom srt s0.dFrame.data s0 =
      advance (loopBody srt R1 (advance (buyAsset R0 s0))) := by
    rw [hdata, runFrom_cons, runFrom_cons, runFrom_nil, loopBody_of_buy srt R0 s0 hbuy]
  rw [hfrom] at h1 r1 r2 r3
  obtain ⟨t1, t2, t3, t4, t5, t6, t7⟩ :=
    loopBody_sell_totals srt R1 (advance (buyAsset R0 s0)) hsell
  obtain ⟨f1, -, f3, f4, f5, -, -, -⟩ := sellAsset_frame srt R1 (advance (buyAsset R0 s0))
  have hph : (advance (buyAsset R0 s0)).purchaseHistory =
      [purchase.mk R0.Close ((investAMT / 2 - investAMT / 2 * feePercentage) / R0.Close) 0] := by
    simp only [advance_fields, buyAsset_fields, b1, b4, b5, b15]
  have hq : liquidated srt R1 (advance (buyAsset R0 s0)) =
      [purchase.mk R0.Close ((investAMT / 2 - investAMT / 2 * feePercentage) / R0.Close) 0] := by
    rw [liquidated, hph, sortSpec_singleton srt hsrt]
    have hm : (advance (buyAsset R0 s0)).minReturn = minReturn := by
      simp only [advance_fields, buyAsset_fields, b10]
    rw [hm]
    simp only [List.takeWhile_cons, qualifies, lotReturn, hliq, if_true, List.takeWhile_nil]
  obtain ⟨m1, m2, -, -⟩ := sellAsset_money srt R1 (advance (buyAsset R0 s0))
  have hcs := sellAsset_countSELL srt R1 (advance (buyAsset R0 s0))
  have hcb := sellAsset_countBUY srt R1 (advance (buyAsset R0 s0))
  rw [hq] at m1 m2 hcs
  simp only [advance_fields, buyAsset_fields, b1, b2, b5, b6, b7, c1, List.map_cons,
    List.map_nil, List.sum_cons, List.sum_nil, add_zero, zero_add] at m1 m2 f1
  have hamt : (investAMT / 2 - investAMT / 2 * feePercentage) / R0.Close * R0.Close =
      investAMT / 2 - investAMT / 2 * feePercentage := div_mul_cancel₀ _ hP0
  refine ⟨_, res, h1, ?_, ?_, ?_, ?_, ?_, ?_, ?_, ?_, ?_, ?_⟩
  · simp only [retreat_fields, advance_fields, t3, f4, buyAsset_fields, c5, b15]
    rfl
  · simp only [retreat_fields, advance_fields, t4, f5, buyAsset_fields, c6, b15]
    rfl
  · simp only [retreat_fields, advance_fields, t6, hcb, buyAsset_fields, c9]
    simp [countBUY, Event.isBUY]
  · simp only [retreat_fields, advance_fields, t7, hcs, buyAsset_fields, c9]
    simp [countSELL, Event.isSELL]
  · simp only [retreat_fields, advance_fields, t5, f3, buyAsset_fields, c4]
  · rw [r2]
    simp only [retreat_fields, advance_fields, t3, f4, buyAsset_fields, c5, b15]
    rfl
  · rw [r3]
    simp only [retreat_fields, advance_fields, t4, f5, buyAsset_fields, c6, b15]
    rfl
  · rw [r1]
    simp only [retreat_fields, advance_fields, t5, f3, buyAsset_fields, c4]
  · simp only [retreat_fields, advance_fields]
    rw [t1, m1, f1]
    simp only [lotReinvested]
    rw [hamt]
    ring
  · simp only [retreat_fields, advance_fields]
    rw [t1, t2, m1, m2, f1]
    simp only [lotReinvested]
    rw [hamt]
    ring

theorem startD_signals (r bt : ℚ) :
    setup "A" 40 0 0 "d" rowsD "l" "MACD" 1 0 r 0 (1 / 10) bt = Except.ok (startD r bt) ∧
    (startD r bt).dFrame.data = [rowUp 10, rowFlat 20] ∧
    (calcPositions (rowUp 10) (startD r bt)).1 = true ∧
    (calcPositions (rowFlat 20) (advance (buyAsset (rowUp 10) (startD r bt)))).2.1 = true ∧
    (fdiv ((rowFlat 20).Close - (rowUp 10).Close) (rowUp 10).Close).gt 0 = true := by
  obtain ⟨a1, a2, a3, a4, a5, a6, a7, a8, a9, a10, a11, a12, a13, a14, a15⟩ :=
    startD_fields r bt
  refine ⟨sampleStart_setup 40 0 0 r 0 (1 / 10) bt rowsD, ?_, ?_, (headD1_sell r bt).2.1, ?_⟩
  · rw [a6]
    rfl
  · rw [calcPositions_buy]
    simp [a1, a14, isBuy, IsBuy, isBuyMACD, rowUp]
  · simp [fdiv, XRat.gt, rowUp, rowFlat]
    norm_num

theorem lotNetReward_D :
    lotNetReward 0 0 (rowFlat 20).Close
      (purchase.mk (rowUp 10).Close ((40 / 2 - 40 / 2 * 0) / (rowUp 10).Close) 0) = 20 := by
  simp [lotNetReward, lotGain, lotFee, lotTax, lotProceeds, rowUp, rowFlat]
  norm_num

/-- C16, as stated, fails, also in exact arithmetic: in sample run D with reinvest percentage
1/2 (investment 40, no
fee, no tax, a buy of 2 units at 10 on row 0, sold at 20 on row 1) the run ends with
capital + reserves = 50 and revenue = 10, while initialInvestment - buyFee +
(gain - sellFee - tax) is 40 - 0 + (20 - 0 - 0) = 60. -/
theorem C16_counterexample :
    setup "A" 40 0 0 "d" rowsD "l" "MACD" 1 0 (1 / 2) 0 (1 / 10) 100 =
      Except.ok (startD (1 / 2) 100) ∧
    (calcPositions (rowUp 10) (startD (1 / 2) 100)).1 = true ∧
    (calcPositions (rowFlat 20) (headD1 (1 / 2) 100)).2.1 = true ∧
    liquidated isort (rowFlat 20) (headD1 (1 / 2) 100) = [purchase.mk 10 2 0] ∧
    (∃ sf res, RunSimulation isort (startD (1 / 2) 100) = some (sf, res) ∧
      sf.capital + sf.reserves = 50 ∧ sf.revenue = 10) ∧
    lotGain 20 (purchase.mk 10 2 0) = 20 ∧ lotFee 0 20 (purchase.mk 10 2 0) = 0 ∧
    lotTax 0 20 (purchase.mk 10 2 0) = 0 ∧
    (40 : ℚ) - 40 / 2 * 0 + (20 - 0 - 0) = 60 := by
  obtain ⟨hset, hdata, hbuy, hsell, hliq⟩ := startD_signals (1 / 2) 100
  obtain ⟨sf, res, h1, -, -, -, -, -, -, -, -, h10, h11⟩ :=
    two_row_run isort isort_spec "A" 40 0 0 "d" rowsD "l" "MACD" 1 0 (1 / 2) 0 (1 / 10) 100
      (startD (1 / 2) 100) hset (rowUp 10) (rowFlat 20) hdata hbuy hsell hliq
      (by simp [rowUp])
  rw [lotNetReward_D] at h10 h11
  have e1 : sf.capital + sf.reserves = 50 := by
    rw [h10]; norm_num
  have e2 : sf.revenue = 10 := by
    have : sf.capital + sf.reserves + sf.revenue = 60 := by
      rw [h11]; norm_num
    linarith
  refine ⟨hset, hbuy, hsell, (headD1_sell (1 / 2) 100).2.2.1, ⟨sf, res, h1, e1, e2⟩, ?_, ?_, ?_,
    by norm_num⟩
  · simp [lotGain, lotProceeds]; norm_num
  · simp [lotFee, lotProceeds]
  · simp [lotTax, lotGain, lotProceeds]

/-- C16, amended. In exact arithmetic, on a two-row series whose first Close price is not 0,
in which row 0 gives a buy signal and row 1 a sell signal that liquidates the lot bought on
row 0, `RunSimulation` records exactly one Buy and one Sell (buys = [0], sells = [1], one BUY
and one SELL entry, numTransactions = 2), and with buyFee = `initialInvestment/2 * feeRate`
(the fee on the half that is invested), `a` the amount bought, gain = `a*P1 - a*P0`,
sellFee = `a*P1*feeRate` and tax = `gain*taxRate` if the gain is positive, else 0: the final
capital + reserves is `initialInvestment - buyFee + reinvestPercentage * (gain - sellFee -
tax)`, and the final capital + reserves + revenue is `initialInvestment - buyFee +
(gain - sellFee - tax)`. -/
theorem C16_two_row_run (srt : List purchase → List purchase) (hsrt : SortSpec srt)
    (asset : String) (investAMT taxRate feePercentage : ℚ) (dataFile : String)
    (data : List Row) (logFile : String) (strat : String) (sellCondition : Int) (ema : Int)
    (reinvestPercentage minReturn percentDrop balanceTrip : ℚ) (s0 : Simulation)
    (hset : setup asset investAMT taxRate feePercentage dataFile data logFile strat
      sellCondition ema reinvestPercentage minReturn percentDrop balanceTrip = Except.ok s0)
    (R0 R1 : Row) (hdata : s0.dFrame.data = [R0, R1])
    (hbuy : (calcPositions R0 s0).1 = true)
    (hsell : (calcPositions R1 (advance (buyAsset R0 s0))).2.1 = true)
    (hliq : (fdiv (R1.Close - R0.Close) R0.Close).gt minReturn = true)
    (hP0 : R0.Close ≠ 0) :
    (∃ sf res, RunSimulation srt s0 = some (sf, res) ∧
      sf.buys = [0] ∧ sf.sells = [1] ∧ countBUY sf.log = 1 ∧ countSELL sf.log = 1 ∧
      sf.numTransactions = 2 ∧
      res.ResultString.buys = [0] ∧ res.ResultString.sells = [1] ∧
      res.ResultString.numTransactions = 2 ∧
      sf.capital + sf.reserves =
        investAMT - investAMT / 2 * feePercentage +
          reinvestPercentage * lotNetReward feePercentage taxRate R1.Close
            (purchase.mk R0.Close
              ((investAMT / 2 - investAMT / 2 * feePercentage) / R0.Close) 0) ∧
      sf.capital + sf.reserves + sf.revenue =
        investAMT - investAMT / 2 * feePercentage +
          lotNetReward feePercentage taxRate R1.Close
            (purchase.mk R0.Close
              ((investAMT / 2 - investAMT / 2 * feePercentage) / R0.Close) 0)) ∧
    (∀ a : ℚ, lotNetReward feePercentage taxRate R1.Close (purchase.mk R0.Close a 0) =
      (a * R1.Close - a * R0.Close) - a * R1.Close * feePercentage -
        (if a * R1.Close - a * R0.Close > 0 then (a * R1.Close - a * R0.Close) * taxRate
          else 0)) :=
  ⟨two_row_run srt hsrt asset investAMT taxRate feePercentage dataFile data logFile strat
      sellCondition ema reinvestPercentage minReturn percentDrop balanceTrip s0 hset R0 R1
      hdata hbuy hsell hliq hP0,
    fun _ => rfl⟩

/-- Witness for C16 as amended: sample run D with everything reinvested. -/
theorem C16_two_row_run_witness :
    SortSpec isort ∧
    setup "A" 40 0 0 "d" rowsD "l" "MACD" 1 0 1 0 (1 / 10) 100 = Except.ok (startD 1 100) ∧
    (startD 1 100).dFrame.data = [rowUp 10, rowFlat 20] ∧
    (calcPositions (rowUp 10) (startD 1 100)).1 = true ∧
    (calcPositions (rowFlat 20) (advance (buyAsset (rowUp 10) (startD 1 100)))).2.1 = true ∧
    (fdiv ((rowFlat 20).Close - (rowUp 10).Close) (rowUp 10).Close).gt 0 = true ∧
    (rowUp 10).Close ≠ 0 ∧
    ∃ sf res, RunSimulation isort (startD 1 100) = some (sf, res) ∧
      sf.buys = [0] ∧ sf.sells = [1] ∧ sf.numTransactions = 2 := by
  obtain ⟨hset, hdata, hbuy, hsell, hliq⟩ := startD_signals 1 100
  have hP0 : (rowUp 10).Close ≠ 0 := by simp [rowUp]
  obtain ⟨sf, res, h1, h2, h3, -, -, h6, -⟩ :=
    (C16_two_row_run isort isort_spec "A" 40 0 0 "d" rowsD "l" "MACD" 1 0 1 0 (1 / 10) 100
      (startD 1 100) hset (rowUp 10) (rowFlat 20) hdata hbuy hsell hliq hP0).1
  exact ⟨isort_spec, hset, hdata, hbuy, hsell, hliq, hP0, sf, res, h1, h2, h3, h6⟩

/-! ## Reserves stay positive -/

theorem visited_induction_guarded (srt : List purchase → List purchase) (s0 : Simulation)
    (I : Simulation → Prop) (h0 : I s0)
    (hsell : ∀ s row, I s → curRow s = some row → (calcPositions row s).2.1 = true →
      I (sellAsset srt row s))
    (hbal : ∀ t row, I t → (fdiv t.capital t.reserves).gt t.balanceTrip = true →
      I (balanceFunds row t))
    (hbuy : ∀ s row, I s → curRow s = some row → (calcPositions row s).1 = true →
      I (buyAsset row s))
    (hopen : ∀ s row, I s → curRow s = some row → (calcPositions row s).2.2 = true →
      I (openReserves row s))
    (hadv : ∀ s, I s → I (advance s)) (hret : ∀ s, I s → I (retreat s)) :
    ∀ s, Visited srt s0 s → I s := by
  have hbody : ∀ s row, I s → curRow s = some row → I (loopBody srt row s) := by
    intro s row hI hrow
    by_cases h1 : (calcPositions row s).2.1 = true
    · rw [loopBody_of_sell srt row s h1]
      by_cases hg : (fdiv (sellAsset srt row s).capital (sellAsset srt row s).reserves).gt
          (sellAsset srt row s).balanceTrip = true
      · rw [if_pos hg]
        exact hbal _ row (hsell s row hI hrow h1) hg
      · rw [if_neg hg]
        exact hsell s row hI hrow h1
    · have h1f : (calcPositions row s).2.1 = false := by simpa using h1
      by_cases h2 : (calcPositions row s).1 = true
      · rw [loopBody_of_buy srt row s h2]
        exact hbuy s row hI hrow h2
      · have h2f : (calcPositions row s).1 = false := by simpa using h2
        by_cases h3 : (calcPositions row s).2.2 = true
        · rw [loopBody_of_openRes srt row s h1f h2f h3]
          exact hopen s row hI hrow h3
        · have h3f : (calcPositions row s).2.2 = false := by simpa using h3
          rw [loopBody_of_none srt row s h1f h2f h3f]
          exact hI
  have hhead : ∀ s, AtHead srt s0 s → I s := by
    intro s hs
    induction hs with
    | start => exact h0
    | next s row _ hrow _ ih => exact hadv _ (hbody s row ih hrow)
  intro s hs
  cases hs with
  | head s h => exact hhead s h
  | sold s row h hrow hsig => exact hsell s row (hhead s h) hrow hsig
  | acted s row h hrow => exact hbody s row (hhead s h) hrow
  | moved s row h hrow => exact hadv _ (hbody s row (hhead s h) hrow)
  | done s row h hrow _ => exact hret _ (hadv _ (hbody s row (hhead s h) hrow))

theorem reserves_pos_visited (srt : List purchase → List purchase) (s0 : Simulation)
    (h0 : 0 < s0.reserves ∧ 0 ≤ s0.balanceTrip) :
    ∀ s, Visited srt s0 s → 0 < s.reserves ∧ 0 ≤ s.balanceTrip := by
  refine visited_induction_guarded srt s0 (fun s => 0 < s.reserves ∧ 0 ≤ s.balanceTrip) h0
    ?_ ?_ ?_ ?_ ?_ ?_
  · intro s row hI _ _
    rw [(sellAsset_frame srt row s).1,
      (sellAsset_sameConfig srt row s).2.2.2.2.2.2.2.2.1]
    exact hI
  · intro t row hI hg
    rw [fdiv_gt_of_ne _ _ _ (ne_of_gt hI.1)] at hg
    simp only [decide_eq_true_eq] at hg
    have hq : 0 < t.capital / t.reserves := lt_of_le_of_lt hI.2 hg
    have hc : 0 < t.capital := by
      rcases div_pos_iff.mp hq with h | h
      · exact h.1
      · exact absurd hI.1 (not_lt.mpr h.2.le)
    simp only [balanceFunds_fields]
    exact ⟨by linarith, hI.2⟩
  · intro s row hI _ _
    simpa using hI
  · intro s row hI _ _
    simp only [openReserves_fields]
    exact ⟨by linarith [hI.1], hI.2⟩
  · intro s hI
    exact hI
  · intro s hI
    exact hI

/-- C22. In a run of `RunSimulation` set up by `NewSimulation` and `SetStratParams` with
initialInvestment `> 0` and balanceTrip `>= 0`, reserves is positive in every state the run
passes through: `openReserves` halves a positive amount, and `balanceFunds` runs only when
`capital/reserves > balanceTrip >= 0`, so only with positive capital.  Hence the divisor of
`capital/reserves` in the balance check after a Sell is never zero. -/
theorem C22_reserves_positive (srt : List purchase → List purchase)
    (asset : String) (investAMT taxRate feePercentage : ℚ) (dataFile : String)
    (data : List Row) (logFile : String) (strat : String) (sellCondition : Int) (ema : Int)
    (reinvestPercentage minReturn percentDrop balanceTrip : ℚ) (s0 : Simulation)
    (hset : setup asset investAMT taxRate feePercentage dataFile data logFile strat
      sellCondition ema reinvestPercentage minReturn percentDrop balanceTrip = Except.ok s0)
    (hinv : 0 < investAMT) (htrip : 0 ≤ balanceTrip) :
    (∀ s, Visited srt s0 s → 0 < s.reserves) ∧
    (∀ sf res, RunSimulation srt s0 = some (sf, res) → 0 < sf.reserves) ∧
    (∀ s row, AtHead srt s0 s → curRow s = some row → (calcPositions row s).2.1 = true →
      (sellAsset srt row s).reserves ≠ 0 ∧
      fdiv (sellAsset srt row s).capital (sellAsset srt row s).reserves =
        XRat.fin ((sellAsset srt row s).capital / (sellAsset srt row s).reserves)) := by
  obtain ⟨-, b2, -, -, -, -, -, -, -, -, -, b12, -⟩ := setup_ok_fields asset investAMT
    taxRate feePercentage dataFile data logFile strat sellCondition ema reinvestPercentage
    minReturn percentDrop balanceTrip s0 hset
  have hall := reserves_pos_visited srt s0 ⟨by rw [b2]; linarith, by rw [b12]; exact htrip⟩
  refine ⟨fun s hs => (hall s hs).1,
    fun sf res h => (hall sf (RunSimulation_visited srt s0 sf res h)).1, ?_⟩
  intro s row hs hrow hsig
  have hpos := (hall _ (Visited.sold s row hs hrow hsig)).1
  exact ⟨ne_of_gt hpos, by simp [fdiv, ne_of_gt hpos]⟩

/-- Witness for C22: the state after the Sell of sample run B. -/
theorem C22_reserves_positive_witness :
    setup "A" 40 0 0 "d" (rowsB 5) "l" "MACD" 1 0 1 0 (1 / 10) 100 = Except.ok (startB 5) ∧
    (0 : ℚ) < 40 ∧ (0 : ℚ) ≤ 100 ∧
    Visited isort (startB 5) (sellAsset isort (rowFlat 20) (headB3 5)) ∧
    0 < (sellAsset isort (rowFlat 20) (headB3 5)).reserves := by
  have hset := sampleStart_setup 40 0 0 1 0 (1 / 10) 100 (rowsB 5)
  have hvis : Visited isort (startB 5) (sellAsset isort (rowFlat 20) (headB3 5)) :=
    Visited.sold (headB3 5) (rowFlat 20) (headB3_atHead 5 (by norm_num)) headB3_sell.1
      headB3_sell.2.1
  exact ⟨hset, by norm_num, by norm_num, hvis,
    (C22_reserves_positive isort "A" 40 0 0 "d" (rowsB 5) "l" "MACD" 1 0 1 0 (1 / 10) 100
      (startB 5) hset (by norm_num) (by norm_num)).1 _ hvis⟩

/-! ## The index lists -/

theorem pairwise_snoc (l : List Nat) (i : Nat) (h : l.Pairwise (fun a b => a < b))
    (hlt : ∀ x ∈ l, x < i) : (l ++ [i]).Pairwise (fun a b => a < b) := by
  rw [List.pairwise_append]
  refine ⟨h, List.pairwise_singleton _ _, ?_⟩
  intro a ha b hb
  rw [List.mem_singleton] at hb
  rw [hb]
  exact hlt a ha

theorem below_mono {k m : Nat} (hkm : k ≤ m) (s : Simulation) (h : Below k s) : Below m s :=
  ⟨fun i hi => lt_of_lt_of_le (h.1 i hi) hkm, fun i hi => lt_of_lt_of_le (h.2.1 i hi) hkm,
    fun i hi => lt_of_lt_of_le (h.2.2.1 i hi) hkm,
    fun i hi => lt_of_lt_of_le (h.2.2.2 i hi) hkm⟩

theorem indexLists_sell (n i : Nat) (hin : i < n) (s t : Simulation) (hg : IndexLists n s)
    (hb : Below i s) (e1 : t.buys = s.buys) (e2 : t.sells = s.sells ++ [i])
    (e3 : t.balances = s.balances) (e4 : t.openReserves = s.openReserves)
    (e5 : t.numTransactions = s.numTransactions + 1) :
    IndexLists n t ∧ Below (i + 1) t := by
  obtain ⟨⟨p1, p2, p3, p4⟩, ⟨r1, r2, r3, r4⟩, ⟨d1, d2, d3⟩, hsub, hnum⟩ := hg
  obtain ⟨q1, q2, q3, q4⟩ := hb
  unfold IndexLists Below
  rw [e1, e2, e3, e4, e5]
  refine ⟨⟨⟨p1, pairwise_snoc _ _ p2 q2, p3, p4⟩, ⟨r1, ?_, r3, r4⟩, ⟨?_, d2, ?_⟩, ?_, ?_⟩,
    ⟨fun x hx => Nat.lt_succ_of_lt (q1 x hx), ?_, fun x hx => Nat.lt_succ_of_lt (q3 x hx),
      fun x hx => Nat.lt_succ_of_lt (q4 x hx)⟩⟩
  · intro x hx
    rcases List.mem_append.mp hx with h | h
    · exact r2 x h
    · rw [List.mem_singleton.mp h]; exact hin
  · intro x hx hx2
    rcases List.mem_append.mp hx2 with h | h
    · exact d1 x hx h
    · rw [List.mem_singleton.mp h] at hx
      exact lt_irrefl _ (q1 i hx)
  · intro x hx hx2
    rcases List.mem_append.mp hx with h | h
    · exact d3 x h hx2
    · rw [List.mem_singleton.mp h] at hx2
      exact lt_irrefl _ (q4 i hx2)
  · intro x hx
    exact List.mem_append_left _ (hsub x hx)
  · rw [hnum, List.length_append]
    simp only [List.length_singleton]
    omega
  · intro x hx
    rcases List.mem_append.mp hx with h | h
    · exact Nat.lt_succ_of_lt (q2 x h)
    · rw [List.mem_singleton.mp h]; exact Nat.lt_succ_self i

theorem indexLists_balance (n i : Nat) (hin : i < n) (s t : Simulation)
    (hg : IndexLists n s) (hb : Below (i + 1) s) (hbal : ∀ x ∈ s.balances, x < i)
    (hlast : i ∈ s.sells) (e1 : t.buys = s.buys) (e2 : t.sells = s.sells)
    (e3 : t.balances = s.balances ++ [i]) (e4 : t.openReserves = s.openReserves)
    (e5 : t.numTransactions = s.numTransactions) :
    IndexLists n t ∧ Below (i + 1) t := by
  obtain ⟨⟨p1, p2, p3, p4⟩, ⟨r1, r2, r3, r4⟩, ⟨d1, d2, d3⟩, hsub, hnum⟩ := hg
  obtain ⟨q1, q2, q3, q4⟩ := hb
  unfold IndexLists Below
  rw [e1, e2, e3, e4, e5]
  refine ⟨⟨⟨p1, p2, pairwise_snoc _ _ p3 hbal, p4⟩, ⟨r1, r2, ?_, r4⟩, ⟨d1, d2, d3⟩, ?_,
    hnum⟩, ⟨q1, q2, ?_, q4⟩⟩
  · intro x hx
    rcases List.mem_append.mp hx with h | h
    · exact r3 x h
    · rw [List.mem_singleton.mp h]; exact hin
  · intro x hx
    rcases List.mem_append.mp hx with h | h
    · exact hsub x h
    · rw [List.mem_singleton.mp h]; exact hlast
  · intro x hx
    rcases List.mem_append.mp hx with h | h
    · exact q3 x h
    · rw [List.mem_singleton.mp h]; exact Nat.lt_succ_self i

theorem indexLists_buy (n i : Nat) (hin : i < n) (s t : Simulation) (hg : IndexLists n s)
    (hb : Below i s) (e1 : t.buys = s.buys ++ [i]) (e2 : t.sells = s.sells)
    (e3 : t.balances = s.balances) (e4 : t.openReserves = s.openReserves)
    (e5 : t.numTransactions = s.numTransactions + 1) :
    IndexLists n t ∧ Below (i + 1) t := by
  obtain ⟨⟨p1, p2, p3, p4⟩, ⟨r1, r2, r3, r4⟩, ⟨d1, d2, d3⟩, hsub, hnum⟩ := hg
  obtain ⟨q1, q2, q3, q4⟩ := hb
  unfold IndexLists Below
  rw [e1, e2, e3, e4, e5]
  refine ⟨⟨⟨pairwise_snoc _ _ p1 q1, p2, p3, p4⟩, ⟨?_, r2, r3, r4⟩, ⟨?_, ?_, d3⟩, hsub, ?_⟩,
    ⟨?_, fun x hx => Nat.lt_succ_of_lt (q2 x hx), fun x hx => Nat.lt_succ_of_lt (q3 x hx),
      fun x hx => Nat.lt_succ_of_lt (q4 x hx)⟩⟩
  · intro x hx
    rcases List.mem_append.mp hx with h | h
    · exact r1 x h
    · rw [List.mem_singleton.mp h]; exact hin
  · intro x hx hx2
    rcases List.mem_append.mp hx with h | h
    · exact d1 x h hx2
    · rw [List.mem_singleton.mp h] at hx2
      exact lt_irrefl _ (q2 i hx2)
  · intro x hx hx2
    rcases List.mem_append.mp hx with h | h
    · exact d2 x h hx2
    · rw [List.mem_singleton.mp h] at hx2
      exact lt_irrefl _ (q4 i hx2)
  · rw [hnum, List.length_append]
    simp only [List.length_singleton]
    omega
  · intro x hx
    rcases List.mem_append.mp hx with h | h
    · exact Nat.lt_succ_of_lt (q1 x h)
    · rw [List.mem_singleton.mp h]; exact Nat.lt_succ_self i

theorem indexLists_open (n i : Nat) (hin : i < n) (s t : Simulation) (hg : IndexLists n s)
    (hb : Below i s) (e1 : t.buys = s.buys) (e2 : t.sells = s.sells)
    (e3 : t.balances = s.balances) (e4 : t.openReserves = s.openReserves ++ [i])
    (e5 : t.numTransactions = s.numTransactions) :
    IndexLists n t ∧ Below (i + 1) t := by
  obtain ⟨⟨p1, p2, p3, p4⟩, ⟨r1, r2, r3, r4⟩, ⟨d1, d2, d3⟩, hsub, hnum⟩ := hg
  obtain ⟨q1, q2, q3, q4⟩ := hb
  unfold IndexLists Below
  rw [e1, e2, e3, e4, e5]
  refine ⟨⟨⟨p1, p2, p3, pairwise_snoc _ _ p4 q4⟩, ⟨r1, r2, r3, ?_⟩, ⟨d1, ?_, ?_⟩, hsub, hnum⟩,
    ⟨fun x hx => Nat.lt_succ_of_lt (q1 x hx), fun x hx => Nat.lt_succ_of_lt (q2 x hx),
      fun x hx => Nat.lt_succ_of_lt (q3 x hx), ?_⟩⟩
  · intro x hx
    rcases List.mem_append.mp hx with h | h
    · exact r4 x h
    · rw [List.mem_singleton.mp h]; exact hin
  · intro x hx hx2
    rcases List.mem_append.mp hx2 with h | h
    · exact d2 x hx h
    · rw [List.mem_singleton.mp h] at hx
      exact lt_irrefl _ (q1 i hx)
  · intro x hx hx2
    rcases List.mem_append.mp hx2 with h | h
    · exact d3 x hx h
    · rw [List.mem_singleton.mp h] at hx
      exact lt_irrefl _ (q2 i hx)
  · intro x hx
    rcases List.mem_append.mp hx with h | h
    · exact Nat.lt_succ_of_lt (q4 x h)
    · rw [List.mem_singleton.mp h]; exact Nat.lt_succ_self i

theorem curRow_lt (s : Simulation) (row : Row) (h : curRow s = some row) :
    s.dFrame.index < s.dFrame.data.length := by
  unfold curRow at h
  by_contra hge
  rw [List.getElem?_eq_none (Nat.le_of_not_lt hge)] at h
  cases h

theorem step_lists (srt : List purchase → List purchase) (n : Nat) (s : Simulation) (row : Row)
    (hg : IndexLists n s) (hb : Below s.dFrame.index s) (hn : s.dFrame.data.length = n)
    (hrow : curRow s = some row) :
    (IndexLists n (sellAsset srt row s) ∧ Below (s.dFrame.index + 1) (sellAsset srt row s)) ∧
    (IndexLists n (loopBody srt row s) ∧ Below (s.dFrame.index + 1) (loopBody srt row s)) := by
  have hin : s.dFrame.index < n := hn ▸ curRow_lt s row hrow
  obtain ⟨-, -, f3, f4, f5, f6, f7, -⟩ := sellAsset_frame srt row s
  have hsold := indexLists_sell n s.dFrame.index hin s (sellAsset srt row s) hg hb f4 f5 f6 f7 f3
  refine ⟨hsold, ?_⟩
  by_cases h1 : (calcPositions row s).2.1 = true
  · rw [loopBody_of_sell srt row s h1]
    split
    · refine indexLists_balance n s.dFrame.index hin (sellAsset srt row s) _ hsold.1 hsold.2
        ?_ ?_ rfl rfl ?_ rfl rfl
      · rw [f6]; exact hb.2.2.1
      · rw [f5]; simp
      · simp only [balanceFunds_fields]
        rw [(sellAsset_frame srt row s).2.2.2.2.2.2.2]
    · exact hsold
  · have h1f : (calcPositions row s).2.1 = false := by simpa using h1
    by_cases h2 : (calcPositions row s).1 = true
    · rw [loopBody_of_buy srt row s h2]
      exact indexLists_buy n s.dFrame.index hin s _ hg hb rfl rfl rfl rfl rfl
    · have h2f : (calcPositions row s).1 = false := by simpa using h2
      by_cases h3 : (calcPositions row s).2.2 = true
      · rw [loopBody_of_openRes srt row s h1f h2f h3]
        exact indexLists_open n s.dFrame.index hin s _ hg hb rfl rfl rfl rfl rfl
      · have h3f : (calcPositions row s).2.2 = false := by simpa using h3
        rw [loopBody_of_none srt row s h1f h2f h3f]
        exact ⟨hg, below_mono (Nat.le_succ _) s hb⟩

theorem head_lists (srt : List purchase → List purchase) (n : Nat) (s0 : Simulation)
    (h0 : IndexLists n s0 ∧ Below s0.dFrame.index s0 ∧ s0.dFrame.data.length = n) :
    ∀ s, AtHead srt s0 s →
      IndexLists n s ∧ Below s.dFrame.index s ∧ s.dFrame.data.length = n := by
  intro s hs
  induction hs with
  | start => exact h0
  | next s row _ hrow _ ih =>
    obtain ⟨hg, hb, hn⟩ := ih
    have hstep := (step_lists srt n s row hg hb hn hrow).2
    have hd := step_dFrame srt row s
    refine ⟨hstep.1, ?_, ?_⟩
    · rw [hd]
      exact hstep.2
    · rw [hd]
      exact hn

theorem visited_lists (srt : List purchase → List purchase) (n : Nat) (s0 : Simulation)
    (h0 : IndexLists n s0 ∧ Below s0.dFrame.index s0 ∧ s0.dFrame.data.length = n) :
    ∀ s, Visited srt s0 s → IndexLists n s := by
  intro s hs
  cases hs with
  | head s h => exact (head_lists srt n s0 h0 s h).1
  | sold s row h hrow _ =>
    obtain ⟨hg, hb, hn⟩ := head_lists srt n s0 h0 s h
    exact (step_lists srt n s row hg hb hn hrow).1.1
  | acted s row h hrow =>
    obtain ⟨hg, hb, hn⟩ := head_lists srt n s0 h0 s h
    exact (step_lists srt n s row hg hb hn hrow).2.1
  | moved s row h hrow =>
    obtain ⟨hg, hb, hn⟩ := head_lists srt n s0 h0 s h
    exact (step_lists srt n s row hg hb hn hrow).2.1
  | done s row h hrow _ =>
    obtain ⟨hg, hb, hn⟩ := head_lists srt n s0 h0 s h
    exact (step_lists srt n s row hg hb hn hrow).2.1

/-- C25. In a run of `RunSimulation` on `n` rows, in every state the run passes through, each
of buys, sells, balances and openReserves is a strictly increasing list of row indices in
`[0, n)`; buys, sells and openReserves are pairwise disjoint; every index in balances also
occurs in sells; and numTransactions is the number of buys plus the number of sells. -/
theorem C25_index_lists (srt : List purchase → List purchase)
    (asset : String) (investAMT taxRate feePercentage : ℚ) (dataFile : String)
    (data : List Row) (logFile : String) (strat : String) (sellCondition : Int) (ema : Int)
    (reinvestPercentage minReturn percentDrop balanceTrip : ℚ) (s0 : Simulation)
    (hset : setup asset investAMT taxRate feePercentage dataFile data logFile strat
      sellCondition ema reinvestPercentage minReturn percentDrop balanceTrip = Except.ok s0) :
    (∀ s, Visited srt s0 s →
      (s.buys.Pairwise (fun a b => a < b) ∧ s.sells.Pairwise (fun a b => a < b) ∧
        s.balances.Pairwise (fun a b => a < b) ∧
        s.openReserves.Pairwise (fun a b => a < b)) ∧
      ((∀ i ∈ s.buys, i < data.length) ∧ (∀ i ∈ s.sells, i < data.length) ∧
        (∀ i ∈ s.balances, i < data.length) ∧ (∀ i ∈ s.openReserves, i < data.length)) ∧
      ((∀ i ∈ s.buys, i ∉ s.sells) ∧ (∀ i ∈ s.buys, i ∉ s.openReserves) ∧
        (∀ i ∈ s.sells, i ∉ s.openReserves)) ∧
      (∀ i ∈ s.balances, i ∈ s.sells) ∧
      s.numTransactions = s.buys.length + s.sells.length) ∧
    (∀ sf res, RunSimulation srt s0 = some (sf, res) → IndexLists data.length sf) := by
  obtain ⟨-, -, -, -, -, -, -, b8, -⟩ := setup_ok_fields asset investAMT taxRate
    feePercentage dataFile data logFile strat sellCondition ema reinvestPercentage minReturn
    percentDrop balanceTrip s0 hset
  obtain ⟨-, -, -, c4, c5, c6, c7, c8, -⟩ := setup_ok_counters asset investAMT taxRate
    feePercentage dataFile data logFile strat sellCondition ema reinvestPercentage minReturn
    percentDrop balanceTrip s0 hset
  have hlen : s0.dFrame.data.length = data.length := by
    rw [b8]
    simp [renameEMA]
  have h0 : IndexLists data.length s0 ∧ Below s0.dFrame.index s0 ∧
      s0.dFrame.data.length = data.length := by
    unfold IndexLists Below
    rw [c4, c5, c6, c7, c8]
    simp [hlen]
  have hall := visited_lists srt data.length s0 h0
  exact ⟨fun s hs => hall s hs,
    fun sf res h => hall sf (RunSimulation_visited srt s0 sf res h)⟩

/-- Witness for C25: the state after the Sell of sample run B. -/
theorem C25_index_lists_witness :
    setup "A" 40 0 0 "d" (rowsB 5) "l" "MACD" 1 0 1 0 (1 / 10) 100 = Except.ok (startB 5) ∧
    Visited isort (startB 5) (sellAsset isort (rowFlat 20) (headB3 5)) ∧
    IndexLists (rowsB 5).length (sellAsset isort (rowFlat 20) (headB3 5)) := by
  have hset := sampleStart_setup 40 0 0 1 0 (1 / 10) 100 (rowsB 5)
  have hvis : Visited isort (startB 5) (sellAsset isort (rowFlat 20) (headB3 5)) :=
    Visited.sold (headB3 5) (rowFlat 20) (headB3_atHead 5 (by norm_num)) headB3_sell.1
      headB3_sell.2.1
  exact ⟨hset, hvis,
    (C25_index_lists isort "A" 40 0 0 "d" (rowsB 5) "l" "MACD" 1 0 1 0 (1 / 10) 100
      (startB 5) hset).1 _ hvis⟩

/-! ## Accounting conservation -/

theorem lotsValue_cons (p : purchase) (l : List purchase) :
    lotsValue (p :: l) = p.amount * p.price + lotsValue l := by
  simp [lotsValue]

theorem lotsValue_perm {l1 l2 : List purchase} (h : List.Perm l1 l2) :
    lotsValue l1 = lotsValue l2 := by
  unfold lotsValue
  exact (h.map (fun p => p.amount * p.price)).sum_eq

theorem W_sellLot (row : Row) (p : purchase) (rest : List purchase) (s : Simulation)
    (hph : s.purchaseHistory = p :: rest) :
    W (sellLot row p s) = W s + lotGain row.Close p ∧
    (sellLot row p s).purchaseHistory = rest := by
  have e : (sellLot row p s).purchaseHistory = rest := by
    simp only [sellLot_fields, hph, List.drop_succ_cons, List.drop_zero]
  refine ⟨?_, e⟩
  unfold W
  rw [e]
  simp only [sellLot_fields, hph, lotsValue_cons, lotReinvested, lotNetReward]
  ring

theorem W_sellAll (row : Row) (l rest : List purchase) (s : Simulation)
    (hph : s.purchaseHistory = l ++ rest) :
    W (sellAll row l s) = W s + (l.map (fun p => lotGain row.Close p)).sum := by
  induction l generalizing s with
  | nil => simp [sellAll]
  | cons p l ih =>
    obtain ⟨h1, h2⟩ := W_sellLot row p (l ++ rest) s hph
    rw [sellAll_cons, ih (sellLot row p s) h2, h1]
    simp only [List.map_cons, List.sum_cons]
    ring

theorem W_sellAsset (srt : List purchase → List purchase) (hsrt : SortSpec srt) (row : Row)
    (s : Simulation) :
    W (sellAsset srt row s) =
      W s + ((liquidated srt row s).map (fun p => lotGain row.Close p)).sum := by
  have hperm := (hsrt s.purchaseHistory).1
  have h := W_sellAll row (liquidated srt row s)
    ((srt s.purchaseHistory).dropWhile (qualifies row.Close s.minReturn))
    { s with purchaseHistory := srt s.purchaseHistory }
    (liquidated_append_dropWhile srt row s).symm
  have e1 : W (sellAsset srt row s) =
      W (sellAll row (liquidated srt row s)
        { s with purchaseHistory := srt s.purchaseHistory }) := by
    rw [sellAsset_eq]
    rfl
  have e2 : W { s with purchaseHistory := srt s.purchaseHistory } = W s := by
    unfold W
    simp only
    rw [lotsValue_perm hperm]
  rw [e1, h, e2]

set_option maxRecDepth 1000000 in
/-- C23, as stated, fails for `buyAsset`.  In sample run Z on binary64 (investment 40, no
fee, no tax; a buy signal at close price 0) `W` is 40 before the Buy on row 0; the Buy stores
a lot of amount `20/0 = +Inf` at price 0, whose cost basis `+Inf * 0` is `NaN`, and `W` after
the Buy is `NaN`. -/
theorem C23_counterexample :
    B64.setup "A" 40 0 0 "d" B64.rowsZ "l" "MACD" 1 0 1 0 (F64.ofRatio false 1 10) 100 =
      Except.ok B64.startZ ∧
    B64.curRow B64.startZ = some (B64.rowUp 0 (-1)) ∧
    (B64.rowUp 0 (-1)).Close = F64.zero false ∧
    (B64.calcPositions (B64.rowUp 0 (-1)) B64.startZ).1 = true ∧
    (B64.calcPositions (B64.rowUp 0 (-1)) B64.startZ).2.1 = false ∧
    (B64.loopBody B64.isort (B64.rowUp 0 (-1)) B64.startZ).purchaseHistory =
      (B64.buyAsset (B64.rowUp 0 (-1)) B64.startZ).purchaseHistory ∧
    (B64.buyAsset (B64.rowUp 0 (-1)) B64.startZ).purchaseHistory =
      [B64.purchase.mk 0 (F64.inf false) 0] ∧
    B64.W B64.startZ = 40 ∧
    B64.W (B64.buyAsset (B64.rowUp 0 (-1)) B64.startZ) = F64.nan ∧
    B64.W (B64.loopBody B64.isort (B64.rowUp 0 (-1)) B64.startZ) = F64.nan :=
  ⟨b64_sampleStart_setup 40 0 0 1 1 0 (F64.ofRatio false 1 10) 100 B64.rowsZ,
    rfl, by decide, by decide, by decide, by decide, by decide, by decide, by decide,
    by decide⟩

/-- C23, amended. With `W = capital + reserves + revenue + tax + fees +` the sum over the
open lots of `amount * price`: `W` is initialInvestment after `NewSimulation` (and after
`SetStratParams`); `buyAsset` at a non-zero close price and `balanceFunds` leave `W`
unchanged; `sellAsset` raises `W` by exactly the sum of the gains `amount*(P - price)` of the
lots it liquidates, the proceeds `amount*P` of each lot being split exactly into the
increments of capital, revenue, tax and fees; and `openReserves` lowers `W` by exactly the
capital held before. -/
theorem C23_accounting (srt : List purchase → List purchase) (hsrt : SortSpec srt) :
    (∀ (asset : String) (investAMT taxRate feePercentage : ℚ) (dataFile : String)
        (data : List Row) (logFile : String),
      W (NewSimulation asset investAMT taxRate feePercentage dataFile data logFile) =
        investAMT) ∧
    (∀ (s : Simulation) (strat : String) (sellCondition ema : Int)
        (reinvestPercentage minReturn percentDrop balanceTrip : ℚ),
      W (SetStratParams s strat sellCondition ema reinvestPercentage minReturn percentDrop
        balanceTrip).1 = W s) ∧
    (∀ (row : Row) (s : Simulation), row.Close ≠ 0 → W (buyAsset row s) = W s) ∧
    (∀ (row : Row) (s : Simulation), W (balanceFunds row s) = W s) ∧
    (∀ (row : Row) (s : Simulation),
      W (sellAsset srt row s) =
        W s + ((liquidated srt row s).map
          (fun p => p.amount * (row.Close - p.price))).sum) ∧
    (∀ (row : Row) (p : purchase) (s : Simulation),
      ((sellLot row p s).capital - s.capital) + ((sellLot row p s).revenue - s.revenue) +
        ((sellLot row p s).tax - s.tax) + ((sellLot row p s).fees - s.fees) =
        p.amount * row.Close) ∧
    (∀ (row : Row) (s : Simulation), W (openReserves row s) = W s - s.capital) := by
  refine ⟨?_, ?_, ?_, ?_, ?_, ?_, ?_⟩
  · intro asset investAMT taxRate feePercentage dataFile data logFile
    simp [W, NewSimulation, lotsValue]
  · intro s strat sellCondition ema reinvestPercentage minReturn percentDrop balanceTrip
    unfold SetStratParams
    by_cases hv : IsValidStrategy strat = true
    · simp [hv, W]
    · simp [hv]
  · intro row s hP
    unfold W
    simp only [buyAsset_fields, lotsValue_cons]
    rw [div_mul_cancel₀ _ hP]
    ring
  · intro row s
    unfold W
    simp only [balanceFunds_fields]
    ring
  · intro row s
    rw [W_sellAsset srt hsrt row s]
    congr 2
    apply List.map_congr_left
    intro p _
    simp only [lotGain, lotProceeds]
    ring
  · intro row p s
    simp only [sellLot_fields, lotReinvested, lotNetReward, lotGain, lotFee, lotProceeds]
    ring
  · intro row s
    unfold W
    simp only [openReserves_fields]
    ring

/-- Witness for C23 as amended: insertion sort, and the Sell of sample run B. -/
theorem C23_accounting_witness :
    SortSpec isort ∧
    W (sellAsset isort (rowFlat 20) (headB3 5)) =
      W (headB3 5) + ((liquidated isort (rowFlat 20) (headB3 5)).map
        (fun p => p.amount * ((rowFlat 20).Close - p.price))).sum :=
  ⟨isort_spec, (C23_accounting isort isort_spec).2.2.2.2.1 (rowFlat 20) (headB3 5)⟩

/-! ## A sell liquidates at least one lot -/

theorem lot_capital_pos (f t r P : ℚ) (p : purchase) (hf1 : f < 1) (ht0 : 0 ≤ t)
    (hft : f + t ≤ 1) (hr0 : 0 ≤ r) (hr1 : r ≤ 1) (hP : 0 < P) (ha : 0 < p.amount)
    (hp : 0 < p.price) : 0 < p.amount * p.price + lotReinvested f t r P p := by
  have hX : 0 < p.amount * p.price := mul_pos ha hp
  have hAP : 0 < p.amount * P := mul_pos ha hP
  have hY : 0 < p.amount * p.price + lotNetReward f t P p := by
    unfold lotNetReward lotTax lotFee lotGain lotProceeds
    by_cases hg : p.amount * P - p.amount * p.price > 0
    · rw [if_pos hg]
      have e : p.amount * p.price + (p.amount * P - p.amount * p.price - p.amount * P * f -
          (p.amount * P - p.amount * p.price) * t) =
          p.amount * P * (1 - t - f) + p.amount * p.price * t := by ring
      rw [e]
      have h1 : 0 ≤ p.amount * P * (1 - t - f) := mul_nonneg hAP.le (by linarith)
      have h2 : 0 ≤ p.amount * p.price * t := mul_nonneg hX.le ht0
      rcases lt_or_eq_of_le ht0 with htpos | ht
      · have h3 : 0 < p.amount * p.price * t := mul_pos hX htpos
        linarith
      · have h3 : 0 < p.amount * P * (1 - t - f) := mul_pos hAP (by linarith)
        linarith
    · rw [if_neg hg]
      have e : p.amount * p.price + (p.amount * P - p.amount * p.price - p.amount * P * f - 0) =
          p.amount * P * (1 - f) := by ring
      rw [e]
      exact mul_pos hAP (by linarith)
  have e2 : p.amount * p.price + lotReinvested f t r P p =
      (1 - r) * (p.amount * p.price) + r * (p.amount * p.price + lotNetReward f t P p) := by
    unfold lotReinvested
    ring
  rw [e2]
  rcases lt_or_eq_of_le hr0 with hrpos | hr
  · have h1 : 0 ≤ (1 - r) * (p.amount * p.price) := mul_nonneg (by linarith) hX.le
    have h2 : 0 < r * (p.amount * p.price + lotNetReward f t P p) := mul_pos hrpos hY
    linarith
  · rw [← hr]
    simp only [sub_zero, one_mul, zero_mul, add_zero]
    exact hX

theorem xrat_gt_mono (x : XRat) (c d : ℚ) (hcd : c ≤ d) (h : x.gt d = true) :
    x.gt c = true := by
  cases x with
  | fin q =>
    simp only [XRat.gt, decide_eq_true_eq] at h ⊢
    exact lt_of_le_of_lt hcd h
  | pinf => rfl
  | ninf => simp [XRat.gt] at h
  | nan => simp [XRat.gt] at h

theorem isSell_gt (m : ℚ) (cr : XRat) (row : Row) (sc : Int) (hm : 0 ≤ m)
    (h : IsSell m cr row sc = true) : cr.gt m = true := by
  unfold IsSell at h
  split at h
  · exact h
  · split at h
    · simp only [sellCondition2, Bool.or_eq_true, Bool.and_eq_true] at h
      rcases h with h | h
      · exact h.2
      · exact xrat_gt_mono cr m (2 * m) (by linarith) h
    · split at h
      · simp only [sellCondition3, Bool.and_eq_true] at h
        exact h.2
      · split at h
        · simp only [sellCondition4, Bool.and_eq_true] at h
          exact h.2
        · split at h
          · simp only [sellCondition5, Bool.and_eq_true] at h
            exact h.2
          · split at h
            · simp only [sellCondition6, Bool.and_eq_true] at h
              exact h.2
            · cases h

theorem sumAmount_pos_ne_nil (l : List purchase) (h : 0 < sumAmount l) : l ≠ [] := by
  intro hl
  rw [hl] at h
  simp [sumAmount] at h

theorem holding_sellAsset (srt : List purchase → List purchase) (hsrt : SortSpec srt)
    (s : Simulation) (row : Row) (hI : Holding s) (hrow : curRow s = some row) :
    Holding (sellAsset srt row s) := by
  obtain ⟨⟨hf0, hf1, ht0, hft, hr0, hr1, hm, hrows⟩, hc, hres, hlots, hsum, hlast⟩ := hI
  obtain ⟨-, c2, c3, -, -, c6, c7, -, -, -, c11, -⟩ := sellAsset_sameConfig srt row s
  obtain ⟨f1, f2, -, -, -, -, -, -⟩ := sellAsset_frame srt row s
  have hP : 0 < row.Close := hrows row (List.getElem?_mem hrow)
  have hperm := (hsrt s.purchaseHistory).1
  have hsplit := liquidated_append_dropWhile srt row s
  have hph := sellAsset_purchaseHistory srt row s
  have hliq : ∀ p ∈ liquidated srt row s, 0 < p.amount ∧ 0 < p.price := fun p hp =>
    hlots p (hperm.subset (List.takeWhile_subset _ hp))
  have hrest : ∀ p ∈ (sellAsset srt row s).purchaseHistory, 0 < p.amount ∧ 0 < p.price := by
    intro p hp
    rw [hph] at hp
    exact hlots p (hperm.subset (List.dropWhile_subset _ hp))
  have hterm : ∀ x ∈ (liquidated srt row s).map (fun p => p.amount * p.price +
      lotReinvested s.feePercentage s.taxRate s.reinvestPercentage row.Close p), 0 < x := by
    intro x hx
    obtain ⟨p, hp, rfl⟩ := List.mem_map.mp hx
    exact lot_capital_pos _ _ _ _ p hf1 ht0 hft hr0 hr1 hP (hliq p hp).1 (hliq p hp).2
  have hcap := (sellAsset_money srt row s).1
  refine ⟨⟨?_, ?_, ?_, ?_, ?_, ?_, ?_, ?_⟩, ?_, ?_, hrest,
    sellAsset_sum_invariant srt hsrt row s hsum, ?_⟩
  · rw [c2]; exact hf0
  · rw [c2]; exact hf1
  · rw [c3]; exact ht0
  · rw [c2, c3]; exact hft
  · rw [c6]; exact hr0
  · rw [c6]; exact hr1
  · rw [c7]; exact hm
  · rw [c11]; exact hrows
  · rw [hcap]
    exact add_nonneg hc (List.sum_nonneg (fun x hx => (hterm x hx).le))
  · rw [f1]; exact hres
  · intro hzero hne
    have hnil : liquidated srt row s = [] := by
      by_contra hL
      have hpos := List.sum_pos _ hterm (by simpa using hL)
      rw [hcap] at hzero
      linarith
    have hc0 : s.capital = 0 := by
      rw [hcap, hnil] at hzero
      simpa using hzero
    have hsame : (sellAsset srt row s).purchaseHistory = srt s.purchaseHistory := by
      have hdrop := hsplit
      rw [hnil, List.nil_append] at hdrop
      rw [hph, hdrop]
    have hne0 : s.purchaseHistory ≠ [] := by
      intro h0
      apply hne
      rw [hsame, h0]
      exact List.perm_nil.mp (h0 ▸ hperm)
    obtain ⟨p, hp, hprice⟩ := hlast hc0 hne0
    exact ⟨p, by rw [hsame]; exact hperm.symm.subset hp, by rw [f2]; exact hprice⟩

theorem holding_buyAsset (s : Simulation) (row : Row) (hI : Holding s)
    (hrow : curRow s = some row) (hbuy : (calcPositions row s).1 = true) :
    Holding (buyAsset row s) := by
  obtain ⟨⟨hf0, hf1, ht0, hft, hr0, hr1, hm, hrows⟩, hc, hres, hlots, hsum, -⟩ := hI
  have hP : 0 < row.Close := hrows row (List.getElem?_mem hrow)
  have hcpos := calcPositions_buy_capital row s hbuy
  have hamt : 0 < (s.capital - s.capital * s.feePercentage) / row.Close := by
    apply div_pos _ hP
    have : s.capital * s.feePercentage < s.capital * 1 := mul_lt_mul_of_pos_left hf1 hcpos
    linarith
  refine ⟨⟨hf0, hf1, ht0, hft, hr0, hr1, hm, hrows⟩, ?_, hres, ?_, ?_, ?_⟩
  · simp
  · simp only [buyAsset_fields]
    intro p hp
    rcases List.mem_cons.mp hp with rfl | hp2
    · exact ⟨hamt, hP⟩
    · exact hlots p hp2
  · simp only [buyAsset_fields, sumAmount_cons]
    rw [hsum]
    ring
  · intro _ _
    simp only [buyAsset_fields]
    exact ⟨_, List.mem_cons_self _ _, rfl⟩

theorem holding_visited (srt : List purchase → List purchase) (hsrt : SortSpec srt)
    (s0 : Simulation) (h0 : Holding s0) : ∀ s, Visited srt s0 s → Holding s := by
  refine visited_induction_guarded srt s0 Holding h0 ?_ ?_ ?_ ?_ ?_ ?_
  · intro s row hI hrow _
    exact holding_sellAsset srt hsrt s row hI hrow
  · intro t row hI _
    obtain ⟨hcfg, hc, hres, hlots, hsum, -⟩ := hI
    refine ⟨hcfg, ?_, ?_, hlots, hsum, ?_⟩
    · simp only [balanceFunds_fields]; linarith
    · simp only [balanceFunds_fields]; linarith
    · intro hzero
      simp only [balanceFunds_fields] at hzero
      linarith
  · intro s row hI hrow hbuy
    exact holding_buyAsset s row hI hrow hbuy
  · intro s row hI _ _
    obtain ⟨hcfg, hc, hres, hlots, hsum, -⟩ := hI
    refine ⟨hcfg, ?_, ?_, hlots, hsum, ?_⟩
    · simp only [openReserves_fields]; linarith
    · simp only [openReserves_fields]; linarith
    · intro hzero
      simp only [openReserves_fields] at hzero
      linarith
  · intro s hI
    exact hI
  · intro s hI
    exact hI

theorem holding_sell_liquidates (srt : List purchase → List purchase) (hsrt : SortSpec srt)
    (s : Simulation) (row : Row) (hI : Holding s) (hrow : curRow s = some row)
    (hsell : (calcPositions row s).2.1 = true) :
    (∃ p ∈ s.purchaseHistory, p.price = s.lastBuyPrice) ∧
    (∀ p, (srt s.purchaseHistory).head? = some p →
      (lotReturn row.Close p).gt s.minReturn = true) ∧
    liquidated srt row s ≠ [] := by
  obtain ⟨⟨-, -, -, -, -, -, hm, hrows⟩, hc, -, hlots, hsum, hlast⟩ := hI
  have hP : 0 < row.Close := hrows row (List.getElem?_mem hrow)
  obtain ⟨hperm, hsorted⟩ := sortSpec_le srt hsrt s.purchaseHistory
  rw [calcPositions_sell] at hsell
  simp only [Bool.and_eq_true, Bool.not_eq_true', decide_eq_false_iff_not,
    decide_eq_true_eq] at hsell
  obtain ⟨⟨hcap, hasset⟩, hsig⟩ := hsell
  have hc0 : s.capital = 0 := le_antisymm (not_lt.mp hcap) hc
  have hne : s.purchaseHistory ≠ [] := sumAmount_pos_ne_nil _ (by rw [hsum]; exact hasset)
  obtain ⟨p0, hp0, hprice⟩ := hlast hc0 hne
  have hq0 : qualifies row.Close s.minReturn p0 = true := by
    unfold qualifies lotReturn
    rw [hprice]
    exact isSell_gt _ _ row _ hm hsig
  have hpos : ∀ p ∈ srt s.purchaseHistory, 0 < p.price :=
    fun p hp => (hlots p (hperm.subset hp)).2
  have hnil : liquidated srt row s ≠ [] := by
    intro hL
    have hsplit := liquidated_append_dropWhile srt row s
    rw [hL, List.nil_append] at hsplit
    have hrest := dropWhile_none_qualifies row.Close s.minReturn hP (srt s.purchaseHistory)
      hpos hsorted p0 (by rw [hsplit]; exact hperm.symm.subset hp0)
    rw [hq0] at hrest
    cases hrest
  refine ⟨⟨p0, hp0, hprice⟩, ?_, hnil⟩
  intro p hp
  cases hl : srt s.purchaseHistory with
  | nil => rw [hl] at hp; cases hp
  | cons a l =>
    rw [hl] at hp
    simp only [List.head?_cons, Option.some.injEq] at hp
    subst hp
    by_contra hq
    apply hnil
    unfold liquidated
    rw [hl, List.takeWhile_cons_of_neg]
    exact hq

/-! ## Sample run E -/

theorem startE_fields :
    startE.capital = 20 ∧ startE.reserves = 20 ∧ startE.asset = 0 ∧ startE.lastBuyPrice = 0 ∧
    startE.purchaseHistory = [] ∧ startE.dFrame = df.mk 0 rowsE 2 ∧
    startE.feePercentage = 0 ∧ startE.taxRate = 0 ∧ startE.reinvestPercentage = 1 ∧
    startE.minReturn = -(1 / 10) ∧ startE.percentDrop = -(1 / 10) ∧ startE.balanceTrip = 100 ∧
    startE.minReserves = 5 ∧ startE.strat = "MACD" ∧ startE.sellCondition = 2 := by
  refine ⟨?_, ?_, rfl, rfl, rfl, ?_, rfl, rfl, rfl, rfl, ?_, rfl, ?_, rfl, rfl⟩ <;>
    simp [startE, sampleStart, NewSimulation, newDF, renameEMA, rowsE, rowUp, rowFlat] <;> norm_num

theorem startE_setup :
    setup "A" 40 0 0 "d" rowsE "l" "MACD" 2 0 1 (-(1 / 10)) (1 / 10) 100 = Except.ok startE := by
  simp [setup, SetStratParams, startE, sampleStart, IsValidStrategy, strategies, NewSimulation,
    newDF]

theorem headE1_fields :
    headE1.capital = 0 ∧ headE1.reserves = 20 ∧ headE1.asset = 1 / 5 ∧
    headE1.lastBuyPrice = 100 ∧ headE1.purchaseHistory = [purchase.mk 100 (1 / 5) 0] ∧
    headE1.dFrame = df.mk 1 rowsE 2 ∧
    headE1.feePercentage = 0 ∧ headE1.taxRate = 0 ∧ headE1.reinvestPercentage = 1 ∧
    headE1.minReturn = -(1 / 10) ∧ headE1.percentDrop = -(1 / 10) ∧ headE1.balanceTrip = 100 ∧
    headE1.minReserves = 5 ∧ headE1.strat = "MACD" ∧ headE1.sellCondition = 2 := by
  obtain ⟨a1, a2, a3, a4, a5, a6, a7, a8, a9, a10, a11, a12, a13, a14, a15⟩ := startE_fields
  simp [headE1, a1, a2, a3, a4, a5, a6, a7, a8, a9, a10, a11, a12, a13, a14, a15, rowUp]
  norm_num

theorem startE_step : curRow startE = some (rowUp 100) ∧
    advance (loopBody isort (rowUp 100) startE) = headE1 := by
  obtain ⟨a1, a2, a3, a4, a5, a6, a7, a8, a9, a10, a11, a12, a13, a14, a15⟩ := startE_fields
  have hrow : curRow startE = some (rowUp 100) := by
    simp [curRow, a6, rowsE]
  have hbuy : (calcPositions (rowUp 100) startE).1 = true := by
    rw [calcPositions_buy]
    simp [a1, a14, isBuy, IsBuy, isBuyMACD, rowUp]
  exact ⟨hrow, by rw [loopBody_of_buy isort _ _ hbuy]; rfl⟩

theorem headE1_atHead : AtHead isort startE headE1 := by
  have h0 := startE_step
  rw [← h0.2]
  refine AtHead.next startE (rowUp 100) AtHead.start h0.1 ?_
  rw [h0.2]
  simp [headE1_fields.2.2.2.2.2.1]

theorem headE1_sell : curRow headE1 = some (rowFlat 85) ∧
    (calcPositions (rowFlat 85) headE1).2.1 = true ∧
    liquidated isort (rowFlat 85) headE1 = [] := by
  obtain ⟨a1, a2, a3, a4, a5, a6, a7, a8, a9, a10, a11, a12, a13, a14, a15⟩ := headE1_fields
  refine ⟨?_, ?_, ?_⟩
  · simp [curRow, a6, rowsE]
  · rw [calcPositions_sell]
    simp [a1, a3, a4, a10, a15, IsSell, sellCondition2, fdiv, XRat.gt, rowFlat]
    norm_num
  · rw [liquidated, a5, a10]
    simp [isort, List.insertionSort, List.orderedInsert, qualifies, lotReturn, fdiv, XRat.gt,
      rowFlat, List.takeWhile]
    norm_num

/-- C24. In a run of `RunSimulation` set up by `NewSimulation` and `SetStratParams` with
initialInvestment `> 0`, strictly positive Close prices, minReturn `>= 0`,
`0 <= feeRate < 1`, taxRate `>= 0`, `feeRate + taxRate <= 1` and reinvestPercentage in
`[0,1]`, every step that performs a Sell liquidates at least one lot: when the sell signal is
true a lot bought at lastBuyPrice is still open and the cheapest open lot has lotReturn
`> minReturn`.  Without `minReturn >= 0` this fails: in sample run E (sell condition 2,
minReturn -1/10, a buy at 100, then the price 85) the step on row 1 performs a Sell that
liquidates no lot and still adds 1 to numTransactions and records the row in sells. -/
theorem C24_sell_liquidates (srt : List purchase → List purchase) (hsrt : SortSpec srt)
    (asset : String) (investAMT taxRate feePercentage : ℚ) (dataFile : String)
    (data : List Row) (logFile : String) (strat : String) (sellCondition : Int) (ema : Int)
    (reinvestPercentage minReturn percentDrop balanceTrip : ℚ) (s0 : Simulation)
    (hset : setup asset investAMT taxRate feePercentage dataFile data logFile strat
      sellCondition ema reinvestPercentage minReturn percentDrop balanceTrip = Except.ok s0)
    (hinv : 0 < investAMT) (hprice : ∀ row ∈ data, 0 < row.Close) (hmin : 0 ≤ minReturn)
    (hfee : 0 ≤ feePercentage ∧ feePercentage < 1) (htax : 0 ≤ taxRate)
    (hsum : feePercentage + taxRate ≤ 1)
    (hre : 0 ≤ reinvestPercentage ∧ reinvestPercentage ≤ 1) :
    (∀ s row, AtHead srt s0 s → curRow s = some row → (calcPositions row s).2.1 = true →
      (∃ p ∈ s.purchaseHistory, p.price = s.lastBuyPrice) ∧
      (∀ p, (srt s.purchaseHistory).head? = some p →
        (lotReturn row.Close p).gt s.minReturn = true) ∧
      liquidated srt row s ≠ [] ∧ 1 ≤ (liquidated srt row s).length ∧
      (sellAsset srt row s).purchaseHistory.length < s.purchaseHistory.length) ∧
    (setup "A" 40 0 0 "d" rowsE "l" "MACD" 2 0 1 (-(1 / 10)) (1 / 10) 100 = Except.ok startE ∧
      AtHead isort startE headE1 ∧ curRow headE1 = some (rowFlat 85) ∧
      (calcPositions (rowFlat 85) headE1).2.1 = true ∧
      liquidated isort (rowFlat 85) headE1 = [] ∧
      (loopBody isort (rowFlat 85) headE1).purchaseHistory = headE1.purchaseHistory ∧
      (loopBody isort (rowFlat 85) headE1).numTransactions = headE1.numTransactions + 1 ∧
      (loopBody isort (rowFlat 85) headE1).sells = headE1.sells ++ [headE1.dFrame.index]) := by
  constructor
  · obtain ⟨b1, b2, b3, b4, b5, b6, b7, b8, -, b10, -⟩ := setup_ok_fields asset investAMT
      taxRate feePercentage dataFile data logFile strat sellCondition ema reinvestPercentage
      minReturn percentDrop balanceTrip s0 hset
    have h0 : Holding s0 := by
      refine ⟨⟨?_, ?_, ?_, ?_, ?_, ?_, ?_, ?_⟩, ?_, ?_, ?_, ?_, ?_⟩
      · rw [b5]; exact hfee.1
      · rw [b5]; exact hfee.2
      · rw [b6]; exact htax
      · rw [b5, b6]; exact hsum
      · rw [b7]; exact hre.1
      · rw [b7]; exact hre.2
      · rw [b10]; exact hmin
      · rw [b8]; exact renameEMA_close ema data hprice
      · rw [b1]; linarith
      · rw [b2]; linarith
      · rw [b4]; simp
      · rw [b3, b4]; rfl
      · intro _ hne
        exact absurd b4 hne
    intro s row hs hrow hsell
    have hI := holding_visited srt hsrt s0 h0 s (Visited.head s hs)
    obtain ⟨e1, e2, e3⟩ := holding_sell_liquidates srt hsrt s row hI hrow hsell
    have hlen : 1 ≤ (liquidated srt row s).length := by
      cases hl : liquidated srt row s with
      | nil => exact absurd hl e3
      | cons a l => simp
    refine ⟨e1, e2, e3, hlen, ?_⟩
    have hlots := (sellAsset_lots srt hsrt row s).1.length_eq
    rw [List.length_append] at hlots
    omega
  · obtain ⟨hrow, hsell, hliq⟩ := headE1_sell
    obtain ⟨-, -, f3, -, f5, -, -, -⟩ := sellAsset_frame isort (rowFlat 85) headE1
    have hbody : loopBody isort (rowFlat 85) headE1 = sellAsset isort (rowFlat 85) headE1 := by
      obtain ⟨a1, a2, a3, a4, a5, a6, a7, a8, a9, a10, a11, a12, a13, a14, a15⟩ :=
        headE1_fields
      rw [loopBody_of_sell isort _ _ hsell]
      have hc : (sellAsset isort (rowFlat 85) headE1).capital = 0 := by
        rw [(sellAsset_money isort (rowFlat 85) headE1).1, hliq, a1]
        simp
      have hr : (sellAsset isort (rowFlat 85) headE1).reserves = 20 := by
        rw [(sellAsset_frame isort (rowFlat 85) headE1).1, a2]
      have hb : (sellAsset isort (rowFlat 85) headE1).balanceTrip = 100 := by
        rw [(sellAsset_sameConfig isort (rowFlat 85) headE1).2.2.2.2.2.2.2.2.1, a12]
      rw [hc, hr, hb]
      simp [fdiv, XRat.gt]
    refine ⟨startE_setup, headE1_atHead, hrow, hsell, hliq, ?_, ?_, ?_⟩
    · rw [hbody, sellAsset_purchaseHistory, headE1_fields.2.2.2.2.1]
      have hq := hliq
      rw [liquidated, headE1_fields.2.2.2.2.1] at hq
      have hsplit := List.takeWhile_append_dropWhile
        (qualifies (rowFlat 85).Close headE1.minReturn) (isort [purchase.mk 100 (1 / 5) 0])
      rw [hq, List.nil_append] at hsplit
      rw [hsplit]
      rfl
    · rw [hbody]; exact f3
    · rw [hbody]; exact f5

/-- Witness for C24: the Sell of sample run B liquidates its two lots. -/
theorem C24_sell_liquidates_witness :
    SortSpec isort ∧
    setup "A" 40 0 0 "d" (rowsB 5) "l" "MACD" 1 0 1 0 (1 / 10) 100 = Except.ok (startB 5) ∧
    (0 : ℚ) < 40 ∧ (∀ row ∈ rowsB 5, 0 < row.Close) ∧
    AtHead isort (startB 5) (headB3 5) ∧ curRow (headB3 5) = some (rowFlat 20) ∧
    (calcPositions (rowFlat 20) (headB3 5)).2.1 = true ∧
    liquidated isort (rowFlat 20) (headB3 5) ≠ [] := by
  have hset := sampleStart_setup 40 0 0 1 0 (1 / 10) 100 (rowsB 5)
  have hprice : ∀ row ∈ rowsB 5, 0 < row.Close := by
    intro row hrow
    simp only [rowsB, List.mem_cons, List.mem_singleton, List.not_mem_nil, or_false] at hrow
    rcases hrow with rfl | rfl | rfl | rfl <;> simp [rowUp, rowFlat]
  have hhead := headB3_atHead 5 (by norm_num)
  exact ⟨isort_spec, hset, by norm_num, hprice, hhead, headB3_sell.1, headB3_sell.2.1,
    ((C24_sell_liquidates isort isort_spec "A" 40 0 0 "d" (rowsB 5) "l" "MACD" 1 0 1 0
      (1 / 10) 100 (startB 5) hset (by norm_num) hprice (by norm_num)
      ⟨by norm_num, by norm_num⟩ (by norm_num) (by norm_num)
      ⟨by norm_num, by norm_num⟩).1 (headB3 5) (rowFlat 20) hhead headB3_sell.1
      headB3_sell.2.1).2.2.1⟩

/-! ## The sweep of `main.go` -/

/-- A wrapped value is congruent to the exact one modulo `2 ^ w`. -/
theorem wrapInt_modEq (w : Nat) (a : Int) : Int.ModEq (2 ^ w) (wrapInt w a) a := by
  unfold wrapInt
  have h := (Int.mod_modEq (a + 2 ^ (w - 1)) (2 ^ w)).sub_right (2 ^ (w - 1))
  simpa using h

/-- Congruent values wrap to the same `int`. -/
theorem wrapInt_congr (w : Nat) (a b : Int) (h : Int.ModEq (2 ^ w) a b) :
    wrapInt w a = wrapInt w b := by
  unfold wrapInt
  have h2 := h.add_right (2 ^ (w - 1))
  rw [Int.ModEq] at h2
  rw [h2]

/-- Wrapping an intermediate product does not change the wrapped final product. -/
theorem wrapInt_mul_wrap (w : Nat) (a b : Int) :
    wrapInt w (wrapInt w a * b) = wrapInt w (a * b) :=
  wrapInt_congr w _ _ ((wrapInt_modEq w a).mul_right b)

/-- A value that fits in a signed `w`-bit integer is not changed by wrapping. -/
theorem wrapInt_id (w : Nat) (n : Int) (hw : 0 < w) (h0 : 0 ≤ n) (h1 : n < 2 ^ (w - 1)) :
    wrapInt w n = n := by
  unfold wrapInt
  have hp : (2 : Int) ^ w = 2 * 2 ^ (w - 1) := by
    obtain ⟨k, rfl⟩ : ∃ k, w = k + 1 := ⟨w - 1, by omega⟩
    simp [pow_succ, mul_comm]
  have hpos : (0 : Int) < 2 ^ (w - 1) := by positivity
  rw [Int.emod_eq_of_lt (by omega) (by omega)]
  omega

/-- `getNumSims` is the wrapped product of the seven lengths. -/
theorem getNumSims_eq (w : Nat) (cfg : SweepConfig) (assets : List String) :
    getNumSims w cfg assets =
      wrapInt w ((assets.length : Int) * cfg.EMAValues.length *
        cfg.ReinvestPercentageValues.length * cfg.MinReturnValues.length *
        cfg.PercentDrop.length * cfg.BalanceTripwires.length * cfg.Strategies.length) := by
  simp only [getNumSims, mulInt, wrapInt_mul_wrap]

/-- Length of a `flatMap` whose pieces all have the same length. -/
theorem length_flatMap_const {α β : Type} (l : List α) (f : α → List β) (n : Nat)
    (h : ∀ a, (f a).length = n) : (l.flatMap f).length = l.length * n := by
  induction l with
  | nil => simp
  | cons a t ih => simp [List.flatMap_cons, ih, h, Nat.succ_mul, Nat.add_comm]

/-- The nested loops issue one call per element of the product of the seven domains. -/
theorem combinations_length (cfg : SweepConfig) (assets : List String) :
    (combinations cfg assets).length =
      assets.length * (cfg.Strategies.length * (cfg.EMAValues.length *
        (cfg.ReinvestPercentageValues.length * (cfg.MinReturnValues.length *
          (cfg.PercentDrop.length * cfg.BalanceTripwires.length))))) := by
  unfold combinations
  refine length_flatMap_const _ _ _ fun asset => ?_
  refine length_flatMap_const _ _ _ fun strat => ?_
  refine length_flatMap_const _ _ _ fun ema => ?_
  refine length_flatMap_const _ _ _ fun reinvestPerc => ?_
  refine length_flatMap_const _ _ _ fun minReturn => ?_
  refine length_flatMap_const _ _ _ fun percentDrop => ?_
  simp

/-- A task that returns has called `WG.Done` once and `bar.Increment` once, and has written
at most one result line. -/
theorem simulate_some (srt : List purchase → List purchase) (cfg : SweepConfig)
    (c : Combination) (logFile : String) (d : DataResult) (writeOk : Bool) (e : TaskEffect)
    (h : simulate srt cfg c logFile d writeOk = some e) :
    e.wgDone = 1 ∧ e.barIncrement = 1 ∧ (e.resultLines = 0 ∨ e.resultLines = 1) ∧
      (e.resultLines = 0 ↔ d = DataResult.invalidData) := by
  unfold simulate at h
  cases d with
  | invalidData =>
    simp only [Option.some.injEq] at h
    subst h
    simp
  | otherError => simp at h
  | ok data dataFile =>
    simp only at h
    split at h
    · simp at h
    · split at h
      · simp at h
      · split at h
        · simp only [Option.some.injEq] at h
          subst h
          simp
        · simp at h

/-- When every task returns, each is counted once, either as completed or as skipped, and
each has called `WG.Done` once. -/
theorem effects_count (l : List (Option TaskEffect))
    (hall : ∀ o ∈ l, ∃ e, o = some e ∧ e.wgDone = 1 ∧
      (e.resultLines = 0 ∨ e.resultLines = 1)) :
    completed l + skipped l = l.length ∧ totalDone l = l.length := by
  induction l with
  | nil => simp [completed, skipped, totalDone]
  | cons o t ih =>
    obtain ⟨e, rfl, hd, hr⟩ := hall o (List.mem_cons_self _ _)
    have iht := ih fun o ho => hall o (List.mem_cons_of_mem _ ho)
    unfold completed skipped totalDone at iht ⊢
    rcases hr with hr | hr
    · simp [List.countP_cons, hd, hr]
      omega
    · simp [List.countP_cons, hd, hr]
      omega

/-- With a frame of at least one row, a valid strategy and a result file that can be written,
a task runs to completion: one `WG.Done`, one `bar.Increment`, one result line. -/
theorem simulate_completes (srt : List purchase → List purchase) (cfg : SweepConfig)
    (c : Combination) (logFile : String) (data : List Row) (dataFile : String)
    (hv : IsValidStrategy c.strat = true) (hne : 1 ≤ data.length) :
    simulate srt cfg c logFile (DataResult.ok data dataFile) true =
      some { wgDone := 1, barIncrement := 1, resultLines := 1 } := by
  have hr2 : (SetStratParams
      (NewSimulation c.asset cfg.investmentAMT cfg.taxRate cfg.fees dataFile data logFile)
      c.strat cfg.sellCondition c.ema c.reinvestPerc c.minReturn c.percentDrop
      c.balanceTrip).2 = none := by
    simp [SetStratParams, hv]
  have hset : setup c.asset cfg.investmentAMT cfg.taxRate cfg.fees dataFile data logFile
      c.strat cfg.sellCondition c.ema c.reinvestPerc c.minReturn c.percentDrop c.balanceTrip =
      Except.ok (SetStratParams
        (NewSimulation c.asset cfg.investmentAMT cfg.taxRate cfg.fees dataFile data logFile)
        c.strat cfg.sellCondition c.ema c.reinvestPerc c.minReturn c.percentDrop
        c.balanceTrip).1 := by
    simp only [setup, hr2]
  obtain ⟨-, -, -, -, -, -, -, hdata, -, -, -, -, -, -, hidx, hrows, -, -⟩ :=
    setup_ok_fields _ _ _ _ _ _ _ _ _ _ _ _ _ _ _ hset
  have hlen : (SetStratParams
      (NewSimulation c.asset cfg.investmentAMT cfg.taxRate cfg.fees dataFile data logFile)
      c.strat cfg.sellCondition c.ema c.reinvestPerc c.minReturn c.percentDrop
      c.balanceTrip).1.dFrame.data.length = data.length := by
    rw [hdata]
    simp [renameEMA]
  obtain ⟨res, last, hrun, -⟩ := RunSimulation_eq srt _ (by rw [hrows, hlen]) hidx
    (by rw [hlen]; exact hne)
  simp only [simulate, hr2, hrun, if_true]

/-- The two tasks of the sweep over `A` and `B` both return. -/
theorem smallSweep_returns (c : Combination) (hc : c ∈ combinations smallConfig ["A", "B"]) :
    simulate isort smallConfig c "l" (smallData c) true ≠ none := by
  have hcases : (c.asset = "A" ∧ c.strat = "MACD") ∨ c.asset = "B" := by
    simp only [combinations, smallConfig, List.flatMap_cons, List.flatMap_nil, List.map_cons,
      List.map_nil, List.append_nil, List.cons_append, List.nil_append, List.mem_cons,
      List.mem_nil_iff, or_false] at hc
    rcases hc with rfl | rfl
    · exact Or.inl ⟨rfl, rfl⟩
    · exact Or.inr rfl
  rcases hcases with ⟨ha, hs⟩ | hb
  · have hd : smallData c = DataResult.ok rowsD "d" := by simp [smallData, ha]
    rw [hd, simulate_completes isort smallConfig c "l" rowsD "d"
      (by simp [hs, IsValidStrategy, strategies]) (by simp [rowsD])]
    simp
  · have hd : smallData c = DataResult.invalidData := by simp [smallData, hb]
    rw [hd]
    simp [simulate]

/-- C21 (counterexample): on a 64-bit `int`, with 512 values in each of the seven domains,
the nested loops of `main` enumerate 2^63 combinations while `getNumSims` returns -2^63. -/
theorem C21_counterexample :
    (combinations bigConfig bigAssets).length = 9223372036854775808 ∧
    getNumSims 64 bigConfig bigAssets = -9223372036854775808 ∧
    getNumSims 64 bigConfig bigAssets ≠ ((combinations bigConfig bigAssets).length : Int) := by
  have h1 : (combinations bigConfig bigAssets).length = 9223372036854775808 := by
    rw [combinations_length]
    simp only [bigConfig, bigAssets, List.length_replicate]
  have h2 : getNumSims 64 bigConfig bigAssets = -9223372036854775808 := by
    rw [getNumSims_eq]
    simp only [bigConfig, bigAssets, List.length_replicate, wrapInt]
    norm_num
  refine ⟨h1, h2, ?_⟩
  rw [h1, h2]
  norm_num

/-- C21 (amended): when the product of all domain sizes fits in Go's `int` of `w` bits, the
number of `go simulate(...)` calls issued by the nested loops of `main` equals
`getNumSims(assets)`, which is the product of all domain sizes; every task that returns
(with a result line, or skipped on `InvalidDataError`) has called `WG.Done` exactly once and
`bar.Increment` exactly once; and when every task returns, completed + skipped and the total
number of `WG.Done` calls both equal the product of all domain sizes. -/
theorem C21_sweep_count (w : Nat) (srt : List purchase → List purchase) (cfg : SweepConfig)
    (assets : List String) (logFile : Combination → String) (d : Combination → DataResult)
    (writeOk : Combination → Bool) (hw : 0 < w)
    (hfit : domainProduct cfg assets < 2 ^ (w - 1)) :
    getNumSims w cfg assets = ((combinations cfg assets).length : Int) ∧
    (combinations cfg assets).length = domainProduct cfg assets ∧
    (∀ c e, simulate srt cfg c (logFile c) (d c) (writeOk c) = some e →
      e.wgDone = 1 ∧ e.barIncrement = 1 ∧
        (e.resultLines = 0 ↔ d c = DataResult.invalidData) ∧
        (e.resultLines = 1 ↔ d c ≠ DataResult.invalidData)) ∧
    ((∀ c ∈ combinations cfg assets,
        simulate srt cfg c (logFile c) (d c) (writeOk c) ≠ none) →
      completed (sweepEffects srt cfg assets logFile d writeOk) +
          skipped (sweepEffects srt cfg assets logFile d writeOk) =
        domainProduct cfg assets ∧
      totalDone (sweepEffects srt cfg assets logFile d writeOk) =
        domainProduct cfg assets) := by
  have hlen : (combinations cfg assets).length = domainProduct cfg assets := by
    rw [combinations_length]
    unfold domainProduct
    ring
  refine ⟨?_, hlen, ?_, ?_⟩
  · rw [getNumSims_eq, hlen]
    have hprod : (assets.length : Int) * cfg.EMAValues.length *
        cfg.ReinvestPercentageValues.length * cfg.MinReturnValues.length *
        cfg.PercentDrop.length * cfg.BalanceTripwires.length * cfg.Strategies.length =
        ((domainProduct cfg assets : Nat) : Int) := by
      unfold domainProduct
      push_cast
      ring
    rw [hprod]
    exact wrapInt_id w _ hw (Int.natCast_nonneg _) (by exact_mod_cast hfit)
  · intro c e h
    obtain ⟨h1, h2, h3, h4⟩ := simulate_some srt cfg c (logFile c) (d c) (writeOk c) e h
    refine ⟨h1, h2, h4, ?_, ?_⟩
    · intro h5 hd
      have h6 := h4.2 hd
      omega
    · intro hd
      rcases h3 with h3 | h3
      · exact absurd (h4.1 h3) hd
      · exact h3
  · intro hret
    have hall : ∀ o ∈ sweepEffects srt cfg assets logFile d writeOk,
        ∃ e, o = some e ∧ e.wgDone = 1 ∧ (e.resultLines = 0 ∨ e.resultLines = 1) := by
      intro o ho
      unfold sweepEffects at ho
      obtain ⟨c, hc, rfl⟩ := List.mem_map.1 ho
      cases hs : simulate srt cfg c (logFile c) (d c) (writeOk c) with
      | none => exact absurd hs (hret c hc)
      | some e =>
        obtain ⟨h1, -, h3, -⟩ := simulate_some srt cfg c (logFile c) (d c) (writeOk c) e hs
        exact ⟨e, rfl, h1, h3⟩
    have hcount := effects_count _ hall
    have hl : (sweepEffects srt cfg assets logFile d writeOk).length =
        domainProduct cfg assets := by
      rw [← hlen]
      simp [sweepEffects]
    rw [hl] at hcount
    exact hcount

/-- Witness for C21: the sweep over the assets `A` (sample run D) and `B`
(`InvalidDataError`) with one value in every other domain, on a 64-bit `int`: two tasks,
both return, completed + skipped = 2. -/
theorem C21_sweep_count_witness :
    0 < 64 ∧ domainProduct smallConfig ["A", "B"] < 2 ^ (64 - 1) ∧
    getNumSims 64 smallConfig ["A", "B"] = 2 ∧
    completed (sweepEffects isort smallConfig ["A", "B"] (fun _ => "l") smallData
        (fun _ => true)) +
      skipped (sweepEffects isort smallConfig ["A", "B"] (fun _ => "l") smallData
        (fun _ => true)) = 2 ∧
    totalDone (sweepEffects isort smallConfig ["A", "B"] (fun _ => "l") smallData
      (fun _ => true)) = 2 := by
  have hfit : domainProduct smallConfig ["A", "B"] < 2 ^ (64 - 1) := by
    simp [domainProduct, smallConfig]
  have hprod : domainProduct smallConfig ["A", "B"] = 2 := by
    simp [domainProduct, smallConfig]
  obtain ⟨h1, h2, -, h4⟩ := C21_sweep_count 64 isort smallConfig ["A", "B"] (fun _ => "l")
    smallData (fun _ => true) (by decide) hfit
  obtain ⟨h5, h6⟩ := h4 smallSweep_returns
  rw [hprod] at h2 h5 h6
  rw [h2] at h1
  exact ⟨by decide, hfit, h1, h5, h6⟩

end Simulation_v5
